import Mathlib

/-!
# The panda bytecode interpreter (`lang/interp.c`)

A shallow embedding of the opcode handlers, of the dispatch loop and of the
host API of `lang/interp.c`, followed by theorems about them.

The headers `val.h`, `env.h`, `err.h`, `bcode.h`, `number.h`, `string.h`,
`function.h`, `array.h`, `object.h`, `parse.h` and `compile.h` are not part of
the sources at hand.  The cell type, the operand stack and the error latch are
modelled from the specification (each such definition says so); every other
helper the handlers call is a field of `Host`, every other helper the host
API calls a field of `Driver`, and nothing is assumed about either: a theorem
that needs a property of a helper states it as a hypothesis.
-/

namespace Panda

/-! ## Values (`val.h`) -/

/-- Modelled from the spec: the 64-bit cell `val_t` of `val.h`, as the tagged
sum of section 3.1 / section 9.  A number carries the bit pattern of its IEEE-754
double, a string / array / dictionary / script its heap handle, a native its
table index and a reference its `(slot_id, generation)` pair.  Two cells have the
same bit pattern exactly when they are the same term of this type. -/
inductive val_t where
  | number (bits : Nat)
  | boolean (b : Bool)
  | undefined
  | nan
  | string (h : Nat)
  | array (h : Nat)
  | dictionary (h : Nat)
  | script (h : Nat)
  | native (idx : Nat)
  | reference (id : Nat) (generation : Nat)
  deriving DecidableEq

/-- Modelled from the spec: `val_is_number` of `val.h`. -/
def val_is_number : val_t → Bool
  | .number _ => true
  | _ => false

/-- Modelled from the spec: `val_is_string` of `val.h`. -/
def val_is_string : val_t → Bool
  | .string _ => true
  | _ => false

/-- Modelled from the spec: `val_is_nan` of `val.h` (the `nan` sentinel). -/
def val_is_nan : val_t → Bool
  | .nan => true
  | _ => false

/-- Modelled from the spec: `val_is_undefined` of `val.h`. -/
def val_is_undefined : val_t → Bool
  | .undefined => true
  | _ => false

/-- Modelled from the spec: `val_is_script` of `val.h`. -/
def val_is_script : val_t → Bool
  | .script _ => true
  | _ => false

/-- Modelled from the spec: `val_is_native` of `val.h`. -/
def val_is_native : val_t → Bool
  | .native _ => true
  | _ => false

/-- Modelled from the spec: `val_is_reference` of `val.h`. -/
def val_is_reference : val_t → Bool
  | .reference _ _ => true
  | _ => false

/-- Modelled from the spec: `val_2_double` of `val.h`, the double held by a
number cell (as its bit pattern).  The handlers call it on number cells only. -/
def val_2_double : val_t → Nat
  | .number bits => bits
  | _ => 0

/-- Modelled from the spec: `val_2_reference` of `val.h`, the
`(slot_id, generation)` pair of a reference cell.  The handlers call it on
reference cells only. -/
def val_2_reference : val_t → Nat × Nat
  | .reference id generation => (id, generation)
  | _ => (0, 0)

/-! ## IEEE-754 doubles as bit patterns -/

/-- Sign bit of a double. -/
def double_sign (bits : Nat) : Nat := (bits / 2 ^ 63) % 2

/-- Biased exponent field of a double. -/
def double_exp (bits : Nat) : Nat := (bits / 2 ^ 52) % 2048

/-- Fraction field of a double. -/
def double_frac (bits : Nat) : Nat := bits % 2 ^ 52

/-- An IEEE NaN: exponent all ones and a non-zero fraction. -/
def double_is_nan (bits : Nat) : Bool := double_exp bits == 2047 && double_frac bits != 0

/-- Plus or minus zero. -/
def double_is_zero (bits : Nat) : Bool := double_exp bits == 0 && double_frac bits == 0

/-- The C expression `-d` on a double: the sign bit is flipped. -/
def double_neg (bits : Nat) : Nat :=
  if double_sign bits = 0 then bits + 2 ^ 63 else bits - 2 ^ 63

/-- The C expression `d > 0` on a double. -/
def double_gt0 (bits : Nat) : Bool :=
  !double_is_nan bits && double_sign bits == 0 && !double_is_zero bits

/-- The C expression `d >= 0` on a double. -/
def double_ge0 (bits : Nat) : Bool :=
  !double_is_nan bits && (double_sign bits == 0 || double_is_zero bits)

/-- The C expression `d < 0` on a double. -/
def double_lt0 (bits : Nat) : Bool :=
  !double_is_nan bits && double_sign bits == 1 && !double_is_zero bits

/-- The C expression `d <= 0` on a double. -/
def double_le0 (bits : Nat) : Bool :=
  !double_is_nan bits && (double_sign bits == 1 || double_is_zero bits)

/-! ## The environment (`env.h`) -/

/-- A `val_t *`: the address of an operand-stack cell (`env->sb + i`) or of a
variable slot of some scope. -/
inductive ptr where
  | stk (i : Int)
  | var (k : Nat)
  deriving DecidableEq

/-- Pointer arithmetic `p + 1`. -/
def ptr.succ : ptr → ptr
  | .stk i => .stk (i + 1)
  | .var k => .var (k + 1)

/-- Modelled from the spec: `executable_t` of `env.h` (section 3.4): the constant
tables and their entry counts. -/
structure executable_t where
  number_map : Nat → Nat
  number_num : Nat
  string_map : Nat → Int
  string_num : Nat
  func_map : Nat → Int
  func_num : Nat

/-- Modelled from the spec: `env_t` of `env.h` (section 3.2).  `sb` is the memory
of the downward-growing operand stack, `sp` the index of its top cell, `vars` the
memory of the variable slots of all scopes, `error` the error latch.  `rest`
stands for everything else the environment owns (scope chain, heaps, frames);
only the helpers of `Host` look at it. -/
structure env_t (σ : Type) where
  error : Int
  sp : Int
  fp : Int
  sb : Int → val_t
  vars : Nat → val_t
  exe : executable_t
  rest : σ

variable {σ : Type}

/-- The C expression `*p`. -/
def env_t.load (env : env_t σ) : ptr → val_t
  | .stk i => env.sb i
  | .var k => env.vars k

/-- The C statement `*p = v`. -/
def env_t.store (env : env_t σ) (p : ptr) (v : val_t) : env_t σ :=
  match p with
  | .stk i => { env with sb := Function.update env.sb i v }
  | .var k => { env with vars := Function.update env.vars k v }

/-- Modelled from the spec: `env_stack_peek` of `env.h`, `&stack[sp]`. -/
def env_stack_peek (env : env_t σ) : ptr := .stk env.sp

/-- Modelled from the spec: `env_stack_pop` of `env.h`, returns `&stack[sp]` and
then increments `sp`; the popped cell stays readable. -/
def env_stack_pop (env : env_t σ) : env_t σ × ptr :=
  ({ env with sp := env.sp + 1 }, .stk env.sp)

/-- Modelled from the spec: `env_stack_push` of `env.h`, decrements `sp` and
returns the new `&stack[sp]`. -/
def env_stack_push (env : env_t σ) : env_t σ × ptr :=
  ({ env with sp := env.sp - 1 }, .stk (env.sp - 1))

/-- Modelled from the spec: `env_stack_release` of `env.h`, shrinks the stack by
`n` cells and returns the new `&stack[sp]`. -/
def env_stack_release (env : env_t σ) (n : Int) : env_t σ × ptr :=
  ({ env with sp := env.sp + n }, .stk (env.sp + n))

/-- Modelled from the spec: `env_set_error` of `env.h`, latches the first error;
later sets are ignored. -/
def env_set_error (env : env_t σ) (code : Int) : env_t σ :=
  if env.error = 0 then { env with error := code } else env

/-- Modelled from the spec: `val_set_nan` of `val.h`. -/
def val_set_nan (env : env_t σ) (p : ptr) : env_t σ := env.store p .nan

/-- Modelled from the spec: `val_set_undefined` of `val.h`. -/
def val_set_undefined (env : env_t σ) (p : ptr) : env_t σ := env.store p .undefined

/-- Modelled from the spec: `val_set_number` of `val.h`. -/
def val_set_number (env : env_t σ) (p : ptr) (bits : Nat) : env_t σ :=
  env.store p (.number bits)

/-- Modelled from the spec: `val_set_boolean` of `val.h`. -/
def val_set_boolean (env : env_t σ) (p : ptr) (b : Bool) : env_t σ :=
  env.store p (.boolean b)

/-- Modelled from the spec: `val_set_array` of `val.h`. -/
def val_set_array (env : env_t σ) (p : ptr) (h : Nat) : env_t σ := env.store p (.array h)

/-- Modelled from the spec: `val_set_dictionary` of `val.h`. -/
def val_set_dictionary (env : env_t σ) (p : ptr) (h : Nat) : env_t σ :=
  env.store p (.dictionary h)

/-- Modelled from the spec: `env_push_undefined` of `env.h`. -/
def env_push_undefined (env : env_t σ) : env_t σ :=
  let (env, p) := env_stack_push env
  val_set_undefined env p

/-- Modelled from the spec: `env_push_nan` of `env.h`. -/
def env_push_nan (env : env_t σ) : env_t σ :=
  let (env, p) := env_stack_push env
  val_set_nan env p

/-- Modelled from the spec: `env_push_boolean` of `env.h`. -/
def env_push_boolean (env : env_t σ) (b : Bool) : env_t σ :=
  let (env, p) := env_stack_push env
  val_set_boolean env p b

/-- Modelled from the spec: `env_push_zero` of `env.h`, pushes the number `0`. -/
def env_push_zero (env : env_t σ) : env_t σ :=
  let (env, p) := env_stack_push env
  val_set_number env p 0

/-- Modelled from the spec: `env_push_script` of `env.h`. -/
def env_push_script (env : env_t σ) (fn : Nat) : env_t σ :=
  let (env, p) := env_stack_push env
  env.store p (.script fn)

/-! ## Missing collaborators -/

/-- The ten arithmetic operators that index the families `number_*`,
`object_prop_*_set` and `object_elem_*_set`; the spellings are those of the
helper names (`number_mul`, `number_and`, `object_prop_lshift_set`, ...). -/
inductive arith where
  | mul | div | mod | add | sub | and | or | xor | lshift | rshift
  deriving DecidableEq

/-- The opcodes that label the cases of the dispatch switch of `interp_run`. -/
inductive bcode where
  | BC_STOP | BC_PASS | BC_RET0 | BC_RET
  | BC_SJMP | BC_JMP | BC_SJMP_T | BC_SJMP_F | BC_JMP_T | BC_JMP_F
  | BC_POP_SJMP_T | BC_POP_SJMP_F | BC_POP_JMP_T | BC_POP_JMP_F
  | BC_PUSH_UND | BC_PUSH_NAN | BC_PUSH_TRUE | BC_PUSH_FALSE | BC_PUSH_ZERO
  | BC_PUSH_NUM | BC_PUSH_STR | BC_PUSH_VAR | BC_PUSH_REF
  | BC_PUSH_SCRIPT | BC_PUSH_NATIVE | BC_POP
  | BC_NEG | BC_NOT | BC_LOGIC_NOT
  | BC_MUL | BC_DIV | BC_MOD | BC_ADD | BC_SUB
  | BC_AAND | BC_AOR | BC_AXOR | BC_LSHIFT | BC_RSHIFT
  | BC_TEQ | BC_TNE | BC_TGT | BC_TGE | BC_TLT | BC_TLE | BC_TIN
  | BC_PROP | BC_PROP_METH | BC_ELEM | BC_ELEM_METH
  | BC_ASSIGN | BC_ADD_ASSIGN | BC_SUB_ASSIGN | BC_MUL_ASSIGN | BC_DIV_ASSIGN
  | BC_MOD_ASSIGN | BC_AND_ASSIGN | BC_OR_ASSIGN | BC_XOR_ASSIGN
  | BC_LSHIFT_ASSIGN | BC_RSHIFT_ASSIGN
  | BC_PROP_ASSIGN | BC_PROP_ADD_ASSIGN | BC_PROP_SUB_ASSIGN | BC_PROP_MUL_ASSIGN
  | BC_PROP_DIV_ASSIGN | BC_PROP_MOD_ASSIGN | BC_PROP_AND_ASSIGN | BC_PROP_OR_ASSIGN
  | BC_PROP_XOR_ASSIGN | BC_PROP_LSHIFT_ASSIGN | BC_PROP_RSHIFT_ASSIGN
  | BC_ELEM_ASSIGN | BC_ELEM_ADD_ASSIGN | BC_ELEM_SUB_ASSIGN | BC_ELEM_MUL_ASSIGN
  | BC_ELEM_DIV_ASSIGN | BC_ELEM_MOD_ASSIGN | BC_ELEM_AND_ASSIGN | BC_ELEM_OR_ASSIGN
  | BC_ELEM_XOR_ASSIGN | BC_ELEM_LSHIFT_ASSIGN | BC_ELEM_RSHIFT_ASSIGN
  | BC_FUNC_CALL | BC_ARRAY | BC_DICT
  deriving DecidableEq

/-- Everything `interp.c` uses whose definition is in a header that is not at
hand: the error codes of `err.h`, the opcode numbering of `bcode.h`, double
arithmetic, and the helper functions of `val.h`, `env.h`, `number.h`,
`string.h`, `function.h`, `array.h` and `object.h`.  A helper that receives
`env` may change any part of it; a `val_t *` argument is passed as a `ptr`. -/
structure Host (σ : Type) where
  /-- Error code of the same name in `err.h`. -/
  ERR_NotEnoughMemory : Int
  /-- Error code of the same name in `err.h`. -/
  ERR_InvalidByteCode : Int
  /-- Error code of the same name in `err.h`. -/
  ERR_InvalidLeftValue : Int
  /-- Error code of the same name in `err.h`. -/
  ERR_InvalidCallor : Int
  /-- Error code of the same name in `err.h`. -/
  ERR_InvalidInput : Int
  /-- Error code of the same name in `err.h`. -/
  ERR_SysError : Int
  /-- The opcode whose enumerator in `bcode.h` has the given byte value. -/
  bcode_of_byte : Nat → Option bcode
  /-- The C expression `x - y` on doubles. -/
  double_sub : Nat → Nat → Nat
  /-- The conversion `(double) i` of an `int`. -/
  int_2_double : Int → Nat
  /-- Helper `val_2_integer` of `val.h`. -/
  val_2_integer : val_t → Int
  /-- Helper `val_is_true` of `val.h`; the environment stands for the memory
  a string handle points into. -/
  val_is_true : env_t σ → val_t → Bool
  /-- Helpers `number_mul`, `number_div`, ... of `number.h`, called as
  `number_op(env, a, b, res)`. -/
  number : arith → env_t σ → ptr → ptr → ptr → env_t σ
  /-- Helper `string_add(env, a, b, res)` of `string.h`. -/
  string_add : env_t σ → ptr → ptr → ptr → env_t σ
  /-- Helper `string_compare(a, b)` of `string.h`; the environment stands for
  the memory the string handles point into. -/
  string_compare : env_t σ → val_t → val_t → Int
  /-- Helper `env_get_var(env, id, generation)` of `env.h`; `none` is `NULL`. -/
  env_get_var : env_t σ → Nat → Nat → Option ptr
  /-- Helper `env_frame_setup(env, pc, fn, ac, av)` of `env.h`; returns the
  new environment and the returned code pointer. -/
  env_frame_setup : env_t σ → Int → ptr → Nat → ptr → env_t σ × Int
  /-- Helper `env_native_call(env, fn, ac, av)` of `env.h`. -/
  env_native_call : env_t σ → ptr → Nat → ptr → env_t σ
  /-- Helper `env_frame_restore(env, &pc, &env->scope)` of `env.h`; returns
  the new environment and the new `pc`. -/
  env_frame_restore : env_t σ → Int → env_t σ × Int
  /-- Helper `array_create(env, n, av)` of `array.h`; handle `0` is failure. -/
  array_create : env_t σ → Nat → ptr → env_t σ × Nat
  /-- Helper `object_create(env, n, av)` of `object.h`; handle `0` is failure. -/
  object_create : env_t σ → Nat → ptr → env_t σ × Nat
  /-- Helper `object_prop_get(env, obj, key, res)` of `object.h`. -/
  object_prop_get : env_t σ → ptr → ptr → ptr → env_t σ
  /-- Helper `object_elem_get(env, obj, key, res)` of `object.h`. -/
  object_elem_get : env_t σ → ptr → ptr → ptr → env_t σ
  /-- Helper `object_prop_set(env, obj, key, val)` of `object.h`. -/
  object_prop_set : env_t σ → ptr → ptr → ptr → env_t σ
  /-- Helper `object_elem_set(env, obj, key, val)` of `object.h`. -/
  object_elem_set : env_t σ → ptr → ptr → ptr → env_t σ
  /-- Helpers `object_prop_add_set`, ... of `object.h`, called as
  `object_prop_op_set(env, obj, key, val, res)`. -/
  object_prop_op_set : arith → env_t σ → ptr → ptr → ptr → ptr → env_t σ
  /-- Helpers `object_elem_add_set`, ... of `object.h`, called as
  `object_elem_op_set(env, obj, key, val, res)`. -/
  object_elem_op_set : arith → env_t σ → ptr → ptr → ptr → ptr → env_t σ
  /-- Helper `function_create(env, entry)` of `function.h`; `0` is failure. -/
  function_create : env_t σ → Int → env_t σ × Nat
  /-- Helper `env_push_number(env, index)` of `env.h`. -/
  env_push_number : env_t σ → Nat → env_t σ
  /-- Helper `env_push_string(env, index)` of `env.h`. -/
  env_push_string : env_t σ → Nat → env_t σ
  /-- Helper `env_push_var(env, index, generation)` of `env.h`. -/
  env_push_var : env_t σ → Nat → Nat → env_t σ
  /-- Helper `env_push_ref(env, index, generation)` of `env.h`. -/
  env_push_ref : env_t σ → Nat → Nat → env_t σ
  /-- Helper `env_push_native(env, index)` of `env.h`. -/
  env_push_native : env_t σ → Nat → env_t σ

/-! ## Unary and binary arithmetic handlers (`interp.c` lines 40-189) -/

/-- Source `interp_neg`, lines 40-48. -/
def interp_neg (env : env_t σ) : env_t σ :=
  let v := env_stack_peek env
  if val_is_number (env.load v) then
    val_set_number env v (double_neg (val_2_double (env.load v)))
  else
    val_set_nan env v

/-- Source `interp_not`, lines 50-58; `~i` on an `int` is `-i - 1`. -/
def interp_not (H : Host σ) (env : env_t σ) : env_t σ :=
  let v := env_stack_peek env
  if val_is_number (env.load v) then
    val_set_number env v (H.int_2_double (-(H.val_2_integer (env.load v)) - 1))
  else
    val_set_nan env v

/-- Source `interp_logic_not`, lines 60-64. -/
def interp_logic_not (H : Host σ) (env : env_t σ) : env_t σ :=
  let v := env_stack_peek env
  val_set_boolean env v (!H.val_is_true env (env.load v))

/-- The body shared, word for word, by `interp_mul`, `interp_div`,
`interp_mod`, `interp_sub`, `interp_and`, `interp_or`, `interp_xor`,
`interp_lshift` and `interp_rshift`: pop `b`, take `a = b + 1` as left operand
and result cell, call `number_op` when `a` is a number, else store `nan`. -/
def interp_number_op (H : Host σ) (op : arith) (env : env_t σ) : env_t σ :=
  let (env, b) := env_stack_pop env
  let a := b.succ
  let res := a
  if val_is_number (env.load a) then
    H.number op env a b res
  else
    val_set_nan env res

/-- Source `interp_mul`, lines 66-76. -/
def interp_mul (H : Host σ) (env : env_t σ) : env_t σ := interp_number_op H .mul env

/-- Source `interp_div`, lines 78-88. -/
def interp_div (H : Host σ) (env : env_t σ) : env_t σ := interp_number_op H .div env

/-- Source `interp_mod`, lines 90-100. -/
def interp_mod (H : Host σ) (env : env_t σ) : env_t σ := interp_number_op H .mod env

/-- Source `interp_add`, lines 102-117: `b` is only peeked while the helpers
run, and popped afterwards. -/
def interp_add (H : Host σ) (env : env_t σ) : env_t σ :=
  let b := env_stack_peek env
  let a := b.succ
  let res := a
  let env :=
    if val_is_number (env.load a) then
      H.number .add env a b res
    else if val_is_string (env.load a) then
      H.string_add env a b res
    else
      val_set_nan env res
  (env_stack_pop env).1

/-- Source `interp_sub`, lines 119-129. -/
def interp_sub (H : Host σ) (env : env_t σ) : env_t σ := interp_number_op H .sub env

/-- Source `interp_and`, lines 131-141. -/
def interp_and (H : Host σ) (env : env_t σ) : env_t σ := interp_number_op H .and env

/-- Source `interp_or`, lines 143-153. -/
def interp_or (H : Host σ) (env : env_t σ) : env_t σ := interp_number_op H .or env

/-- Source `interp_xor`, lines 155-165. -/
def interp_xor (H : Host σ) (env : env_t σ) : env_t σ := interp_number_op H .xor env

/-- Source `interp_lshift`, lines 167-177. -/
def interp_lshift (H : Host σ) (env : env_t σ) : env_t σ := interp_number_op H .lshift env

/-- Source `interp_rshift`, lines 179-189. -/
def interp_rshift (H : Host σ) (env : env_t σ) : env_t σ := interp_number_op H .rshift env

/-! ## Comparison handlers (`interp.c` lines 191-297) -/

/-- Source `interp_test_equal`, lines 191-201.  `a` and `b` are the contents
of the two cells; `*a == *b` compares their bit patterns. -/
def interp_test_equal (H : Host σ) (env : env_t σ) (a b : val_t) : Bool :=
  if a = b then
    !(val_is_nan a || val_is_undefined a)
  else
    if val_is_string a then
      decide (H.string_compare env a b = 0)
    else
      false

/-- Source `interp_teq`, lines 203-209. -/
def interp_teq (H : Host σ) (env : env_t σ) : env_t σ :=
  let (env, b) := env_stack_pop env
  let a := b.succ
  let res := a
  val_set_boolean env res (interp_test_equal H env (env.load a) (env.load b))

/-- Source `interp_tne`, lines 211-217. -/
def interp_tne (H : Host σ) (env : env_t σ) : env_t σ :=
  let (env, b) := env_stack_pop env
  let a := b.succ
  let res := a
  val_set_boolean env res (!interp_test_equal H env (env.load a) (env.load b))

/-- Source `interp_tgt`, lines 219-237. -/
def interp_tgt (H : Host σ) (env : env_t σ) : env_t σ :=
  let (env, b) := env_stack_pop env
  let a := b.succ
  let res := a
  if val_is_number (env.load a) then
    if val_is_number (env.load b) then
      val_set_boolean env res
        (double_gt0 (H.double_sub (val_2_double (env.load a)) (val_2_double (env.load b))))
    else
      val_set_boolean env res false
  else if val_is_string (env.load a) then
    if val_is_string (env.load b) then
      val_set_boolean env res (decide (H.string_compare env (env.load a) (env.load b) > 0))
    else
      val_set_boolean env res false
  else
    val_set_boolean env res false

/-- Source `interp_tge`, lines 239-257. -/
def interp_tge (H : Host σ) (env : env_t σ) : env_t σ :=
  let (env, b) := env_stack_pop env
  let a := b.succ
  let res := a
  if val_is_number (env.load a) then
    if val_is_number (env.load b) then
      val_set_boolean env res
        (double_ge0 (H.double_sub (val_2_double (env.load a)) (val_2_double (env.load b))))
    else
      val_set_boolean env res false
  else if val_is_string (env.load a) then
    if val_is_string (env.load b) then
      val_set_boolean env res (decide (H.string_compare env (env.load a) (env.load b) ≥ 0))
    else
      val_set_boolean env res false
  else
    val_set_boolean env res false

/-- Source `interp_tlt`, lines 259-277. -/
def interp_tlt (H : Host σ) (env : env_t σ) : env_t σ :=
  let (env, b) := env_stack_pop env
  let a := b.succ
  let res := a
  if val_is_number (env.load a) then
    if val_is_number (env.load b) then
      val_set_boolean env res
        (double_lt0 (H.double_sub (val_2_double (env.load a)) (val_2_double (env.load b))))
    else
      val_set_boolean env res false
  else if val_is_string (env.load a) then
    if val_is_string (env.load b) then
      val_set_boolean env res (decide (H.string_compare env (env.load a) (env.load b) < 0))
    else
      val_set_boolean env res false
  else
    val_set_boolean env res false

/-- Source `interp_tle`, lines 279-297. -/
def interp_tle (H : Host σ) (env : env_t σ) : env_t σ :=
  let (env, b) := env_stack_pop env
  let a := b.succ
  let res := a
  if val_is_number (env.load a) then
    if val_is_number (env.load b) then
      val_set_boolean env res
        (double_le0 (H.double_sub (val_2_double (env.load a)) (val_2_double (env.load b))))
    else
      val_set_boolean env res false
  else if val_is_string (env.load a) then
    if val_is_string (env.load b) then
      val_set_boolean env res (decide (H.string_compare env (env.load a) (env.load b) ≤ 0))
    else
      val_set_boolean env res false
  else
    val_set_boolean env res false

/-! ## Assignment handlers (`interp.c` lines 299-534) -/

/-- Source `interp_assign`, lines 299-316.  `*res = *lft = *rht` stores the
right-hand value in the variable first and in the reference cell second. -/
def interp_assign (H : Host σ) (env : env_t σ) : env_t σ :=
  let rht := env_stack_peek env
  let lft := rht.succ
  if val_is_reference (env.load lft) then
    let res := lft
    let (id, generation) := val_2_reference (env.load lft)
    match H.env_get_var env id generation with
    | some lft =>
      let v := env.load rht
      let env := env.store lft v
      let env := env.store res v
      (env_stack_pop env).1
    | none => env_set_error env H.ERR_InvalidLeftValue
  else
    env_set_error env H.ERR_InvalidLeftValue

/-- Source `interp_add_assign`, lines 318-345. -/
def interp_add_assign (H : Host σ) (env : env_t σ) : env_t σ :=
  let rht := env_stack_peek env
  let lft := rht.succ
  if val_is_reference (env.load lft) then
    let res := lft
    let (id, generation) := val_2_reference (env.load lft)
    match H.env_get_var env id generation with
    | some lft =>
      let env :=
        if val_is_number (env.load lft) then
          H.number .add env lft rht lft
        else if val_is_string (env.load lft) then
          H.string_add env lft rht lft
        else
          val_set_nan env lft
      let env := env.store res (env.load lft)
      (env_stack_pop env).1
    | none => env_set_error env H.ERR_InvalidLeftValue
  else
    env_set_error env H.ERR_InvalidLeftValue

/-- The body shared, word for word, by `interp_sub_assign`,
`interp_mul_assign`, `interp_div_assign`, `interp_mod_assign`,
`interp_and_assign`, `interp_or_assign`, `interp_xor_assign`,
`interp_lshift_assign` and `interp_rshift_assign` (lines 347-534): the target
must resolve and hold a number, else `ERR_InvalidLeftValue`. -/
def interp_number_assign (H : Host σ) (op : arith) (env : env_t σ) : env_t σ :=
  let rht := env_stack_peek env
  let lft := rht.succ
  if val_is_reference (env.load lft) then
    let res := lft
    let (id, generation) := val_2_reference (env.load lft)
    match H.env_get_var env id generation with
    | some lft =>
      if val_is_number (env.load lft) then
        let env := H.number op env lft rht lft
        let env := env.store res (env.load lft)
        (env_stack_pop env).1
      else
        env_set_error env H.ERR_InvalidLeftValue
    | none => env_set_error env H.ERR_InvalidLeftValue
  else
    env_set_error env H.ERR_InvalidLeftValue

/-- Source `interp_sub_assign`, lines 347-366. -/
def interp_sub_assign (H : Host σ) (env : env_t σ) : env_t σ := interp_number_assign H .sub env

/-- Source `interp_mul_assign`, lines 368-387. -/
def interp_mul_assign (H : Host σ) (env : env_t σ) : env_t σ := interp_number_assign H .mul env

/-- Source `interp_div_assign`, lines 389-408. -/
def interp_div_assign (H : Host σ) (env : env_t σ) : env_t σ := interp_number_assign H .div env

/-- Source `interp_mod_assign`, lines 410-429. -/
def interp_mod_assign (H : Host σ) (env : env_t σ) : env_t σ := interp_number_assign H .mod env

/-- Source `interp_and_assign`, lines 431-450. -/
def interp_and_assign (H : Host σ) (env : env_t σ) : env_t σ := interp_number_assign H .and env

/-- Source `interp_or_assign`, lines 452-471. -/
def interp_or_assign (H : Host σ) (env : env_t σ) : env_t σ := interp_number_assign H .or env

/-- Source `interp_xor_assign`, lines 473-492. -/
def interp_xor_assign (H : Host σ) (env : env_t σ) : env_t σ := interp_number_assign H .xor env

/-- Source `interp_lshift_assign`, lines 494-513. -/
def interp_lshift_assign (H : Host σ) (env : env_t σ) : env_t σ :=
  interp_number_assign H .lshift env

/-- Source `interp_rshift_assign`, lines 515-534. -/
def interp_rshift_assign (H : Host σ) (env : env_t σ) : env_t σ :=
  interp_number_assign H .rshift env

/-! ## Calls, literals and property access (`interp.c` lines 536-848) -/

/-- Source `interp_call`, lines 536-549: returns the environment and the code
pointer handed back to the loop. -/
def interp_call (H : Host σ) (env : env_t σ) (ac : Nat) (pc : Int) : env_t σ × Int :=
  let fn := env_stack_peek env
  let av := fn.succ
  if val_is_script (env.load fn) then
    H.env_frame_setup env pc fn ac av
  else if val_is_native (env.load fn) then
    (H.env_native_call env fn ac av, pc)
  else
    (env_set_error env H.ERR_InvalidCallor, pc)

/-- Source `interp_array`, lines 551-560. -/
def interp_array (H : Host σ) (env : env_t σ) (n : Nat) : env_t σ :=
  let av := env_stack_peek env
  let (env, array) := H.array_create env n av
  if array ≠ 0 then
    let (env, p) := env_stack_release env ((n : Int) - 1)
    val_set_array env p array
  else
    let (env, p) := env_stack_release env ((n : Int) - 1)
    val_set_undefined env p

/-- Source `interp_dict`, lines 562-571. -/
def interp_dict (H : Host σ) (env : env_t σ) (n : Nat) : env_t σ :=
  let av := env_stack_peek env
  let (env, dict) := H.object_create env n av
  if dict ≠ 0 then
    let (env, p) := env_stack_release env ((n : Int) - 1)
    val_set_dictionary env p dict
  else
    let (env, p) := env_stack_release env ((n : Int) - 1)
    val_set_undefined env p

/-- Source `interp_prop_self`, lines 573-580. -/
def interp_prop_self (H : Host σ) (env : env_t σ) : env_t σ :=
  let key := env_stack_peek env
  let self := key.succ
  let prop := key
  H.object_prop_get env self key prop

/-- Source `interp_prop_get`, lines 582-589. -/
def interp_prop_get (H : Host σ) (env : env_t σ) : env_t σ :=
  let key := env_stack_peek env
  let obj := key.succ
  let res := obj
  let env := H.object_prop_get env obj key res
  (env_stack_pop env).1

/-- Source `interp_elem_self`, lines 591-597. -/
def interp_elem_self (H : Host σ) (env : env_t σ) : env_t σ :=
  let key := env_stack_peek env
  let obj := key.succ
  let res := key
  H.object_elem_get env obj key res

/-- Source `interp_elem_get`, lines 599-606. -/
def interp_elem_get (H : Host σ) (env : env_t σ) : env_t σ :=
  let key := env_stack_peek env
  let obj := key.succ
  let res := obj
  let env := H.object_elem_get env obj key res
  (env_stack_pop env).1

/-- Source `interp_prop_set`, lines 608-617. -/
def interp_prop_set (H : Host σ) (env : env_t σ) : env_t σ :=
  let val := env_stack_peek env
  let key := val.succ
  let obj := key.succ
  let res := obj
  let env := H.object_prop_set env obj key val
  let env := (env_stack_release env 2).1
  env.store res (env.load val)

/-- Source `interp_elem_set`, lines 619-628. -/
def interp_elem_set (H : Host σ) (env : env_t σ) : env_t σ :=
  let val := env_stack_peek env
  let key := val.succ
  let obj := key.succ
  let res := obj
  let env := H.object_elem_set env obj key val
  let env := (env_stack_release env 2).1
  env.store res (env.load val)

/-- The body shared, word for word, by `interp_prop_add_set`,
`interp_prop_sub_set`, ..., `interp_prop_rshift_set` (lines 630-828). -/
def interp_prop_op_set (H : Host σ) (op : arith) (env : env_t σ) : env_t σ :=
  let val := env_stack_peek env
  let key := val.succ
  let obj := key.succ
  let res := obj
  let env := H.object_prop_op_set op env obj key val res
  (env_stack_release env 2).1

/-- The body shared, word for word, by `interp_elem_add_set`,
`interp_elem_sub_set`, ..., `interp_elem_rshift_set` (lines 640-828). -/
def interp_elem_op_set (H : Host σ) (op : arith) (env : env_t σ) : env_t σ :=
  let val := env_stack_peek env
  let key := val.succ
  let obj := key.succ
  let res := obj
  let env := H.object_elem_op_set op env obj key val res
  (env_stack_release env 2).1

/-- Source `interp_push_function`, lines 830-848. -/
def interp_push_function (H : Host σ) (env : env_t σ) (id : Nat) : env_t σ :=
  if id ≥ env.exe.func_num then
    env_set_error env H.ERR_SysError
  else
    let entry := env.exe.func_map id
    let (env, fn) := H.function_create env entry
    if fn = 0 then
      env_set_error env H.ERR_SysError
    else
      env_push_script env fn

/-! ## The dispatch loop (`interp.c` lines 869-1059) -/

/-- The C conversion `(int8_t) b` of a byte. -/
def int8_of_byte (b : Nat) : Int := if b % 256 < 128 then (b % 256 : Nat) else (b % 256 : Nat) - 256

/-- The operand decoding `index = (int8_t) (*pc++); index = (index << 8) | (*pc++)`
of the long jumps. -/
def jmp_index (hi lo : Nat) : Int := Int.lor (int8_of_byte hi <<< 8) (lo : Int)

/-- The operand decoding `index = (*pc++); index = (index << 8) | (*pc++)` of
`BC_PUSH_SCRIPT`, `BC_PUSH_NATIVE`, `BC_ARRAY` and `BC_DICT`. -/
def u16_index_or (hi lo : Nat) : Nat := (hi <<< 8) ||| lo

/-- The operand decoding `index = (*pc++); index = (index << 8) + (*pc++)` of
`BC_PUSH_NUM` and `BC_PUSH_STR`. -/
def u16_index_add (hi lo : Nat) : Nat := (hi <<< 8) + lo

/-- The conditional forms of the jumps: `pc` is the address after the operand,
`index` the decoded offset. -/
def jump_if (c : Bool) (pc index : Int) : Int := if c then pc + index else pc

/-- The `switch (code)` of `interp_run`, lines 880-1055, for a byte that is an
opcode.  `code` is the code memory and `pc` the address after the opcode byte.
The result is the environment and the `pc` after the instruction; `none` is the
`goto DO_END` of `BC_STOP`. -/
def interp_switch (H : Host σ) (code : Int → Nat) (env : env_t σ) (pc : Int) :
    bcode → Option (env_t σ × Int)
  | .BC_STOP => none
  | .BC_PASS => some (env, pc)
  | .BC_RET0 =>
    let (env, pc) := H.env_frame_restore env pc
    some (env_push_undefined env, pc)
  | .BC_RET =>
    let res := env_stack_peek env
    let (env, pc) := H.env_frame_restore env pc
    let (env, p) := env_stack_push env
    some (env.store p (env.load res), pc)
  | .BC_SJMP => some (env, pc + 1 + int8_of_byte (code pc))
  | .BC_JMP => some (env, pc + 2 + jmp_index (code pc) (code (pc + 1)))
  | .BC_SJMP_T =>
    some (env, jump_if (H.val_is_true env (env.load (env_stack_peek env)))
      (pc + 1) (int8_of_byte (code pc)))
  | .BC_SJMP_F =>
    some (env, jump_if (!H.val_is_true env (env.load (env_stack_peek env)))
      (pc + 1) (int8_of_byte (code pc)))
  | .BC_JMP_T =>
    some (env, jump_if (H.val_is_true env (env.load (env_stack_peek env)))
      (pc + 2) (jmp_index (code pc) (code (pc + 1))))
  | .BC_JMP_F =>
    some (env, jump_if (!H.val_is_true env (env.load (env_stack_peek env)))
      (pc + 2) (jmp_index (code pc) (code (pc + 1))))
  | .BC_POP_SJMP_T =>
    let (env, v) := env_stack_pop env
    some (env, jump_if (H.val_is_true env (env.load v)) (pc + 1) (int8_of_byte (code pc)))
  | .BC_POP_SJMP_F =>
    let (env, v) := env_stack_pop env
    some (env, jump_if (!H.val_is_true env (env.load v)) (pc + 1) (int8_of_byte (code pc)))
  | .BC_POP_JMP_T =>
    let (env, v) := env_stack_pop env
    some (env, jump_if (H.val_is_true env (env.load v))
      (pc + 2) (jmp_index (code pc) (code (pc + 1))))
  | .BC_POP_JMP_F =>
    let (env, v) := env_stack_pop env
    some (env, jump_if (!H.val_is_true env (env.load v))
      (pc + 2) (jmp_index (code pc) (code (pc + 1))))
  | .BC_PUSH_UND => some (env_push_undefined env, pc)
  | .BC_PUSH_NAN => some (env_push_nan env, pc)
  | .BC_PUSH_TRUE => some (env_push_boolean env true, pc)
  | .BC_PUSH_FALSE => some (env_push_boolean env false, pc)
  | .BC_PUSH_ZERO => some (env_push_zero env, pc)
  | .BC_PUSH_NUM => some (H.env_push_number env (u16_index_add (code pc) (code (pc + 1))), pc + 2)
  | .BC_PUSH_STR => some (H.env_push_string env (u16_index_add (code pc) (code (pc + 1))), pc + 2)
  | .BC_PUSH_VAR => some (H.env_push_var env (code pc) (code (pc + 1)), pc + 2)
  | .BC_PUSH_REF => some (H.env_push_ref env (code pc) (code (pc + 1)), pc + 2)
  | .BC_PUSH_SCRIPT =>
    some (interp_push_function H env (u16_index_or (code pc) (code (pc + 1))), pc + 2)
  | .BC_PUSH_NATIVE =>
    some (H.env_push_native env (u16_index_or (code pc) (code (pc + 1))), pc + 2)
  | .BC_POP => some ((env_stack_pop env).1, pc)
  | .BC_NEG => some (interp_neg env, pc)
  | .BC_NOT => some (interp_not H env, pc)
  | .BC_LOGIC_NOT => some (interp_logic_not H env, pc)
  | .BC_MUL => some (interp_mul H env, pc)
  | .BC_DIV => some (interp_div H env, pc)
  | .BC_MOD => some (interp_mod H env, pc)
  | .BC_ADD => some (interp_add H env, pc)
  | .BC_SUB => some (interp_sub H env, pc)
  | .BC_AAND => some (interp_and H env, pc)
  | .BC_AOR => some (interp_or H env, pc)
  | .BC_AXOR => some (interp_xor H env, pc)
  | .BC_LSHIFT => some (interp_lshift H env, pc)
  | .BC_RSHIFT => some (interp_rshift H env, pc)
  | .BC_TEQ => some (interp_teq H env, pc)
  | .BC_TNE => some (interp_tne H env, pc)
  | .BC_TGT => some (interp_tgt H env, pc)
  | .BC_TGE => some (interp_tge H env, pc)
  | .BC_TLT => some (interp_tlt H env, pc)
  | .BC_TLE => some (interp_tle H env, pc)
  | .BC_TIN => some (env_set_error env H.ERR_InvalidByteCode, pc)
  | .BC_PROP => some (interp_prop_get H env, pc)
  | .BC_PROP_METH => some (interp_prop_self H env, pc)
  | .BC_ELEM => some (interp_elem_get H env, pc)
  | .BC_ELEM_METH => some (interp_elem_self H env, pc)
  | .BC_ASSIGN => some (interp_assign H env, pc)
  | .BC_ADD_ASSIGN => some (interp_add_assign H env, pc)
  | .BC_SUB_ASSIGN => some (interp_sub_assign H env, pc)
  | .BC_MUL_ASSIGN => some (interp_mul_assign H env, pc)
  | .BC_DIV_ASSIGN => some (interp_div_assign H env, pc)
  | .BC_MOD_ASSIGN => some (interp_mod_assign H env, pc)
  | .BC_AND_ASSIGN => some (interp_and_assign H env, pc)
  | .BC_OR_ASSIGN => some (interp_or_assign H env, pc)
  | .BC_XOR_ASSIGN => some (interp_xor_assign H env, pc)
  | .BC_LSHIFT_ASSIGN => some (interp_lshift_assign H env, pc)
  | .BC_RSHIFT_ASSIGN => some (interp_rshift_assign H env, pc)
  | .BC_PROP_ASSIGN => some (interp_prop_set H env, pc)
  | .BC_PROP_ADD_ASSIGN => some (interp_prop_op_set H .add env, pc)
  | .BC_PROP_SUB_ASSIGN => some (interp_prop_op_set H .sub env, pc)
  | .BC_PROP_MUL_ASSIGN => some (interp_prop_op_set H .mul env, pc)
  | .BC_PROP_DIV_ASSIGN => some (interp_prop_op_set H .div env, pc)
  | .BC_PROP_MOD_ASSIGN => some (interp_prop_op_set H .mod env, pc)
  | .BC_PROP_AND_ASSIGN => some (interp_prop_op_set H .and env, pc)
  | .BC_PROP_OR_ASSIGN => some (interp_prop_op_set H .or env, pc)
  | .BC_PROP_XOR_ASSIGN => some (interp_prop_op_set H .xor env, pc)
  | .BC_PROP_LSHIFT_ASSIGN => some (interp_prop_op_set H .lshift env, pc)
  | .BC_PROP_RSHIFT_ASSIGN => some (interp_prop_op_set H .rshift env, pc)
  | .BC_ELEM_ASSIGN => some (interp_elem_set H env, pc)
  | .BC_ELEM_ADD_ASSIGN => some (interp_elem_op_set H .add env, pc)
  | .BC_ELEM_SUB_ASSIGN => some (interp_elem_op_set H .sub env, pc)
  | .BC_ELEM_MUL_ASSIGN => some (interp_elem_op_set H .mul env, pc)
  | .BC_ELEM_DIV_ASSIGN => some (interp_elem_op_set H .div env, pc)
  | .BC_ELEM_MOD_ASSIGN => some (interp_elem_op_set H .mod env, pc)
  | .BC_ELEM_AND_ASSIGN => some (interp_elem_op_set H .and env, pc)
  | .BC_ELEM_OR_ASSIGN => some (interp_elem_op_set H .or env, pc)
  | .BC_ELEM_XOR_ASSIGN => some (interp_elem_op_set H .xor env, pc)
  | .BC_ELEM_LSHIFT_ASSIGN => some (interp_elem_op_set H .lshift env, pc)
  | .BC_ELEM_RSHIFT_ASSIGN => some (interp_elem_op_set H .rshift env, pc)
  | .BC_FUNC_CALL => some (interp_call H env (code pc) (pc + 1))
  | .BC_ARRAY => some (interp_array H env (u16_index_or (code pc) (code (pc + 1))), pc + 2)
  | .BC_DICT => some (interp_dict H env (u16_index_or (code pc) (code (pc + 1))), pc + 2)

/-- Source `interp_run`, lines 869-1059.  One unit of `fuel` is one test of
the loop condition; `none` means the fuel ran out before the loop ended.  The
result is the environment at exit and the returned `int`, `-env->error`. -/
def interp_run (H : Host σ) (code : Int → Nat) : Nat → env_t σ → Int → Option (env_t σ × Int)
  | 0, _, _ => none
  | fuel + 1, env, pc =>
    if env.error ≠ 0 then
      some (env, -env.error)
    else
      match H.bcode_of_byte (code pc) with
      | none => interp_run H code fuel (env_set_error env H.ERR_InvalidByteCode) (pc + 1)
      | some op =>
        match interp_switch H code env (pc + 1) op with
        | none => some (env, -env.error)
        | some (env1, pc1) => interp_run H code fuel env1 pc1

/-! ## Host API (`interp.c` lines 1061-1271) -/

/-- Modelled from the spec: `sizeof(val_t)`; a cell is a single 8-byte slot. -/
def sizeof_val_t : Int := 8

/-- The conversion of an integer value to `int`: 32 bits, two's complement. -/
def to_int (x : Int) : Int := (x + 2 ^ 31) % 2 ^ 32 - 2 ^ 31

/-- The conversion `(unsigned) x` of an `int`. -/
def to_unsigned (x : Int) : Nat := (x % 2 ^ 32).toNat

/-- Modelled from the spec: `image_info_t` (section 6.2) with what
`image_number_entry`, `image_get_string` and `image_get_function` read from
it: the byte-order mark, the three counts and the three tables. -/
structure image_info_t where
  byte_order : Nat
  num_cnt : Nat
  str_cnt : Nat
  fn_cnt : Nat
  numbers : Nat → Nat
  strings : Nat → Int
  functions : Nat → Int

/-- The arguments of a call of `env_init`, in the order of the call; a pointer
argument is `none` when it is `NULL`. -/
structure env_init_args where
  mem_ptr : Option Nat
  mem_size : Int
  heap_ptr : Option Nat
  heap_size : Int
  stack_ptr : Option Nat
  stack_size : Int
  number_max : Int
  string_max : Int
  func_max : Int
  main_code_max : Int
  func_code_max : Int
  interactive : Int

/-- What `interp.c` reads of a `parser_t` after parsing: `psr.error` and the
free part of `psr.heap`. -/
structure parser_t where
  error : Int
  heap_free_addr : Int
  heap_free_size : Int

/-- What `interp.c` reads of a `compile_t`: `cpl.error`; with it the
environment the compiler works on and the code memory it writes. -/
structure compile_t (σ : Type) where
  env : env_t σ
  code : Int → Nat
  error : Int

/-- The collaborators of the host API whose definitions are not at hand:
`SYS_BYTE_ORDER`, the helpers of `env.h` for setting up an environment, and
the parser and compiler of `parse.h` and `compile.h`.  A `stmt_t *` is a
natural number, `none` when `NULL`. -/
structure Driver (σ : Type) where
  /-- Constant `SYS_BYTE_ORDER`. -/
  SYS_BYTE_ORDER : Nat
  /-- Helper `env_exe_memery_calc(size, &num, &str, &fn, &code)`: `none` is
  a non-zero return, otherwise the four maxima. -/
  env_exe_memery_calc : Int → Option (Int × Int × Int × Int)
  /-- Helper `env_init(env, ...)`: the returned status and the environment it
  leaves. -/
  env_init : env_t σ → env_init_args → Int × env_t σ
  /-- Helper `env_heap_get_free(env)`: base and size of the idle heap. -/
  env_heap_get_free : env_t σ → Int × Int
  /-- Helper `env_main_entry_setup(env, ac, av)`, called with `av = NULL`. -/
  env_main_entry_setup : env_t σ → Nat → env_t σ × Int
  /-- The calls `parse_init`, `parse_set_cb`, `parse_stmt_multi` on the input
  bytes and the idle heap. -/
  parse_stmt_multi : env_t σ → List Nat → Int × Int → env_t σ × parser_t × Option Nat
  /-- The calls `parse_init`, `parse_set_cb`, `parse_stmt` on the input bytes,
  the `input_more` callback (`none` when `NULL`) and the idle heap. -/
  parse_stmt : env_t σ → List Nat → Option Nat → Int × Int → env_t σ × parser_t × Option Nat
  /-- Helper `compile_init(&cpl, env, addr, size)`; the code memory is the one
  in place before compiling. -/
  compile_init : env_t σ → (Int → Nat) → Int → Int → compile_t σ
  /-- Helper `compile_multi_stmt(&cpl, stmt)`. -/
  compile_multi_stmt : compile_t σ → Nat → compile_t σ × Int
  /-- Helper `compile_one_stmt(&cpl, stmt)`. -/
  compile_one_stmt : compile_t σ → Nat → compile_t σ × Int
  /-- Helper `compile_update(&cpl)`. -/
  compile_update : compile_t σ → compile_t σ × Int

/-- The executable-memory budget `exe_mem_size` that
`interp_env_init_interactive` hands to `env_exe_memery_calc`, lines 1069-1078. -/
def interactive_exe_mem_size (mem_size : Int) (heap_ptr : Option Nat) (heap_size : Int)
    (stack_ptr : Option Nat) (stack_size : Int) : Int :=
  let exe_mem_size := mem_size
  let exe_mem_size := if heap_ptr.isNone then to_int (exe_mem_size - heap_size) else exe_mem_size
  let exe_mem_size :=
    if stack_ptr.isNone then to_int (exe_mem_size - stack_size * sizeof_val_t) else exe_mem_size
  exe_mem_size

/-- The executable-memory budget `exe_mem_size` that
`interp_env_init_interpreter` hands to `env_exe_memery_calc`, lines 1092-1101. -/
def interpreter_exe_mem_size (mem_size : Int) (heap_ptr : Option Nat) (heap_size : Int)
    (stack_ptr : Option Nat) (stack_size : Int) : Int :=
  let exe_mem_size := mem_size
  let exe_mem_size := if heap_ptr.isNone then to_int (exe_mem_size - heap_size) else exe_mem_size
  let exe_mem_size := if stack_ptr.isNone then to_int (exe_mem_size - stack_size) else exe_mem_size
  exe_mem_size

/-- Source `interp_env_init_interactive`, lines 1067-1088. -/
def interp_env_init_interactive (H : Host σ) (D : Driver σ) (env : env_t σ)
    (mem_ptr : Option Nat) (mem_size : Int) (heap_ptr : Option Nat) (heap_size : Int)
    (stack_ptr : Option Nat) (stack_size : Int) : Int × env_t σ :=
  let exe_mem_size := interactive_exe_mem_size mem_size heap_ptr heap_size stack_ptr stack_size
  match D.env_exe_memery_calc exe_mem_size with
  | none => (-H.ERR_NotEnoughMemory, env)
  | some (exe_num_max, exe_str_max, exe_fn_max, exe_code_max) =>
    D.env_init env
      { mem_ptr := mem_ptr, mem_size := mem_size, heap_ptr := heap_ptr, heap_size := heap_size,
        stack_ptr := stack_ptr, stack_size := stack_size,
        number_max := exe_num_max, string_max := exe_str_max, func_max := exe_fn_max,
        main_code_max := Int.tdiv exe_code_max 4,
        func_code_max := Int.tdiv (to_int (exe_code_max * 3)) 4,
        interactive := 1 }

/-- Source `interp_env_init_interpreter`, lines 1090-1111. -/
def interp_env_init_interpreter (H : Host σ) (D : Driver σ) (env : env_t σ)
    (mem_ptr : Option Nat) (mem_size : Int) (heap_ptr : Option Nat) (heap_size : Int)
    (stack_ptr : Option Nat) (stack_size : Int) : Int × env_t σ :=
  let exe_mem_size := interpreter_exe_mem_size mem_size heap_ptr heap_size stack_ptr stack_size
  match D.env_exe_memery_calc exe_mem_size with
  | none => (-H.ERR_NotEnoughMemory, env)
  | some (exe_num_max, exe_str_max, exe_fn_max, exe_code_max) =>
    D.env_init env
      { mem_ptr := mem_ptr, mem_size := mem_size, heap_ptr := heap_ptr, heap_size := heap_size,
        stack_ptr := stack_ptr, stack_size := stack_size,
        number_max := exe_num_max, string_max := exe_str_max, func_max := exe_fn_max,
        main_code_max := Int.tdiv exe_code_max 4,
        func_code_max := Int.tdiv (to_int (exe_code_max * 3)) 4,
        interactive := 0 }

/-- The table capacity handed to `env_init` by `interp_env_init_image`, lines
1128-1133: `if ((unsigned) max < cnt) max = cnt;`. -/
def image_table_max (max : Int) (cnt : Nat) : Int :=
  if to_unsigned max < cnt then to_int cnt else max

/-- Source `interp_env_init_image`, lines 1113-1156; `image` is `none` when
the pointer is `NULL`. -/
def interp_env_init_image (H : Host σ) (D : Driver σ) (env : env_t σ)
    (mem_ptr : Option Nat) (mem_size : Int) (heap_ptr : Option Nat) (heap_size : Int)
    (stack_ptr : Option Nat) (stack_size : Int) (image : Option image_info_t) :
    Int × env_t σ :=
  match image with
  | none => (-1, env)
  | some image =>
    if image.byte_order ≠ D.SYS_BYTE_ORDER then
      (-1, env)
    else
      let exe_mem_size := to_int (mem_size - heap_size - stack_size * sizeof_val_t)
      match D.env_exe_memery_calc exe_mem_size with
      | none => (-H.ERR_NotEnoughMemory, env)
      | some (_, exe_str_max, exe_fn_max, _) =>
        let exe_str_max := image_table_max exe_str_max image.str_cnt
        let exe_fn_max := image_table_max exe_fn_max image.fn_cnt
        let (r, env) := D.env_init env
          { mem_ptr := mem_ptr, mem_size := mem_size, heap_ptr := heap_ptr,
            heap_size := heap_size, stack_ptr := stack_ptr, stack_size := stack_size,
            number_max := 0, string_max := exe_str_max, func_max := exe_fn_max,
            main_code_max := 0, func_code_max := 0, interactive := 0 }
        if r ≠ 0 then
          (-1, env)
        else
          (0, { env with exe :=
            { number_map := image.numbers,
              number_num := image.num_cnt,
              string_num := image.str_cnt,
              string_map := fun i => if i < image.str_cnt then image.strings i
                else env.exe.string_map i,
              func_num := image.fn_cnt,
              func_map := fun i => if i < image.fn_cnt then image.functions i
                else env.exe.func_map i } })

/-- What the out-parameter `*v` of an execute entry point can be set to: the
address of a cell of the environment, or of the file-level
`static val_t undefined = TAG_UNDEFINED` (line 38). -/
inductive out_cell where
  | cell (p : ptr)
  | static_undefined
  deriving DecidableEq

/-- How a call of an execute entry point ends.  `fault`: a helper that reads
the environment was called on a null `env`.  `out_of_fuel`: the fuel given to
`interp_run` ran out.  `ret status v env`: the function returned `status`;
`v` is what `*v` was set to (`none`: not written) and `env` the environment
afterwards (`none` for a null `env`). -/
inductive exec_outcome (σ : Type) where
  | fault
  | out_of_fuel
  | ret (status : Int) (v : Option out_cell) (env : Option (env_t σ))

/-- The lines `if (env->fp > env->sp) *v = env_stack_pop(env); else
*v = &undefined;` shared by the three execute entry points. -/
def interp_result_cell (env : env_t σ) : env_t σ × out_cell :=
  if env.fp > env.sp then
    let (env, p) := env_stack_pop env
    (env, .cell p)
  else
    (env, .static_undefined)

/-- Source `interp_execute_image`, lines 1176-1194.  `env` is `none` when the
pointer is `NULL`; `v` says whether the out-parameter pointer is non-null;
`code` is the code memory of the loaded image. -/
def interp_execute_image (H : Host σ) (D : Driver σ) (code : Int → Nat) (fuel : Nat)
    (env : Option (env_t σ)) (v : Bool) : exec_outcome σ :=
  match env with
  | none => .ret (-H.ERR_InvalidInput) none none
  | some env =>
    if !v then
      .ret (-H.ERR_InvalidInput) none (some env)
    else
      let (env, pc) := D.env_main_entry_setup env 0
      match interp_run H code fuel env pc with
      | none => .out_of_fuel
      | some (env, r) =>
        if r ≠ 0 then
          .ret (-env.error) none (some env)
        else
          let (env, c) := interp_result_cell env
          .ret 0 (some c) (some env)

/-- Source `interp_execute_string`, lines 1196-1234.  `env` and `input` are
`none` when the pointer is `NULL`; `v` says whether the out-parameter pointer
is non-null.  The initialiser `env_heap_get_free(env)` of line 1199 runs
before the null test of line 1203 and reads `env`. -/
def interp_execute_string (H : Host σ) (D : Driver σ) (code : Int → Nat) (fuel : Nat)
    (env : Option (env_t σ)) (input : Option (List Nat)) (v : Bool) : exec_outcome σ :=
  match env with
  | none => .fault
  | some env =>
    let heap := D.env_heap_get_free env
    match input with
    | none => .ret (-1) none (some env)
    | some input =>
      if !v then
        .ret (-1) none (some env)
      else
        let (env, psr, stmt) := D.parse_stmt_multi env input heap
        match stmt with
        | none => .ret (if psr.error ≠ 0 then -psr.error else 0) none (some env)
        | some stmt =>
          let cpl := D.compile_init env code psr.heap_free_addr psr.heap_free_size
          let (cpl, r1) := D.compile_multi_stmt cpl stmt
          if r1 = 0 then
            let (cpl, r2) := D.compile_update cpl
            if r2 = 0 then
              let (env, pc) := D.env_main_entry_setup cpl.env 0
              match interp_run H cpl.code fuel env pc with
              | none => .out_of_fuel
              | some (env, r) =>
                if r ≠ 0 then
                  .ret (-env.error) none (some env)
                else
                  let (env, c) := interp_result_cell env
                  .ret 1 (some c) (some env)
            else
              .ret (-cpl.error) none (some cpl.env)
          else
            .ret (-cpl.error) none (some cpl.env)

/-- Source `interp_execute_interactive`, lines 1236-1271.  As
`interp_execute_string`, with `parse_stmt`, the `input_more` callback and
`compile_one_stmt`; the initialiser `env_heap_get_free(env)` of line 1241 runs
before the null test of line 1243. -/
def interp_execute_interactive (H : Host σ) (D : Driver σ) (code : Int → Nat) (fuel : Nat)
    (env : Option (env_t σ)) (input : Option (List Nat)) (input_more : Option Nat)
    (v : Bool) : exec_outcome σ :=
  match env with
  | none => .fault
  | some env =>
    let heap := D.env_heap_get_free env
    match input with
    | none => .ret (-1) none (some env)
    | some input =>
      if !v then
        .ret (-1) none (some env)
      else
        let (env, psr, stmt) := D.parse_stmt env input input_more heap
        match stmt with
        | none => .ret (if psr.error ≠ 0 then -psr.error else 0) none (some env)
        | some stmt =>
          let cpl := D.compile_init env code psr.heap_free_addr psr.heap_free_size
          let (cpl, r1) := D.compile_one_stmt cpl stmt
          if r1 = 0 then
            let (cpl, r2) := D.compile_update cpl
            if r2 = 0 then
              let (env, pc) := D.env_main_entry_setup cpl.env 0
              match interp_run H cpl.code fuel env pc with
              | none => .out_of_fuel
              | some (env, r) =>
                if r ≠ 0 then
                  .ret (-env.error) none (some env)
                else
                  let (env, c) := interp_result_cell env
                  .ret 1 (some c) (some env)
            else
              .ret (-cpl.error) none (some cpl.env)
          else
            .ret (-cpl.error) none (some cpl.env)

/-! ## The call convention as the specification words it -/

/-- The dispatch of `BC_FUNC_CALL argc` with the operand layout of section 4.1.5
of the specification ("consumes, from the top, `argc` argument cells followed
by the callee"): the arguments are the top `argc` cells and the callee is the
cell beneath them.  To be compared with `interp_call`. -/
def spec_interp_call (H : Host σ) (env : env_t σ) (ac : Nat) (pc : Int) : env_t σ × Int :=
  let av := env_stack_peek env
  let fn : ptr := .stk (env.sp + ac)
  if val_is_script (env.load fn) then
    H.env_frame_setup env pc fn ac av
  else if val_is_native (env.load fn) then
    (H.env_native_call env fn ac av, pc)
  else
    (env_set_error env H.ERR_InvalidCallor, pc)

/-! ## Jump offsets as the specification words them -/

/-- The two's-complement value, in `[-128, 127]`, of the byte `b`.  To be
compared with `int8_of_byte`. -/
def s8 (b : Nat) : Int := if b < 128 then (b : Int) else (b : Int) - 256

/-- The two's-complement value, in `[-32768, 32767]`, of the 16-bit word `w`.
To be compared with `jmp_index`. -/
def s16 (w : Nat) : Int := if w < 32768 then (w : Int) else (w : Int) - 65536

/-! ## Bookkeeping for statements about the loop -/

/-- The two ways out of the loop of `interp_run`: the `goto DO_END` of
`BC_STOP`, or the loop condition `!env->error` failing. -/
inductive loop_exit where
  | stop
  | error
  deriving DecidableEq

/-- The loop of `interp_run`, lines 873-1058, reporting next to the result of
`interp_run` the way the loop was left.  `interp_run_exit_eq` shows that
forgetting the report gives back `interp_run`. -/
def interp_run_exit (H : Host σ) (code : Int → Nat) :
    Nat → env_t σ → Int → Option (loop_exit × env_t σ × Int)
  | 0, _, _ => none
  | fuel + 1, env, pc =>
    if env.error ≠ 0 then
      some (.error, env, -env.error)
    else
      match H.bcode_of_byte (code pc) with
      | none => interp_run_exit H code fuel (env_set_error env H.ERR_InvalidByteCode) (pc + 1)
      | some op =>
        match interp_switch H code env (pc + 1) op with
        | none => some (.stop, env, -env.error)
        | some (env1, pc1) => interp_run_exit H code fuel env1 pc1

/-- The code memory holds the one-byte instructions `ops`, one after the
other, from address `pc` on. -/
def code_holds (H : Host σ) (code : Int → Nat) : Int → List bcode → Prop
  | _, [] => True
  | pc, op :: ops => H.bcode_of_byte (code pc) = some op ∧ code_holds H code (pc + 1) ops

/-- The compound property assignment opcode of each arithmetic operator. -/
def bcode_prop_assign : arith → bcode
  | .add => .BC_PROP_ADD_ASSIGN | .sub => .BC_PROP_SUB_ASSIGN | .mul => .BC_PROP_MUL_ASSIGN
  | .div => .BC_PROP_DIV_ASSIGN | .mod => .BC_PROP_MOD_ASSIGN | .and => .BC_PROP_AND_ASSIGN
  | .or => .BC_PROP_OR_ASSIGN | .xor => .BC_PROP_XOR_ASSIGN
  | .lshift => .BC_PROP_LSHIFT_ASSIGN | .rshift => .BC_PROP_RSHIFT_ASSIGN

/-- The compound element assignment opcode of each arithmetic operator. -/
def bcode_elem_assign : arith → bcode
  | .add => .BC_ELEM_ADD_ASSIGN | .sub => .BC_ELEM_SUB_ASSIGN | .mul => .BC_ELEM_MUL_ASSIGN
  | .div => .BC_ELEM_DIV_ASSIGN | .mod => .BC_ELEM_MOD_ASSIGN | .and => .BC_ELEM_AND_ASSIGN
  | .or => .BC_ELEM_OR_ASSIGN | .xor => .BC_ELEM_XOR_ASSIGN
  | .lshift => .BC_ELEM_LSHIFT_ASSIGN | .rshift => .BC_ELEM_RSHIFT_ASSIGN

/-- The opcodes without operand bytes that neither jump nor call: no-op,
literal pushes, pop, unary and binary arithmetic, comparisons. -/
def straight_line_ops : List bcode :=
  [.BC_PASS, .BC_PUSH_UND, .BC_PUSH_NAN, .BC_PUSH_TRUE, .BC_PUSH_FALSE, .BC_PUSH_ZERO,
   .BC_POP, .BC_NEG, .BC_NOT, .BC_LOGIC_NOT,
   .BC_MUL, .BC_DIV, .BC_MOD, .BC_ADD, .BC_SUB, .BC_AAND, .BC_AOR, .BC_AXOR,
   .BC_LSHIFT, .BC_RSHIFT,
   .BC_TEQ, .BC_TNE, .BC_TGT, .BC_TGE, .BC_TLT, .BC_TLE]

/-- The stack delta the specification's opcode table gives each opcode of
`straight_line_ops`: `+1` for a push, `0` for `BC_PASS` and the unary
opcodes, `-1` for `BC_POP`, binary arithmetic and comparisons. -/
def stack_delta : bcode → Int
  | .BC_PUSH_UND | .BC_PUSH_NAN | .BC_PUSH_TRUE | .BC_PUSH_FALSE | .BC_PUSH_ZERO => 1
  | .BC_POP
  | .BC_MUL | .BC_DIV | .BC_MOD | .BC_ADD | .BC_SUB | .BC_AAND | .BC_AOR | .BC_AXOR
  | .BC_LSHIFT | .BC_RSHIFT
  | .BC_TEQ | .BC_TNE | .BC_TGT | .BC_TGE | .BC_TLT | .BC_TLE => -1
  | _ => 0

/-! ## IEEE-754 ordered comparison as the specification words it -/

/-- Plus or minus infinity: exponent all ones and a zero fraction. -/
def double_is_inf (bits : Nat) : Bool := double_exp bits == 2047 && double_frac bits == 0

/-- A key that orders the doubles that are not NaN as their values are
ordered: the magnitude bits, negated for a set sign bit (so both zeros have
key `0`). -/
def double_key (bits : Nat) : Int :=
  if double_sign bits = 0 then ((bits % 2 ^ 63 : Nat) : Int) else -((bits % 2 ^ 63 : Nat) : Int)

/-- IEEE-754 ordered `a < b`: false when an operand is NaN.  To be compared
with what `interp_tlt` computes. -/
def ieee_lt (a b : Nat) : Bool :=
  !double_is_nan a && !double_is_nan b && decide (double_key a < double_key b)

/-- IEEE-754 ordered `a <= b`: false when an operand is NaN. -/
def ieee_le (a b : Nat) : Bool :=
  !double_is_nan a && !double_is_nan b && decide (double_key a ≤ double_key b)

/-- IEEE-754 ordered `a > b`. -/
def ieee_gt (a b : Nat) : Bool := ieee_lt b a

/-- IEEE-754 ordered `a >= b`. -/
def ieee_ge (a b : Nat) : Bool := ieee_le b a

/-- Both operands are infinities of the same sign. -/
def same_infinities (a b : Nat) : Bool :=
  double_is_inf a && double_is_inf b && double_sign a == double_sign b

/-- What IEEE-754 says of `d = a - b` as far as NaN and sign go: `d` is NaN
when an operand is NaN or both are infinities of one sign; otherwise `d` is
not NaN, is above zero exactly when `a > b`, and below zero exactly when
`a < b`. -/
def ieee_sub_sign (a b d : Nat) : Prop :=
  if double_is_nan a = true ∨ double_is_nan b = true ∨ same_infinities a b = true then
    double_is_nan d = true
  else
    double_is_nan d = false ∧
    double_gt0 d = decide (double_key b < double_key a) ∧
    double_lt0 d = decide (double_key a < double_key b)

/-! ## Fixtures for the concrete instances -/

/-- A host with error codes `1` to `6`, three opcodes numbered, and helpers
that leave the environment alone; used for the concrete instances below. -/
def demo_host : Host Unit where
  ERR_NotEnoughMemory := 1
  ERR_InvalidByteCode := 2
  ERR_InvalidLeftValue := 3
  ERR_InvalidCallor := 4
  ERR_InvalidInput := 5
  ERR_SysError := 6
  bcode_of_byte := fun b =>
    if b = 0 then some .BC_STOP else if b = 1 then some .BC_PASS
    else if b = 2 then some .BC_FUNC_CALL else none
  double_sub := fun x _ => x
  int_2_double := fun i => i.toNat
  val_2_integer := fun _ => 0
  val_is_true := fun _ v => !(val_is_undefined v || val_is_nan v)
  number := fun _ env _ _ _ => env
  string_add := fun env _ _ _ => env
  string_compare := fun _ a b => if a = b then 0 else 1
  env_get_var := fun _ id generation => if generation = 0 then some (.var id) else none
  env_frame_setup := fun env pc _ _ _ => (env, pc)
  env_native_call := fun env _ _ _ => env
  env_frame_restore := fun env pc => (env, pc)
  array_create := fun env _ _ => (env, 0)
  object_create := fun env _ _ => (env, 0)
  object_prop_get := fun env _ _ _ => env
  object_elem_get := fun env _ _ _ => env
  object_prop_set := fun env _ _ _ => env
  object_elem_set := fun env _ _ _ => env
  object_prop_op_set := fun _ env _ _ _ _ => env
  object_elem_op_set := fun _ env _ _ _ _ => env
  function_create := fun env _ => (env, 0)
  env_push_number := fun env _ => env
  env_push_string := fun env _ => env
  env_push_var := fun env _ _ => env
  env_push_ref := fun env _ _ => env
  env_push_native := fun env _ => env

/-- An environment with no error, `sp = 10`, top cell `top`, the cell beneath
it `below`, every other stack cell `undefined`, variable slot `2` holding the
string with handle `7` and every other variable slot the boolean `false`. -/
def demo_env (top below : val_t) : env_t Unit where
  error := 0
  sp := 10
  fp := 16
  sb := fun i => if i = 10 then top else if i = 11 then below else .undefined
  vars := fun k => if k = 2 then .string 7 else .boolean false
  exe := { number_map := fun _ => 0, number_num := 0, string_map := fun _ => 0,
           string_num := 0, func_map := fun _ => 0, func_num := 0 }
  rest := ()

/-- Code memory holding `BC_FUNC_CALL 1` (bytes `2 1`) at address `0` and
`BC_PASS` everywhere else. -/
def demo_code : Int → Nat := fun a => if a = 0 then 2 else 1

/-- The host `demo_host` with nine more opcodes numbered, literal helpers that
succeed with handle `9`, and read helpers that store the number with bit
pattern `42` in the result cell. -/
def demo_host_alloc : Host Unit :=
  { demo_host with
    bcode_of_byte := fun b =>
      if b = 0 then some .BC_STOP else if b = 1 then some .BC_PASS
      else if b = 2 then some .BC_FUNC_CALL else if b = 3 then some .BC_PUSH_TRUE
      else if b = 4 then some .BC_ADD else if b = 5 then some .BC_TIN
      else if b = 6 then some .BC_NEG else if b = 7 then some .BC_SJMP
      else if b = 8 then some .BC_JMP else if b = 9 then some .BC_ARRAY
      else if b = 10 then some .BC_DICT else if b = 11 then some .BC_ASSIGN
      else none
    array_create := fun env _ _ => (env, 9)
    object_create := fun env _ _ => (env, 9)
    object_prop_get := fun env _ _ res => env.store res (.number 42)
    object_elem_get := fun env _ _ res => env.store res (.number 42) }

/-- Code memory holding `BC_PUSH_TRUE; BC_ADD; BC_NEG; BC_STOP` (bytes
`3 4 6 0` in the numbering of `demo_host_alloc`) from address `0` on, and
`BC_PASS` everywhere else. -/
def demo_code_line : Int → Nat :=
  fun a => if a = 0 then 3 else if a = 1 then 4 else if a = 2 then 6 else if a = 3 then 0 else 1

/-- Code memory holding `BC_ASSIGN` (byte `11` in the numbering of
`demo_host_alloc`) at address `0` and `BC_PASS` everywhere else. -/
def demo_code_assign : Int → Nat := fun a => if a = 0 then 11 else 1

/-- Code memory holding the byte `200`, which is no opcode in the numbering of
`demo_host_alloc`, at address `0`, and `BC_PASS` everywhere else. -/
def demo_code_bad : Int → Nat := fun a => if a = 0 then 200 else 1

/-- Code memory holding `BC_SJMP -2` (bytes `7 254` in the numbering of
`demo_host_alloc`) at address `0`, `BC_JMP -2` (bytes `8 255 254`) at address
`10`, and `BC_PASS` everywhere else. -/
def demo_code_jump : Int → Nat :=
  fun a => if a = 0 then 7 else if a = 1 then 254 else if a = 10 then 8
    else if a = 11 then 255 else if a = 12 then 254 else 1

/-- The host `demo_host` with a `double_sub` that yields the NaN
`0x7FF8000000000000` where IEEE-754 subtraction yields a NaN (an operand is
NaN, or both are infinities of one sign) and its first operand elsewhere (as
IEEE-754 subtraction does when the second operand is `+0`). -/
def demo_host_ieee : Host Unit :=
  { demo_host with
    double_sub := fun x y =>
      if double_is_nan x || double_is_nan y || same_infinities x y
      then 0x7FF8000000000000 else x }

/-- A driver whose `env_exe_memery_calc` rejects budgets below `850`, whose
`env_init` and compiler succeed and leave the environment alone, and whose
parser finds a statement in every non-empty input. -/
def demo_driver : Driver Unit where
  SYS_BYTE_ORDER := 1
  env_exe_memery_calc := fun size => if size < 850 then none else some (4, 4, 4, size - 100)
  env_init := fun env _ => (0, env)
  env_heap_get_free := fun _ => (0, 0)
  env_main_entry_setup := fun env _ => (env, 0)
  parse_stmt_multi := fun env input _ =>
    (env, { error := 0, heap_free_addr := 0, heap_free_size := 0 },
      if input = [] then none else some 1)
  parse_stmt := fun env input _ _ =>
    (env, { error := 0, heap_free_addr := 0, heap_free_size := 0 },
      if input = [] then none else some 1)
  compile_init := fun env code _ _ => { env := env, code := code, error := 0 }
  compile_multi_stmt := fun cpl _ => (cpl, 0)
  compile_one_stmt := fun cpl _ => (cpl, 0)
  compile_update := fun cpl => (cpl, 0)

/-- An image in the byte order of `demo_driver` with one number, two strings
and one function. -/
def demo_image : image_info_t where
  byte_order := 1
  num_cnt := 1
  str_cnt := 2
  fn_cnt := 1
  numbers := fun _ => 0
  strings := fun i => 100 + i
  functions := fun i => 200 + i

/-! ## Theorems -/

/-- C1: the equality test of `BC_TEQ`, applied to two cells that both hold the
bit pattern of `v`, yields true if and only if `v` is neither `nan` nor
`undefined`. -/
theorem interp_test_equal_same_cell (H : Host σ) (env : env_t σ) (v : val_t) :
    interp_test_equal H env v v = true ↔
      (val_is_nan v = false ∧ val_is_undefined v = false) := by
  simp [interp_test_equal]

/-- C3: `BC_NEG` and `BC_NOT` on an operand that is not a number, the nine
number-only binary opcodes on a left operand that is not a number, and `BC_ADD`
on a left operand that is neither a number nor a string, store `nan` in the
(left) operand cell; the unary ones leave `sp` alone, the binary ones pop one
cell whatever the right operand is; `env.error` and everything else is
unchanged. -/
theorem arith_non_number_is_nan (H : Host σ) (code : Int → Nat) (env : env_t σ) (pc : Int)
    (op : bcode) :
    (op ∈ [bcode.BC_NEG, .BC_NOT] → val_is_number (env.sb env.sp) = false →
      interp_switch H code env pc op =
        some ({ env with sb := Function.update env.sb env.sp .nan }, pc)) ∧
    (op ∈ [bcode.BC_MUL, .BC_DIV, .BC_MOD, .BC_SUB, .BC_AAND, .BC_AOR, .BC_AXOR,
        .BC_LSHIFT, .BC_RSHIFT] → val_is_number (env.sb (env.sp + 1)) = false →
      interp_switch H code env pc op =
        some ({ env with sp := env.sp + 1,
                         sb := Function.update env.sb (env.sp + 1) .nan }, pc)) ∧
    (op = .BC_ADD → val_is_number (env.sb (env.sp + 1)) = false →
      val_is_string (env.sb (env.sp + 1)) = false →
      interp_switch H code env pc op =
        some ({ env with sp := env.sp + 1,
                         sb := Function.update env.sb (env.sp + 1) .nan }, pc)) := by
  refine ⟨?_, ?_, ?_⟩
  · intro hop hn
    simp only [List.mem_cons, List.mem_singleton, List.not_mem_nil, or_false] at hop
    rcases hop with rfl | rfl <;>
      simp [interp_switch, interp_neg, interp_not, env_stack_peek, env_t.load, hn,
        val_set_nan, env_t.store]
  · intro hop hn
    simp only [List.mem_cons, List.mem_singleton, List.not_mem_nil, or_false] at hop
    rcases hop with rfl | rfl | rfl | rfl | rfl | rfl | rfl | rfl | rfl <;>
      simp [interp_switch, interp_mul, interp_div, interp_mod, interp_sub, interp_and,
        interp_or, interp_xor, interp_lshift, interp_rshift, interp_number_op,
        env_stack_pop, ptr.succ, env_t.load, hn, val_set_nan, env_t.store]
  · rintro rfl hn hs
    simp [interp_switch, interp_add, env_stack_peek, env_stack_pop, ptr.succ, env_t.load,
      hn, hs, val_set_nan, env_t.store]

/-- C3, concrete instances: `BC_NEG` on a boolean, `BC_MUL` with a boolean
left and a number right operand, `BC_ADD` with a boolean left operand. -/
theorem arith_non_number_is_nan_witness :
    interp_switch demo_host demo_code (demo_env (.boolean true) .undefined) 1 .BC_NEG =
      some ({ demo_env (.boolean true) .undefined with
                sb := Function.update (demo_env (.boolean true) .undefined).sb
                        (demo_env (.boolean true) .undefined).sp .nan }, 1) ∧
    interp_switch demo_host demo_code (demo_env (.number 0) (.boolean true)) 1 .BC_MUL =
      some ({ demo_env (.number 0) (.boolean true) with
                sp := (demo_env (.number 0) (.boolean true)).sp + 1,
                sb := Function.update (demo_env (.number 0) (.boolean true)).sb
                        ((demo_env (.number 0) (.boolean true)).sp + 1) .nan }, 1) ∧
    interp_switch demo_host demo_code (demo_env (.number 0) (.boolean true)) 1 .BC_ADD =
      some ({ demo_env (.number 0) (.boolean true) with
                sp := (demo_env (.number 0) (.boolean true)).sp + 1,
                sb := Function.update (demo_env (.number 0) (.boolean true)).sb
                        ((demo_env (.number 0) (.boolean true)).sp + 1) .nan }, 1) :=
  ⟨(arith_non_number_is_nan demo_host demo_code (demo_env (.boolean true) .undefined) 1
      .BC_NEG).1 (by simp) (by simp [demo_env, val_is_number]),
   (arith_non_number_is_nan demo_host demo_code (demo_env (.number 0) (.boolean true)) 1
      .BC_MUL).2.1 (by simp) (by simp [demo_env, val_is_number]),
   (arith_non_number_is_nan demo_host demo_code (demo_env (.number 0) (.boolean true)) 1
      .BC_ADD).2.2 rfl (by simp [demo_env, val_is_number])
      (by simp [demo_env, val_is_string])⟩

/-- C4: for `BC_TGT`, `BC_TGE`, `BC_TLT` and `BC_TLE`, when the operands are
neither both numbers nor both strings, the result cell (the left operand's)
holds boolean `false`, exactly one cell is popped, and `env.error` and
everything else is unchanged. -/
theorem compare_mixed_kinds_is_false (H : Host σ) (code : Int → Nat) (env : env_t σ)
    (pc : Int) (op : bcode) (hop : op ∈ [bcode.BC_TGT, .BC_TGE, .BC_TLT, .BC_TLE])
    (hnum : ¬ (val_is_number (env.sb (env.sp + 1)) = true ∧
               val_is_number (env.sb env.sp) = true))
    (hstr : ¬ (val_is_string (env.sb (env.sp + 1)) = true ∧
               val_is_string (env.sb env.sp) = true)) :
    interp_switch H code env pc op =
      some ({ env with sp := env.sp + 1,
                       sb := Function.update env.sb (env.sp + 1) (.boolean false) }, pc) := by
  simp only [List.mem_cons, List.mem_singleton, List.not_mem_nil, or_false] at hop
  rcases hop with rfl | rfl | rfl | rfl <;>
    simp only [interp_switch, interp_tgt, interp_tge, interp_tlt, interp_tle, env_stack_pop,
      ptr.succ, env_t.load, val_set_boolean, env_t.store] <;>
    split_ifs <;>
    first
      | rfl
      | (exfalso; tauto)

/-- C4, concrete instance: `number < string` with `BC_TLT`. -/
theorem compare_mixed_kinds_is_false_witness :
    interp_switch demo_host demo_code (demo_env (.string 3) (.number 0)) 1 .BC_TLT =
      some ({ demo_env (.string 3) (.number 0) with
                sp := (demo_env (.string 3) (.number 0)).sp + 1,
                sb := Function.update (demo_env (.string 3) (.number 0)).sb
                        ((demo_env (.string 3) (.number 0)).sp + 1) (.boolean false) }, 1) :=
  compare_mixed_kinds_is_false demo_host demo_code (demo_env (.string 3) (.number 0)) 1
    .BC_TLT (by simp) (by simp [demo_env, val_is_number])
    (by simp [demo_env, val_is_string])

/-- C5: for `BC_ASSIGN` and each of the ten compound assignment opcodes,
executed with no error pending, if the cell beneath the top of stack is not a
reference, or is a reference `(id, generation)` that `env_get_var` does not
resolve, then `ERR_InvalidLeftValue` is set and nothing else changes: `sp`,
every stack cell and every variable slot are as before. -/
theorem assign_bad_target_is_error (H : Host σ) (code : Int → Nat) (env : env_t σ)
    (pc : Int) (op : bcode)
    (hop : op ∈ [bcode.BC_ASSIGN, .BC_ADD_ASSIGN, .BC_SUB_ASSIGN, .BC_MUL_ASSIGN,
      .BC_DIV_ASSIGN, .BC_MOD_ASSIGN, .BC_AND_ASSIGN, .BC_OR_ASSIGN, .BC_XOR_ASSIGN,
      .BC_LSHIFT_ASSIGN, .BC_RSHIFT_ASSIGN])
    (herr : env.error = 0)
    (hbad : val_is_reference (env.sb (env.sp + 1)) = false ∨
      ∃ id generation, env.sb (env.sp + 1) = .reference id generation ∧
        H.env_get_var env id generation = none) :
    interp_switch H code env pc op =
      some ({ env with error := H.ERR_InvalidLeftValue }, pc) := by
  simp only [List.mem_cons, List.mem_singleton, List.not_mem_nil, or_false] at hop
  rcases hbad with hnr | ⟨id, generation, href, hnone⟩
  · rcases hop with rfl | rfl | rfl | rfl | rfl | rfl | rfl | rfl | rfl | rfl | rfl <;>
      simp [interp_switch, interp_assign, interp_add_assign, interp_sub_assign,
        interp_mul_assign, interp_div_assign, interp_mod_assign, interp_and_assign,
        interp_or_assign, interp_xor_assign, interp_lshift_assign, interp_rshift_assign,
        interp_number_assign, env_stack_peek, ptr.succ, env_t.load, hnr, env_set_error, herr]
  · rcases hop with rfl | rfl | rfl | rfl | rfl | rfl | rfl | rfl | rfl | rfl | rfl <;>
      simp [interp_switch, interp_assign, interp_add_assign, interp_sub_assign,
        interp_mul_assign, interp_div_assign, interp_mod_assign, interp_and_assign,
        interp_or_assign, interp_xor_assign, interp_lshift_assign, interp_rshift_assign,
        interp_number_assign, env_stack_peek, ptr.succ, env_t.load, href, hnone,
        val_is_reference, val_2_reference, env_set_error, herr]

/-- C5, concrete instances: `BC_ASSIGN` onto a number cell, and
`BC_MUL_ASSIGN` onto a reference whose generation does not resolve. -/
theorem assign_bad_target_is_error_witness :
    interp_switch demo_host demo_code (demo_env (.number 0) (.number 1)) 1 .BC_ASSIGN =
      some ({ demo_env (.number 0) (.number 1) with
                error := demo_host.ERR_InvalidLeftValue }, 1) ∧
    interp_switch demo_host demo_code (demo_env (.number 0) (.reference 2 1)) 1
        .BC_MUL_ASSIGN =
      some ({ demo_env (.number 0) (.reference 2 1) with
                error := demo_host.ERR_InvalidLeftValue }, 1) :=
  ⟨assign_bad_target_is_error demo_host demo_code (demo_env (.number 0) (.number 1)) 1
      .BC_ASSIGN (by simp) rfl (Or.inl (by simp [demo_env, val_is_reference])),
   assign_bad_target_is_error demo_host demo_code (demo_env (.number 0) (.reference 2 1)) 1
      .BC_MUL_ASSIGN (by simp) rfl
      (Or.inr ⟨2, 1, by simp [demo_env], by simp [demo_host]⟩)⟩

/-- C6: when the cell beneath the top of stack is a reference that
`env_get_var` resolves to the slot `p`, `BC_ASSIGN` stores the top-of-stack
value `v`, whatever its kind, in `p` and then in the reference cell, and pops
one cell: afterwards `p` holds `v`, the cell that held the reference holds `v`
and is the new top of stack, and `env.error` is unchanged. -/
theorem assign_stores_value (H : Host σ) (code : Int → Nat) (env : env_t σ) (pc : Int)
    (id generation : Nat) (p : ptr)
    (href : env.sb (env.sp + 1) = .reference id generation)
    (hvar : H.env_get_var env id generation = some p) :
    ∃ env1 : env_t σ,
      interp_switch H code env pc .BC_ASSIGN = some (env1, pc) ∧
      env1 = { (env.store p (env.sb env.sp)).store (.stk (env.sp + 1)) (env.sb env.sp) with
               sp := env.sp + 1 } ∧
      env1.load p = env.sb env.sp ∧
      env1.sb (env.sp + 1) = env.sb env.sp ∧
      env1.sp = env.sp + 1 ∧
      env1.sb env1.sp = env.sb env.sp ∧
      env1.error = env.error := by
  refine ⟨_, ?_, rfl, ?_, ?_, ?_, ?_, ?_⟩
  · simp [interp_switch, interp_assign, env_stack_peek, env_stack_pop, ptr.succ, env_t.load,
      href, hvar, val_is_reference, val_2_reference]
    cases p <;> rfl
  · cases p with
    | stk i =>
      by_cases h : i = env.sp + 1 <;> simp [env_t.load, env_t.store, Function.update, h]
    | var k => simp [env_t.load, env_t.store]
  · cases p <;> simp [env_t.store]
  · cases p <;> simp [env_t.store]
  · cases p <;> simp [env_t.store]
  · cases p <;> simp [env_t.store]

/-- C6, concrete instance: assigning the boolean `true` to slot `2`. -/
theorem assign_stores_value_witness :
    ∃ env1 : env_t Unit,
      interp_switch demo_host demo_code (demo_env (.boolean true) (.reference 2 0)) 1
        .BC_ASSIGN = some (env1, 1) ∧
      env1 = { ((demo_env (.boolean true) (.reference 2 0)).store (.var 2)
                  ((demo_env (.boolean true) (.reference 2 0)).sb
                    (demo_env (.boolean true) (.reference 2 0)).sp)).store
                  (.stk ((demo_env (.boolean true) (.reference 2 0)).sp + 1))
                  ((demo_env (.boolean true) (.reference 2 0)).sb
                    (demo_env (.boolean true) (.reference 2 0)).sp) with
               sp := (demo_env (.boolean true) (.reference 2 0)).sp + 1 } ∧
      env1.load (.var 2) = (demo_env (.boolean true) (.reference 2 0)).sb
        (demo_env (.boolean true) (.reference 2 0)).sp ∧
      env1.sb ((demo_env (.boolean true) (.reference 2 0)).sp + 1) =
        (demo_env (.boolean true) (.reference 2 0)).sb
          (demo_env (.boolean true) (.reference 2 0)).sp ∧
      env1.sp = (demo_env (.boolean true) (.reference 2 0)).sp + 1 ∧
      env1.sb env1.sp = (demo_env (.boolean true) (.reference 2 0)).sb
        (demo_env (.boolean true) (.reference 2 0)).sp ∧
      env1.error = (demo_env (.boolean true) (.reference 2 0)).error :=
  assign_stores_value demo_host demo_code (demo_env (.boolean true) (.reference 2 0)) 1 2 0
    (.var 2) (by simp [demo_env]) (by simp [demo_host])

/-- Reading a stack cell through a pointer. -/
theorem env_t.load_stk (env : env_t σ) (i : Int) : env.load (.stk i) = env.sb i := rfl

/-- Reading back a cell that was just written. -/
theorem env_t.load_store_same (env : env_t σ) (p : ptr) (v : val_t) :
    (env.store p v).load p = v := by
  cases p <;> simp [env_t.load, env_t.store]

/-- C7: for each of the nine number-only compound assignments, executed with
no error pending, if the target reference resolves to a slot `p` whose value
is not a number, then `ERR_InvalidLeftValue` is set and nothing else changes:
the variable keeps its value and nothing is popped. -/
theorem number_assign_non_number_is_error (H : Host σ) (code : Int → Nat) (env : env_t σ)
    (pc : Int) (op : bcode) (id generation : Nat) (p : ptr)
    (hop : op ∈ [bcode.BC_SUB_ASSIGN, .BC_MUL_ASSIGN, .BC_DIV_ASSIGN, .BC_MOD_ASSIGN,
      .BC_AND_ASSIGN, .BC_OR_ASSIGN, .BC_XOR_ASSIGN, .BC_LSHIFT_ASSIGN, .BC_RSHIFT_ASSIGN])
    (herr : env.error = 0)
    (href : env.sb (env.sp + 1) = .reference id generation)
    (hvar : H.env_get_var env id generation = some p)
    (hnn : val_is_number (env.load p) = false) :
    interp_switch H code env pc op =
      some ({ env with error := H.ERR_InvalidLeftValue }, pc) := by
  simp only [List.mem_cons, List.mem_singleton, List.not_mem_nil, or_false] at hop
  rcases hop with rfl | rfl | rfl | rfl | rfl | rfl | rfl | rfl | rfl <;>
    simp [interp_switch, interp_sub_assign, interp_mul_assign, interp_div_assign,
      interp_mod_assign, interp_and_assign, interp_or_assign, interp_xor_assign,
      interp_lshift_assign, interp_rshift_assign, interp_number_assign, env_stack_peek,
      ptr.succ, href, hvar, hnn, val_is_reference, val_2_reference, env_set_error, herr,
      env_t.load_stk]

/-- C7, concrete instance: `BC_SUB_ASSIGN` onto slot `2`, which holds a
string. -/
theorem number_assign_non_number_is_error_witness :
    interp_switch demo_host demo_code (demo_env (.number 0) (.reference 2 0)) 1
        .BC_SUB_ASSIGN =
      some ({ demo_env (.number 0) (.reference 2 0) with
                error := demo_host.ERR_InvalidLeftValue }, 1) :=
  number_assign_non_number_is_error demo_host demo_code
    (demo_env (.number 0) (.reference 2 0)) 1 .BC_SUB_ASSIGN 2 0 (.var 2) (by simp) rfl
    (by simp [demo_env]) (by simp [demo_host])
    (by simp [demo_env, env_t.load, val_is_number])

/-- C8: when the target reference of `BC_ADD_ASSIGN` resolves to a slot `p`
whose value is neither a number nor a string, `nan` is stored in `p` and then
in the reference cell, and one cell is popped; `env.error` is unchanged. -/
theorem add_assign_other_kind_is_nan (H : Host σ) (code : Int → Nat) (env : env_t σ)
    (pc : Int) (id generation : Nat) (p : ptr)
    (href : env.sb (env.sp + 1) = .reference id generation)
    (hvar : H.env_get_var env id generation = some p)
    (hnn : val_is_number (env.load p) = false)
    (hns : val_is_string (env.load p) = false) :
    ∃ env1 : env_t σ,
      interp_switch H code env pc .BC_ADD_ASSIGN = some (env1, pc) ∧
      env1 = { (env.store p .nan).store (.stk (env.sp + 1)) .nan with sp := env.sp + 1 } ∧
      env1.load p = .nan ∧
      env1.sb (env.sp + 1) = .nan ∧
      env1.sp = env.sp + 1 ∧
      env1.error = env.error := by
  refine ⟨_, ?_, rfl, ?_, ?_, ?_, ?_⟩
  · simp only [interp_switch, interp_add_assign, env_stack_peek, ptr.succ, href,
      val_is_reference, val_2_reference, hvar, hnn, hns, val_set_nan, env_stack_pop,
      env_t.load_store_same, env_t.load_stk]
    cases p <;> simp [env_t.store, env_t.load]
  · cases p with
    | stk i =>
      by_cases h : i = env.sp + 1 <;> simp [env_t.load, env_t.store, Function.update, h]
    | var k => simp [env_t.load, env_t.store]
  · cases p <;> simp [env_t.store]
  · cases p <;> simp [env_t.store]
  · cases p <;> simp [env_t.store]

/-- C8, concrete instance: `BC_ADD_ASSIGN` onto slot `3`, which holds a
boolean. -/
theorem add_assign_other_kind_is_nan_witness :
    ∃ env1 : env_t Unit,
      interp_switch demo_host demo_code (demo_env (.number 0) (.reference 3 0)) 1
        .BC_ADD_ASSIGN = some (env1, 1) ∧
      env1 = { ((demo_env (.number 0) (.reference 3 0)).store (.var 3) .nan).store
                  (.stk ((demo_env (.number 0) (.reference 3 0)).sp + 1)) .nan with
               sp := (demo_env (.number 0) (.reference 3 0)).sp + 1 } ∧
      env1.load (.var 3) = .nan ∧
      env1.sb ((demo_env (.number 0) (.reference 3 0)).sp + 1) = .nan ∧
      env1.sp = (demo_env (.number 0) (.reference 3 0)).sp + 1 ∧
      env1.error = (demo_env (.number 0) (.reference 3 0)).error :=
  add_assign_other_kind_is_nan demo_host demo_code (demo_env (.number 0) (.reference 3 0)) 1
    3 0 (.var 3) (by simp [demo_env]) (by simp [demo_host])
    (by simp [demo_env, env_t.load, val_is_number])
    (by simp [demo_env, env_t.load, val_is_string])

/-- C9, as amended: `BC_FUNC_CALL argc` reads `argc` from the byte after the
opcode and calls `interp_call`, which takes the top-of-stack cell as the callee
`fn` and the cells beneath it, from `fn + 1`, as the arguments `av`; the kind
of the top-of-stack cell decides the dispatch: a script sets up a frame, a
native is invoked, anything else is `ERR_InvalidCallor`. -/
theorem call_dispatches_on_top_cell (H : Host σ) (code : Int → Nat) (env : env_t σ)
    (pc : Int) (ac : Nat) :
    interp_switch H code env pc .BC_FUNC_CALL = some (interp_call H env (code pc) (pc + 1)) ∧
    (val_is_script (env.sb env.sp) = true →
      interp_call H env ac pc =
        H.env_frame_setup env pc (.stk env.sp) ac (.stk (env.sp + 1))) ∧
    (val_is_script (env.sb env.sp) = false → val_is_native (env.sb env.sp) = true →
      interp_call H env ac pc =
        (H.env_native_call env (.stk env.sp) ac (.stk (env.sp + 1)), pc)) ∧
    (val_is_script (env.sb env.sp) = false → val_is_native (env.sb env.sp) = false →
      interp_call H env ac pc = (env_set_error env H.ERR_InvalidCallor, pc)) := by
  refine ⟨rfl, ?_, ?_, ?_⟩
  · intro hs
    simp [interp_call, env_stack_peek, ptr.succ, env_t.load, hs]
  · intro hs hn
    simp [interp_call, env_stack_peek, ptr.succ, env_t.load, hs, hn]
  · intro hs hn
    simp [interp_call, env_stack_peek, ptr.succ, env_t.load, hs, hn]

/-- C9, concrete instances of the amended statement: a script, a native and a
number on top of the stack, each above one argument cell. -/
theorem call_dispatches_on_top_cell_witness :
    interp_call demo_host (demo_env (.script 5) (.number 0)) 1 7 =
      demo_host.env_frame_setup (demo_env (.script 5) (.number 0)) 7
        (.stk (demo_env (.script 5) (.number 0)).sp) 1
        (.stk ((demo_env (.script 5) (.number 0)).sp + 1)) ∧
    interp_call demo_host (demo_env (.native 5) (.number 0)) 1 7 =
      (demo_host.env_native_call (demo_env (.native 5) (.number 0))
        (.stk (demo_env (.native 5) (.number 0)).sp) 1
        (.stk ((demo_env (.native 5) (.number 0)).sp + 1)), 7) ∧
    interp_call demo_host (demo_env (.number 0) (.native 5)) 1 7 =
      (env_set_error (demo_env (.number 0) (.native 5)) demo_host.ERR_InvalidCallor, 7) :=
  ⟨(call_dispatches_on_top_cell demo_host demo_code (demo_env (.script 5) (.number 0)) 7
      1).2.1 (by simp [demo_env, val_is_script]),
   (call_dispatches_on_top_cell demo_host demo_code (demo_env (.native 5) (.number 0)) 7
      1).2.2.1 (by simp [demo_env, val_is_script]) (by simp [demo_env, val_is_native]),
   (call_dispatches_on_top_cell demo_host demo_code (demo_env (.number 0) (.native 5)) 7
      1).2.2.2 (by simp [demo_env, val_is_script]) (by simp [demo_env, val_is_native])⟩

/-- C9, counterexample to the claim as stated: with `argc = 1`, a number on top
of the stack and a native function in the cell beneath the one argument cell,
the layout of the claim invokes the native (no error), while `interp_call`
takes the number for the callee and sets `ERR_InvalidCallor`. -/
theorem call_callee_beneath_args_counterexample :
    val_is_native ((demo_env (.number 0) (.native 5)).sb
        ((demo_env (.number 0) (.native 5)).sp + 1)) = true ∧
    (spec_interp_call demo_host (demo_env (.number 0) (.native 5)) 1 7).1.error = 0 ∧
    (interp_call demo_host (demo_env (.number 0) (.native 5)) 1 7).1.error =
      demo_host.ERR_InvalidCallor ∧
    interp_call demo_host (demo_env (.number 0) (.native 5)) 1 7 ≠
      spec_interp_call demo_host (demo_env (.number 0) (.native 5)) 1 7 := by
  have h1 : (spec_interp_call demo_host (demo_env (.number 0) (.native 5)) 1 7).1.error = 0 := by
    simp [spec_interp_call, env_stack_peek, env_t.load, demo_env, demo_host, val_is_script,
      val_is_native]
  have h2 : (interp_call demo_host (demo_env (.number 0) (.native 5)) 1 7).1.error =
      demo_host.ERR_InvalidCallor := by
    simp [interp_call, env_stack_peek, env_t.load, demo_env, demo_host, val_is_script,
      val_is_native, env_set_error]
  refine ⟨by simp [demo_env, val_is_native], h1, h2, ?_⟩
  intro h
  rw [h, h1] at h2
  simp [demo_host] at h2

/-- C10: executed with no error pending, `BC_FUNC_CALL` with any `argc` on a
top-of-stack callee that is neither a script nor a native sets
`ERR_InvalidCallor`, changes nothing else (the stack is as before) and hands
back the code pointer it was given; `interp_run` then leaves the loop at the
next test of `env.error` and returns `-ERR_InvalidCallor`, whatever bytes
follow. -/
theorem call_non_callable_is_error (H : Host σ) (code : Int → Nat) (env : env_t σ)
    (pc : Int) (fuel : Nat) (ac : Nat) (pc1 : Int)
    (herr : env.error = 0)
    (hop : H.bcode_of_byte (code pc) = some .BC_FUNC_CALL)
    (hs : val_is_script (env.sb env.sp) = false)
    (hn : val_is_native (env.sb env.sp) = false)
    (hcode : H.ERR_InvalidCallor ≠ 0) :
    interp_call H env ac pc1 = ({ env with error := H.ERR_InvalidCallor }, pc1) ∧
    interp_switch H code env (pc + 1) .BC_FUNC_CALL =
      some ({ env with error := H.ERR_InvalidCallor }, pc + 1 + 1) ∧
    interp_run H code (fuel + 2) env pc =
      some ({ env with error := H.ERR_InvalidCallor }, -H.ERR_InvalidCallor) := by
  have hcall : ∀ (n : Nat) (q : Int),
      interp_call H env n q = ({ env with error := H.ERR_InvalidCallor }, q) := by
    intro n q
    simp [interp_call, env_stack_peek, env_t.load, hs, hn, env_set_error, herr]
  refine ⟨hcall ac pc1, ?_, ?_⟩
  · simp [interp_switch, hcall]
  · simp [interp_run, herr, hop, interp_switch, hcall, hcode]

/-- C10, concrete instance: `BC_FUNC_CALL 1` at address `0` with a number on
top of the stack. -/
theorem call_non_callable_is_error_witness :
    interp_call demo_host (demo_env (.number 0) .undefined) 1 2 =
      ({ demo_env (.number 0) .undefined with error := demo_host.ERR_InvalidCallor }, 2) ∧
    interp_switch demo_host demo_code (demo_env (.number 0) .undefined) (0 + 1)
        .BC_FUNC_CALL =
      some ({ demo_env (.number 0) .undefined with error := demo_host.ERR_InvalidCallor },
        0 + 1 + 1) ∧
    interp_run demo_host demo_code (0 + 2) (demo_env (.number 0) .undefined) 0 =
      some ({ demo_env (.number 0) .undefined with error := demo_host.ERR_InvalidCallor },
        -demo_host.ERR_InvalidCallor) :=
  call_non_callable_is_error demo_host demo_code (demo_env (.number 0) .undefined) 0 0 1 2
    rfl (by simp [demo_host, demo_code]) (by simp [demo_env, val_is_script])
    (by simp [demo_env, val_is_native]) (by simp [demo_host])

/-! ## Further facts about the equality test -/

/-- The equality test is false whenever the left operand is `nan` or
`undefined`, and whenever the right operand is `nan` or `undefined` and the
left operand is not a string.  (With a string on the left and a different cell
on the right the result is `string_compare(a, b) == 0`.) -/
theorem interp_test_equal_nan_undefined (H : Host σ) (env : env_t σ) (a b : val_t)
    (h : (val_is_nan a = true ∨ val_is_undefined a = true) ∨
      ((val_is_nan b = true ∨ val_is_undefined b = true) ∧ val_is_string a = false)) :
    interp_test_equal H env a b = false := by
  unfold interp_test_equal
  by_cases hab : a = b
  · subst hab
    rcases h with h | ⟨h, _⟩ <;> rcases h with h | h <;> simp [h]
  · rcases h with h | ⟨_, h⟩
    · have hs : val_is_string a = false := by
        cases a <;> simp_all [val_is_nan, val_is_undefined, val_is_string]
      simp [hab, hs]
    · simp [hab, h]

/-- The cell written by `BC_TNE` is the negation of the cell written by
`BC_TEQ` from the same environment. -/
theorem interp_tne_negates_teq (H : Host σ) (env : env_t σ) :
    ∃ r : Bool,
      (interp_teq H env).sb (env.sp + 1) = .boolean r ∧
      (interp_tne H env).sb (env.sp + 1) = .boolean (!r) := by
  refine ⟨interp_test_equal H (env_stack_pop env).1 (env.sb (env.sp + 1)) (env.sb env.sp), ?_, ?_⟩
  · simp [interp_teq, env_stack_pop, ptr.succ, val_set_boolean, env_t.store, env_t.load]
  · simp [interp_tne, env_stack_pop, ptr.succ, val_set_boolean, env_t.store, env_t.load]

/-! ## Literals and property access -/

/-- C11: `BC_ARRAY n` reads `n` from the two operand bytes and calls
`interp_array`, which hands `array_create` the top-of-stack pointer and then
releases `n - 1` cells and writes the cell that becomes the top: an array
when `array_create` succeeded, `undefined` otherwise.  When `array_create`
leaves `sp` and the stack cells as they were, the stack is exactly `n - 1`
cells shallower (one deeper for `n = 0`), the cell where the deepest of the
`n` operands was holds the array, and every other cell is unchanged. -/
theorem array_literal_stack_effect (H : Host σ) (code : Int → Nat) (env : env_t σ)
    (pc : Int) (n : Nat) :
    interp_switch H code env pc .BC_ARRAY =
      some (interp_array H env (u16_index_or (code pc) (code (pc + 1))), pc + 2) ∧
    interp_array H env n =
      { (H.array_create env n (.stk env.sp)).1 with
        sp := (H.array_create env n (.stk env.sp)).1.sp + ((n : Int) - 1),
        sb := Function.update (H.array_create env n (.stk env.sp)).1.sb
          ((H.array_create env n (.stk env.sp)).1.sp + ((n : Int) - 1))
          (if (H.array_create env n (.stk env.sp)).2 ≠ 0
            then .array (H.array_create env n (.stk env.sp)).2 else .undefined) } ∧
    ((H.array_create env n (.stk env.sp)).1.sp = env.sp →
      (H.array_create env n (.stk env.sp)).1.sb = env.sb →
      (interp_array H env n).sp = env.sp + ((n : Int) - 1) ∧
      ((H.array_create env n (.stk env.sp)).2 ≠ 0 →
        (interp_array H env n).sb (env.sp + ((n : Int) - 1)) =
          .array (H.array_create env n (.stk env.sp)).2) ∧
      ∀ i : Int, i ≠ env.sp + ((n : Int) - 1) → (interp_array H env n).sb i = env.sb i) := by
  have hbody : interp_array H env n =
      { (H.array_create env n (.stk env.sp)).1 with
        sp := (H.array_create env n (.stk env.sp)).1.sp + ((n : Int) - 1),
        sb := Function.update (H.array_create env n (.stk env.sp)).1.sb
          ((H.array_create env n (.stk env.sp)).1.sp + ((n : Int) - 1))
          (if (H.array_create env n (.stk env.sp)).2 ≠ 0
            then .array (H.array_create env n (.stk env.sp)).2 else .undefined) } := by
    simp only [interp_array, env_stack_peek, env_stack_release, val_set_array,
      val_set_undefined, env_t.store]
    split_ifs <;> rfl
  refine ⟨rfl, hbody, ?_⟩
  intro hsp hsb
  rw [hbody]
  refine ⟨by simp [hsp], ?_, ?_⟩
  · intro hok
    rw [hsp, if_pos hok]
    exact Function.update_same _ _ _
  · intro i hi
    rw [hsp, hsb]
    exact Function.update_noteq hi _ _

/-- C11, concrete instance: `BC_ARRAY 2` on a stack whose two top cells are
numbers, with an `array_create` that succeeds with handle `9`. -/
theorem array_literal_stack_effect_witness :
    (interp_array demo_host_alloc (demo_env (.number 1) (.number 2)) 2).sp =
      (demo_env (.number 1) (.number 2)).sp + ((2 : Nat) - 1 : Int) ∧
    ((demo_host_alloc.array_create (demo_env (.number 1) (.number 2)) 2
        (.stk (demo_env (.number 1) (.number 2)).sp)).2 ≠ 0 →
      (interp_array demo_host_alloc (demo_env (.number 1) (.number 2)) 2).sb
          ((demo_env (.number 1) (.number 2)).sp + ((2 : Nat) - 1 : Int)) =
        .array (demo_host_alloc.array_create (demo_env (.number 1) (.number 2)) 2
          (.stk (demo_env (.number 1) (.number 2)).sp)).2) ∧
    ∀ i : Int, i ≠ (demo_env (.number 1) (.number 2)).sp + ((2 : Nat) - 1 : Int) →
      (interp_array demo_host_alloc (demo_env (.number 1) (.number 2)) 2).sb i =
        (demo_env (.number 1) (.number 2)).sb i :=
  (array_literal_stack_effect demo_host_alloc demo_code (demo_env (.number 1) (.number 2)) 0
    2).2.2 rfl rfl


/-- C12, as amended: `BC_DICT n` reads `n` from the two operand bytes and
calls `interp_dict`, which hands `object_create` the operand `n` and the
top-of-stack pointer and then releases `n - 1` cells and writes the cell that
becomes the top: a dictionary when `object_create` succeeded, `undefined`
otherwise.  When `object_create` leaves `sp` and the stack cells as they
were, the stack is exactly `n - 1` cells shallower: the operand `n` counts
the operand cells consumed (keys and values together), not pairs. -/
theorem dict_literal_stack_effect (H : Host σ) (code : Int → Nat) (env : env_t σ)
    (pc : Int) (n : Nat) :
    interp_switch H code env pc .BC_DICT =
      some (interp_dict H env (u16_index_or (code pc) (code (pc + 1))), pc + 2) ∧
    interp_dict H env n =
      { (H.object_create env n (.stk env.sp)).1 with
        sp := (H.object_create env n (.stk env.sp)).1.sp + ((n : Int) - 1),
        sb := Function.update (H.object_create env n (.stk env.sp)).1.sb
          ((H.object_create env n (.stk env.sp)).1.sp + ((n : Int) - 1))
          (if (H.object_create env n (.stk env.sp)).2 ≠ 0
            then .dictionary (H.object_create env n (.stk env.sp)).2 else .undefined) } ∧
    ((H.object_create env n (.stk env.sp)).1.sp = env.sp →
      (H.object_create env n (.stk env.sp)).1.sb = env.sb →
      (interp_dict H env n).sp = env.sp + ((n : Int) - 1) ∧
      ((H.object_create env n (.stk env.sp)).2 ≠ 0 →
        (interp_dict H env n).sb (env.sp + ((n : Int) - 1)) =
          .dictionary (H.object_create env n (.stk env.sp)).2) ∧
      ∀ i : Int, i ≠ env.sp + ((n : Int) - 1) → (interp_dict H env n).sb i = env.sb i) := by
  have hbody : interp_dict H env n =
      { (H.object_create env n (.stk env.sp)).1 with
        sp := (H.object_create env n (.stk env.sp)).1.sp + ((n : Int) - 1),
        sb := Function.update (H.object_create env n (.stk env.sp)).1.sb
          ((H.object_create env n (.stk env.sp)).1.sp + ((n : Int) - 1))
          (if (H.object_create env n (.stk env.sp)).2 ≠ 0
            then .dictionary (H.object_create env n (.stk env.sp)).2 else .undefined) } := by
    simp only [interp_dict, env_stack_peek, env_stack_release, val_set_dictionary,
      val_set_undefined, env_t.store]
    split_ifs <;> rfl
  refine ⟨rfl, hbody, ?_⟩
  intro hsp hsb
  rw [hbody]
  refine ⟨by simp [hsp], ?_, ?_⟩
  · intro hok
    rw [hsp, if_pos hok]
    exact Function.update_same _ _ _
  · intro i hi
    rw [hsp, hsb]
    exact Function.update_noteq hi _ _

/-- C12, concrete instance of the amended statement: `BC_DICT 2` on a stack
whose top cells are a value and its key. -/
theorem dict_literal_stack_effect_witness :
    (interp_dict demo_host_alloc (demo_env (.number 1) (.string 2)) 2).sp =
      (demo_env (.number 1) (.string 2)).sp + ((2 : Nat) - 1 : Int) ∧
    ((demo_host_alloc.object_create (demo_env (.number 1) (.string 2)) 2
        (.stk (demo_env (.number 1) (.string 2)).sp)).2 ≠ 0 →
      (interp_dict demo_host_alloc (demo_env (.number 1) (.string 2)) 2).sb
          ((demo_env (.number 1) (.string 2)).sp + ((2 : Nat) - 1 : Int)) =
        .dictionary (demo_host_alloc.object_create (demo_env (.number 1) (.string 2)) 2
          (.stk (demo_env (.number 1) (.string 2)).sp)).2) ∧
    ∀ i : Int, i ≠ (demo_env (.number 1) (.string 2)).sp + ((2 : Nat) - 1 : Int) →
      (interp_dict demo_host_alloc (demo_env (.number 1) (.string 2)) 2).sb i =
        (demo_env (.number 1) (.string 2)).sb i :=
  (dict_literal_stack_effect demo_host_alloc demo_code (demo_env (.number 1) (.string 2)) 0
    2).2.2 rfl rfl

/-- C12, counterexample to the claim as stated: `BC_DICT 1` on the stack
`[..., key, value]` (one pair), with an `object_create` that succeeds and
leaves the environment alone, ends with `sp` where it was and the dictionary
in the cell that held the value, the key cell still beneath it; the stack is
`0 = n - 1` cells shallower, not `1 = 2n - 1`. -/
theorem dict_literal_pairs_counterexample :
    (demo_host_alloc.object_create (demo_env (.number 1) (.string 2)) 1
        (.stk (demo_env (.number 1) (.string 2)).sp)).1.sp =
      (demo_env (.number 1) (.string 2)).sp ∧
    (interp_dict demo_host_alloc (demo_env (.number 1) (.string 2)) 1).sp =
      (demo_env (.number 1) (.string 2)).sp ∧
    (interp_dict demo_host_alloc (demo_env (.number 1) (.string 2)) 1).sp ≠
      (demo_env (.number 1) (.string 2)).sp + (2 * 1 - 1) ∧
    (interp_dict demo_host_alloc (demo_env (.number 1) (.string 2)) 1).sb
        (demo_env (.number 1) (.string 2)).sp = .dictionary 9 ∧
    (interp_dict demo_host_alloc (demo_env (.number 1) (.string 2)) 1).sb
        ((demo_env (.number 1) (.string 2)).sp + 1) = .string 2 := by
  refine ⟨rfl, ?_, ?_, ?_, ?_⟩ <;>
    simp [interp_dict, env_stack_peek, env_stack_release, val_set_dictionary,
      val_set_undefined, env_t.store, demo_host_alloc, demo_env]


/-- C13: `BC_PROP_METH` / `BC_ELEM_METH` hand the read helper the key cell
(top of stack) as result cell and do not pop; `BC_PROP` / `BC_ELEM` hand it
the obj cell (beneath the top) as result cell and pop one cell afterwards.
When the helper leaves `sp` and every stack cell but its result cell as they
were, the method forms keep the depth, the obj cell and everything beneath
it, so the stack is `[..., obj, value]`, and the plain forms leave
`[..., value]` one cell shallower. -/
theorem prop_read_stack_effect (H : Host σ) (code : Int → Nat) (env : env_t σ) (pc : Int)
    (op_meth op_read : bcode) (get : env_t σ → ptr → ptr → ptr → env_t σ)
    (hop : (op_meth, op_read, get) = (bcode.BC_PROP_METH, bcode.BC_PROP, H.object_prop_get) ∨
      (op_meth, op_read, get) = (bcode.BC_ELEM_METH, bcode.BC_ELEM, H.object_elem_get))
    (hframe : ∀ (e : env_t σ) (obj key res : ptr), (get e obj key res).sp = e.sp ∧
      ∀ i : Int, ptr.stk i ≠ res → (get e obj key res).sb i = e.sb i) :
    ∃ m r : env_t σ,
      interp_switch H code env pc op_meth = some (m, pc) ∧
      interp_switch H code env pc op_read = some (r, pc) ∧
      m = get env (.stk (env.sp + 1)) (.stk env.sp) (.stk env.sp) ∧
      m.sp = env.sp ∧
      (∀ i : Int, i ≠ env.sp → m.sb i = env.sb i) ∧
      r.sp = env.sp + 1 ∧
      r.sb (env.sp + 1) =
        (get env (.stk (env.sp + 1)) (.stk env.sp) (.stk (env.sp + 1))).sb (env.sp + 1) ∧
      (∀ i : Int, i ≠ env.sp + 1 → r.sb i = env.sb i) := by
  have hm := hframe env (.stk (env.sp + 1)) (.stk env.sp) (.stk env.sp)
  have hr := hframe env (.stk (env.sp + 1)) (.stk env.sp) (.stk (env.sp + 1))
  refine ⟨get env (.stk (env.sp + 1)) (.stk env.sp) (.stk env.sp),
    { get env (.stk (env.sp + 1)) (.stk env.sp) (.stk (env.sp + 1)) with
      sp := (get env (.stk (env.sp + 1)) (.stk env.sp) (.stk (env.sp + 1))).sp + 1 },
    ?_, ?_, rfl, hm.1, ?_, ?_, rfl, ?_⟩
  · rcases hop with h | h <;> (simp only [Prod.mk.injEq] at h; obtain ⟨rfl, rfl, rfl⟩ := h; rfl)
  · rcases hop with h | h <;> (simp only [Prod.mk.injEq] at h; obtain ⟨rfl, rfl, rfl⟩ := h; rfl)
  · intro i hi
    exact hm.2 i (fun h => hi (by simpa using h))
  · show (get env (.stk (env.sp + 1)) (.stk env.sp) (.stk (env.sp + 1))).sp + 1 = env.sp + 1
    rw [hr.1]
  · intro i hi
    exact hr.2 i (fun h => hi (by simpa using h))

/-- C13, concrete instance: `BC_PROP_METH` and `BC_PROP` with a read helper
that stores the number with bit pattern `42` in its result cell. -/
theorem prop_read_stack_effect_witness :
    ∃ m r : env_t Unit,
      interp_switch demo_host_alloc demo_code (demo_env (.string 1) (.dictionary 2)) 1
        .BC_PROP_METH = some (m, 1) ∧
      interp_switch demo_host_alloc demo_code (demo_env (.string 1) (.dictionary 2)) 1
        .BC_PROP = some (r, 1) ∧
      m = demo_host_alloc.object_prop_get (demo_env (.string 1) (.dictionary 2))
        (.stk ((demo_env (.string 1) (.dictionary 2)).sp + 1))
        (.stk (demo_env (.string 1) (.dictionary 2)).sp)
        (.stk (demo_env (.string 1) (.dictionary 2)).sp) ∧
      m.sp = (demo_env (.string 1) (.dictionary 2)).sp ∧
      (∀ i : Int, i ≠ (demo_env (.string 1) (.dictionary 2)).sp →
        m.sb i = (demo_env (.string 1) (.dictionary 2)).sb i) ∧
      r.sp = (demo_env (.string 1) (.dictionary 2)).sp + 1 ∧
      r.sb ((demo_env (.string 1) (.dictionary 2)).sp + 1) =
        (demo_host_alloc.object_prop_get (demo_env (.string 1) (.dictionary 2))
          (.stk ((demo_env (.string 1) (.dictionary 2)).sp + 1))
          (.stk (demo_env (.string 1) (.dictionary 2)).sp)
          (.stk ((demo_env (.string 1) (.dictionary 2)).sp + 1))).sb
          ((demo_env (.string 1) (.dictionary 2)).sp + 1) ∧
      (∀ i : Int, i ≠ (demo_env (.string 1) (.dictionary 2)).sp + 1 →
        r.sb i = (demo_env (.string 1) (.dictionary 2)).sb i) :=
  prop_read_stack_effect demo_host_alloc demo_code (demo_env (.string 1) (.dictionary 2)) 1
    .BC_PROP_METH .BC_PROP demo_host_alloc.object_prop_get (Or.inl rfl)
    (by
      intro e obj key res
      cases res with
      | stk j =>
        refine ⟨rfl, fun i hi => ?_⟩
        have hij : i ≠ j := fun h => hi (by rw [h])
        simp [demo_host_alloc, env_t.store, Function.update, hij]
      | var k => exact ⟨rfl, fun i _ => rfl⟩)


/-- C14: `BC_PROP_ASSIGN` / `BC_ELEM_ASSIGN` call the write helper on the
cells `obj = sp + 2`, `key = sp + 1`, `val = sp`, then release two cells and
copy the val cell into the obj cell; the compound forms call their helper
with the obj cell as result cell and release two cells.  When the helper
leaves `sp` and the val cell as they were (as it does when the write is a
no-op), exactly two cells are popped and the new top cell, where obj was,
holds exactly val; a compound form pops exactly two cells when its helper
leaves `sp` as it was. -/
theorem prop_write_stack_effect (H : Host σ) (code : Int → Nat) (env : env_t σ) (pc : Int)
    (op : bcode) (set : env_t σ → ptr → ptr → ptr → env_t σ)
    (cop : bcode) (opset : env_t σ → ptr → ptr → ptr → ptr → env_t σ)
    (hop : (op, set) = (bcode.BC_PROP_ASSIGN, H.object_prop_set) ∨
      (op, set) = (bcode.BC_ELEM_ASSIGN, H.object_elem_set))
    (hcop : (∃ a : arith, (cop, opset) = (bcode_prop_assign a, H.object_prop_op_set a)) ∨
      (∃ a : arith, (cop, opset) = (bcode_elem_assign a, H.object_elem_op_set a)))
    (hsp : (set env (.stk (env.sp + 1 + 1)) (.stk (env.sp + 1)) (.stk env.sp)).sp = env.sp)
    (hval : (set env (.stk (env.sp + 1 + 1)) (.stk (env.sp + 1)) (.stk env.sp)).sb env.sp =
      env.sb env.sp)
    (hcsp : (opset env (.stk (env.sp + 1 + 1)) (.stk (env.sp + 1)) (.stk env.sp)
      (.stk (env.sp + 1 + 1))).sp = env.sp) :
    ∃ w c : env_t σ,
      interp_switch H code env pc op = some (w, pc) ∧
      interp_switch H code env pc cop = some (c, pc) ∧
      w.sp = env.sp + 2 ∧
      w.sb w.sp = env.sb env.sp ∧
      c = { opset env (.stk (env.sp + 1 + 1)) (.stk (env.sp + 1)) (.stk env.sp)
              (.stk (env.sp + 1 + 1)) with sp := env.sp + 2 } ∧
      c.sp = env.sp + 2 := by
  have hw : ∃ w : env_t σ, interp_switch H code env pc op = some (w, pc) ∧
      w.sp = env.sp + 2 ∧ w.sb w.sp = env.sb env.sp := by
    rcases hop with h | h <;>
      (simp only [Prod.mk.injEq] at h
       obtain ⟨rfl, rfl⟩ := h
       refine ⟨_, rfl, ?_, ?_⟩
       · simp [interp_prop_set, interp_elem_set, env_stack_peek, ptr.succ, env_stack_release,
           env_t.store, hsp]
       · simp [interp_prop_set, interp_elem_set, env_stack_peek, ptr.succ, env_stack_release,
           env_t.store, env_t.load, hsp, hval]
         rw [show env.sp + 1 + 1 = env.sp + 2 by ring]
         simp)
  have hc : interp_switch H code env pc cop =
      some ({ opset env (.stk (env.sp + 1 + 1)) (.stk (env.sp + 1)) (.stk env.sp)
                (.stk (env.sp + 1 + 1)) with sp := env.sp + 2 }, pc) := by
    rcases hcop with ⟨a, h⟩ | ⟨a, h⟩ <;>
      (simp only [Prod.mk.injEq] at h
       obtain ⟨rfl, rfl⟩ := h
       cases a <;>
         simp [interp_switch, bcode_prop_assign, bcode_elem_assign, interp_prop_op_set,
           interp_elem_op_set, env_stack_peek, ptr.succ, env_stack_release, hcsp])
  obtain ⟨w, hw1, hw2, hw3⟩ := hw
  exact ⟨w, _, hw1, hc, hw2, hw3, rfl, rfl⟩

/-- C14, concrete instance: `BC_PROP_ASSIGN` and `BC_PROP_ADD_ASSIGN` with
helpers that leave the environment alone (a write that is a no-op). -/
theorem prop_write_stack_effect_witness :
    ∃ w c : env_t Unit,
      interp_switch demo_host demo_code (demo_env (.number 5) (.string 1)) 1
        .BC_PROP_ASSIGN = some (w, 1) ∧
      interp_switch demo_host demo_code (demo_env (.number 5) (.string 1)) 1
        (bcode_prop_assign .add) = some (c, 1) ∧
      w.sp = (demo_env (.number 5) (.string 1)).sp + 2 ∧
      w.sb w.sp = (demo_env (.number 5) (.string 1)).sb (demo_env (.number 5) (.string 1)).sp ∧
      c = { demo_host.object_prop_op_set .add (demo_env (.number 5) (.string 1))
              (.stk ((demo_env (.number 5) (.string 1)).sp + 1 + 1))
              (.stk ((demo_env (.number 5) (.string 1)).sp + 1))
              (.stk (demo_env (.number 5) (.string 1)).sp)
              (.stk ((demo_env (.number 5) (.string 1)).sp + 1 + 1)) with
            sp := (demo_env (.number 5) (.string 1)).sp + 2 } ∧
      c.sp = (demo_env (.number 5) (.string 1)).sp + 2 :=
  prop_write_stack_effect demo_host demo_code (demo_env (.number 5) (.string 1)) 1
    .BC_PROP_ASSIGN demo_host.object_prop_set (bcode_prop_assign .add)
    (demo_host.object_prop_op_set .add) (Or.inl rfl) (Or.inl ⟨.add, rfl⟩) rfl rfl rfl


/-! ## Jumps -/

/-- Clearing the bits of a byte `lo` in a number whose low byte is `255`. -/
theorem ldiff_low_byte (m lo : Nat) (hlo : lo < 256) :
    Nat.ldiff (2 ^ 8 * m + 255) lo = 2 ^ 8 * m + (2 ^ 8 - (lo + 1)) := by
  apply Nat.eq_of_testBit_eq
  intro i
  have h255 : (255 : Nat) < 2 ^ 8 := by norm_num
  have hlo2 : lo < 2 ^ 8 := by simpa using hlo
  have hsub : 2 ^ 8 - (lo + 1) < 2 ^ 8 := by omega
  rw [Nat.testBit_ldiff, Nat.testBit_mul_pow_two_add m h255, Nat.testBit_mul_pow_two_add m hsub,
    Nat.testBit_two_pow_sub_succ hlo2]
  by_cases hi : i < 8
  · have h1 : Nat.testBit 255 i = true := by
      interval_cases i <;> decide
    simp [hi, h1]
  · have h0 : lo.testBit i = false := by
      apply Nat.testBit_lt_two_pow
      calc lo < 2 ^ 8 := hlo2
        _ ≤ 2 ^ i := Nat.pow_le_pow_right (by norm_num) (by omega)
    simp [hi, h0]

/-- Or-ing a byte into a multiple of `256` adds it, also for a negative
multiple. -/
theorem int_lor_low_byte (x : Int) (lo : Nat) (hlo : lo < 256) :
    Int.lor (x * 256) (lo : Int) = x * 256 + lo := by
  cases x with
  | ofNat m =>
    have h1 : (Int.ofNat m * 256 : Int) = ((2 ^ 8 * m : Nat) : Int) := by
      simp [mul_comm]
    rw [h1]
    show ((2 ^ 8 * m ||| lo : Nat) : Int) = _
    rw [← Nat.mul_add_lt_is_or (by simpa using hlo) m]
    push_cast
    ring
  | negSucc m =>
    have h1 : (Int.negSucc m * 256 : Int) = Int.negSucc (2 ^ 8 * m + 255) := by
      rw [Int.negSucc_eq, Int.negSucc_eq]
      push_cast
      ring
    rw [h1]
    show Int.negSucc (Nat.ldiff (2 ^ 8 * m + 255) lo) = _
    rw [ldiff_low_byte m lo hlo, Int.negSucc_eq, Int.negSucc_eq]
    have hle : lo + 1 ≤ 2 ^ 8 := by omega
    rw [Nat.cast_add, Nat.cast_sub hle]
    push_cast
    ring

/-- The cast `(int8_t) b` of a byte is its two's-complement value. -/
theorem int8_of_byte_eq_s8 (b : Nat) (hb : b < 256) : int8_of_byte b = s8 b := by
  unfold int8_of_byte s8
  rw [Nat.mod_eq_of_lt hb]

/-- The long-jump operand decoding is the sign-extended big-endian word. -/
theorem jmp_index_eq_s16 (hi lo : Nat) (hhi : hi < 256) (hlo : lo < 256) :
    jmp_index hi lo = s16 (256 * hi + lo) := by
  unfold jmp_index
  have hs : int8_of_byte hi <<< (8 : Int) = int8_of_byte hi * 256 := by
    have h := Int.shiftLeft_eq_mul_pow (int8_of_byte hi) 8
    simpa using h
  rw [hs, int_lor_low_byte _ _ hlo]
  unfold int8_of_byte s16
  rw [Nat.mod_eq_of_lt hhi]
  split_ifs <;> omega

/-- C15: for operand bytes `b`, `hi`, `lo` (each below `256`) the cast
`(int8_t) b` is `s8 b`, in `[-128, 127]`, and `((int8_t) hi << 8) | lo` is
`s16 (256 * hi + lo)`, in `[-32768, 32767]`.  A short jump whose opcode is at
address `p` and whose operand byte is `b` continues, when taken, at
`p + 2 + s8 b`; a long jump with operand bytes `hi`, `lo` continues, when
taken, at `p + 3 + s16 (256 * hi + lo)`.  The unconditional forms are always
taken, the `_T` forms when `val_is_true` holds of the top cell, the `_F` forms
when it does not (for the `POP_` forms `val_is_true` reads the cell just
popped). -/
theorem jump_target_arithmetic (H : Host σ) (code : Int → Nat) (env : env_t σ) (p : Int)
    (b hi lo : Nat) (hb : b < 256) (hhi : hi < 256) (hlo : lo < 256) :
    int8_of_byte b = s8 b ∧ -128 ≤ s8 b ∧ s8 b ≤ 127 ∧
    jmp_index hi lo = s16 (256 * hi + lo) ∧
    -32768 ≤ s16 (256 * hi + lo) ∧ s16 (256 * hi + lo) ≤ 32767 ∧
    (code (p + 1) = b → ∀ (op : bcode) (taken : Bool),
      (op, taken) ∈ [(bcode.BC_SJMP, true),
        (bcode.BC_SJMP_T, H.val_is_true env (env.sb env.sp)),
        (bcode.BC_SJMP_F, !H.val_is_true env (env.sb env.sp)),
        (bcode.BC_POP_SJMP_T, H.val_is_true (env_stack_pop env).1 (env.sb env.sp)),
        (bcode.BC_POP_SJMP_F, !H.val_is_true (env_stack_pop env).1 (env.sb env.sp))] →
      taken = true →
      (interp_switch H code env (p + 1) op).map Prod.snd = some (p + 2 + s8 b)) ∧
    (code (p + 1) = hi → code (p + 2) = lo → ∀ (op : bcode) (taken : Bool),
      (op, taken) ∈ [(bcode.BC_JMP, true),
        (bcode.BC_JMP_T, H.val_is_true env (env.sb env.sp)),
        (bcode.BC_JMP_F, !H.val_is_true env (env.sb env.sp)),
        (bcode.BC_POP_JMP_T, H.val_is_true (env_stack_pop env).1 (env.sb env.sp)),
        (bcode.BC_POP_JMP_F, !H.val_is_true (env_stack_pop env).1 (env.sb env.sp))] →
      taken = true →
      (interp_switch H code env (p + 1) op).map Prod.snd =
        some (p + 3 + s16 (256 * hi + lo))) := by
  refine ⟨int8_of_byte_eq_s8 b hb, ?_, ?_, jmp_index_eq_s16 hi lo hhi hlo, ?_, ?_, ?_, ?_⟩
  · unfold s8; split_ifs <;> omega
  · unfold s8; split_ifs <;> omega
  · unfold s16; split_ifs <;> omega
  · unfold s16; split_ifs <;> omega
  · intro hc op taken hmem htaken
    have h8 : int8_of_byte (code (p + 1)) = s8 b := by rw [hc]; exact int8_of_byte_eq_s8 b hb
    have h2 : p + 1 + 1 = p + 2 := by ring
    simp only [List.mem_cons, List.mem_singleton, List.not_mem_nil, or_false,
      Prod.mk.injEq] at hmem
    rcases hmem with ⟨rfl, rfl⟩ | ⟨rfl, rfl⟩ | ⟨rfl, rfl⟩ | ⟨rfl, rfl⟩ | ⟨rfl, rfl⟩ <;>
      simp_all [interp_switch, jump_if, env_stack_peek, env_stack_pop, env_t.load]
  · intro hc1 hc2 op taken hmem htaken
    have h2 : p + 1 + 1 = p + 2 := by ring
    have h3 : p + 1 + 2 = p + 3 := by ring
    have h16 : jmp_index (code (p + 1)) (code (p + 1 + 1)) = s16 (256 * hi + lo) := by
      rw [h2, hc1, hc2]; exact jmp_index_eq_s16 hi lo hhi hlo
    simp only [List.mem_cons, List.mem_singleton, List.not_mem_nil, or_false,
      Prod.mk.injEq] at hmem
    rcases hmem with ⟨rfl, rfl⟩ | ⟨rfl, rfl⟩ | ⟨rfl, rfl⟩ | ⟨rfl, rfl⟩ | ⟨rfl, rfl⟩ <;>
      simp_all [interp_switch, jump_if, env_stack_peek, env_stack_pop, env_t.load]


/-- C15, concrete instance: `BC_SJMP` at address `0` with operand byte `254`
and `BC_JMP` at address `10` with operand bytes `255 254` both jump back onto
themselves. -/
theorem jump_target_arithmetic_witness :
    (interp_switch demo_host_alloc demo_code_jump (demo_env .nan .nan) (0 + 1)
        .BC_SJMP).map Prod.snd = some (0 + 2 + s8 254) ∧
    (interp_switch demo_host_alloc demo_code_jump (demo_env .nan .nan) (10 + 1)
        .BC_JMP).map Prod.snd = some (10 + 3 + s16 (256 * 255 + 254)) ∧
    jmp_index 255 254 = s16 (256 * 255 + 254) :=
  ⟨(jump_target_arithmetic demo_host_alloc demo_code_jump (demo_env .nan .nan) 0 254 255 254
      (by decide) (by decide) (by decide)).2.2.2.2.2.2.1 rfl .BC_SJMP true (by simp) rfl,
   (jump_target_arithmetic demo_host_alloc demo_code_jump (demo_env .nan .nan) 10 254 255 254
      (by decide) (by decide) (by decide)).2.2.2.2.2.2.2 rfl rfl .BC_JMP true (by simp) rfl,
   (jump_target_arithmetic demo_host_alloc demo_code_jump (demo_env .nan .nan) 0 254 255 254
      (by decide) (by decide) (by decide)).2.2.2.1⟩

/-- C16: with `v` the top-of-stack cell, `BC_SJMP_T` and `BC_JMP_T` add the
decoded offset to the `pc` exactly when `val_is_true` holds of `v`,
`BC_SJMP_F` and `BC_JMP_F` exactly when it does not, and all four leave the
environment (`sp` and every cell) as it was.  The `POP_` forms decide in the
same way on the cell they pop, and the environment afterwards is the old one
with `sp + 1`, taken or not.  A branch not taken continues at the byte after
the operand (`p + 2` for the short, `p + 3` for the long forms), and of the
two conditions of a `_T` / `_F` pair exactly one holds. -/
theorem conditional_jump_effect (H : Host σ) (code : Int → Nat) (env : env_t σ) (p : Int) :
    interp_switch H code env (p + 1) .BC_SJMP_T =
      some (env, if H.val_is_true env (env.sb env.sp) = true
        then p + 2 + int8_of_byte (code (p + 1)) else p + 2) ∧
    interp_switch H code env (p + 1) .BC_SJMP_F =
      some (env, if (!H.val_is_true env (env.sb env.sp)) = true
        then p + 2 + int8_of_byte (code (p + 1)) else p + 2) ∧
    interp_switch H code env (p + 1) .BC_JMP_T =
      some (env, if H.val_is_true env (env.sb env.sp) = true
        then p + 3 + jmp_index (code (p + 1)) (code (p + 2)) else p + 3) ∧
    interp_switch H code env (p + 1) .BC_JMP_F =
      some (env, if (!H.val_is_true env (env.sb env.sp)) = true
        then p + 3 + jmp_index (code (p + 1)) (code (p + 2)) else p + 3) ∧
    interp_switch H code env (p + 1) .BC_POP_SJMP_T =
      some ({ env with sp := env.sp + 1 },
        if H.val_is_true { env with sp := env.sp + 1 } (env.sb env.sp) = true
        then p + 2 + int8_of_byte (code (p + 1)) else p + 2) ∧
    interp_switch H code env (p + 1) .BC_POP_SJMP_F =
      some ({ env with sp := env.sp + 1 },
        if (!H.val_is_true { env with sp := env.sp + 1 } (env.sb env.sp)) = true
        then p + 2 + int8_of_byte (code (p + 1)) else p + 2) ∧
    interp_switch H code env (p + 1) .BC_POP_JMP_T =
      some ({ env with sp := env.sp + 1 },
        if H.val_is_true { env with sp := env.sp + 1 } (env.sb env.sp) = true
        then p + 3 + jmp_index (code (p + 1)) (code (p + 2)) else p + 3) ∧
    interp_switch H code env (p + 1) .BC_POP_JMP_F =
      some ({ env with sp := env.sp + 1 },
        if (!H.val_is_true { env with sp := env.sp + 1 } (env.sb env.sp)) = true
        then p + 3 + jmp_index (code (p + 1)) (code (p + 2)) else p + 3) ∧
    (∀ t : Bool, (t = true ∧ (!t) = false) ∨ (t = false ∧ (!t) = true)) := by
  have h2 : p + 1 + 1 = p + 2 := by ring
  have h3 : p + 1 + 2 = p + 3 := by ring
  refine ⟨?_, ?_, ?_, ?_, ?_, ?_, ?_, ?_, by decide⟩ <;>
    simp only [interp_switch, jump_if, env_stack_peek, env_stack_pop, env_t.load, h2, h3]


/-! ## The loop -/

/-- Forgetting the exit report of `interp_run_exit` gives `interp_run`. -/
theorem interp_run_exit_eq (H : Host σ) (code : Int → Nat) (fuel : Nat) :
    ∀ (env : env_t σ) (pc : Int),
      (interp_run_exit H code fuel env pc).map Prod.snd = interp_run H code fuel env pc := by
  induction fuel with
  | zero => intro env pc; rfl
  | succ n ih =>
    intro env pc
    unfold interp_run_exit interp_run
    by_cases he : env.error ≠ 0
    · rw [if_pos he, if_pos he]; rfl
    · rw [if_neg he, if_neg he]
      cases hb : H.bcode_of_byte (code pc) with
      | none => simpa using ih _ _
      | some op =>
        simp only []
        cases hs : interp_switch H code env (pc + 1) op with
        | none => rfl
        | some q => exact ih q.1 q.2

/-- What holds at either exit of the loop: the result is `-env->error`; at
`BC_STOP` no error is pending, at the failed loop condition one is. -/
theorem interp_run_exit_spec (H : Host σ) (code : Int → Nat) (fuel : Nat) :
    ∀ (env : env_t σ) (pc : Int) (k : loop_exit) (env1 : env_t σ) (r : Int),
      interp_run_exit H code fuel env pc = some (k, env1, r) →
      r = -env1.error ∧ (k = .stop → env1.error = 0) ∧ (k = .error → env1.error ≠ 0) := by
  induction fuel with
  | zero => intro env pc k env1 r h; simp [interp_run_exit] at h
  | succ n ih =>
    intro env pc k env1 r h
    unfold interp_run_exit at h
    by_cases he : env.error ≠ 0
    · rw [if_pos he] at h
      simp only [Option.some.injEq, Prod.mk.injEq] at h
      obtain ⟨rfl, rfl, rfl⟩ := h
      refine ⟨rfl, ?_, fun _ => he⟩
      intro hk
      cases hk
    · rw [if_neg he] at h
      cases hb : H.bcode_of_byte (code pc) with
      | none =>
        rw [hb] at h
        exact ih _ _ _ _ _ h
      | some op =>
        rw [hb] at h
        simp only [] at h
        cases hs : interp_switch H code env (pc + 1) op with
        | none =>
          rw [hs] at h
          simp only [Option.some.injEq, Prod.mk.injEq] at h
          obtain ⟨rfl, rfl, rfl⟩ := h
          have h0 : env.error = 0 := by simpa using he
          refine ⟨rfl, fun _ => h0, ?_⟩
          intro hk
          cases hk
        | some q =>
          rw [hs] at h
          exact ih _ _ _ _ _ h

/-- C17: whenever `interp_run` returns, the returned value is `-env.error`
of the environment at exit; the loop was left either at `BC_STOP`, with no
error pending, or at the loop condition, with a non-zero error; and the
returned value is `0` if and only if the loop was left at `BC_STOP`. -/
theorem interp_run_return_value (H : Host σ) (code : Int → Nat) (fuel : Nat)
    (env : env_t σ) (pc : Int) (env1 : env_t σ) (r : Int)
    (hrun : interp_run H code fuel env pc = some (env1, r)) :
    r = -env1.error ∧
    ∃ k : loop_exit, interp_run_exit H code fuel env pc = some (k, env1, r) ∧
      (r = 0 ↔ k = .stop) ∧ (k = .stop → env1.error = 0) ∧
      (k = .error → env1.error ≠ 0 ∧ r ≠ 0) := by
  have heq := interp_run_exit_eq H code fuel env pc
  rw [hrun] at heq
  cases hx : interp_run_exit H code fuel env pc with
  | none => rw [hx] at heq; simp at heq
  | some t =>
    obtain ⟨k, e, v⟩ := t
    rw [hx] at heq
    simp only [Option.map_some', Option.some.injEq, Prod.mk.injEq] at heq
    obtain ⟨rfl, rfl⟩ := heq
    obtain ⟨h1, h2, h3⟩ := interp_run_exit_spec H code fuel env pc k e v hx
    refine ⟨h1, k, rfl, ⟨fun h0 => ?_, fun hk => ?_⟩, h2, fun hk => ⟨h3 hk, ?_⟩⟩
    · cases k with
      | stop => rfl
      | error => exact absurd (by omega) (h3 rfl)
    · rw [h1, h2 hk]; rfl
    · have := h3 hk
      omega

/-- C17, concrete instances: a run that starts on `BC_STOP` returns `0`, and
a run that starts on a byte that is no opcode returns the negated error. -/
theorem interp_run_return_value_witness :
    (-(demo_env .nan .nan).error = -(demo_env .nan .nan).error ∧
      ∃ k : loop_exit,
        interp_run_exit demo_host_alloc demo_code_line 1 (demo_env .nan .nan) 3 =
          some (k, demo_env .nan .nan, -(demo_env .nan .nan).error) ∧
        (-(demo_env .nan .nan).error = 0 ↔ k = .stop) ∧
        (k = .stop → (demo_env .nan .nan).error = 0) ∧
        (k = .error → (demo_env .nan .nan).error ≠ 0 ∧ -(demo_env .nan .nan).error ≠ 0)) ∧
    (-(2 : Int) = -({ demo_env .nan .nan with error := 2 } : env_t Unit).error ∧
      ∃ k : loop_exit,
        interp_run_exit demo_host_alloc demo_code_bad 2 (demo_env .nan .nan) 0 =
          some (k, { demo_env .nan .nan with error := 2 }, -2) ∧
        (-(2 : Int) = 0 ↔ k = .stop) ∧
        (k = .stop → ({ demo_env .nan .nan with error := 2 } : env_t Unit).error = 0) ∧
        (k = .error → ({ demo_env .nan .nan with error := 2 } : env_t Unit).error ≠ 0 ∧
          -(2 : Int) ≠ 0)) :=
  ⟨interp_run_return_value demo_host_alloc demo_code_line 1 (demo_env .nan .nan) 3
      (demo_env .nan .nan) (-(demo_env .nan .nan).error) rfl,
   interp_run_return_value demo_host_alloc demo_code_bad 2 (demo_env .nan .nan) 0
      { demo_env .nan .nan with error := 2 } (-2) rfl⟩

/-- C18: executed with no error pending, `BC_TIN` and every byte that is not
an opcode of the switch set `ERR_InvalidByteCode` and change nothing else; the
loop goes on from the byte after the opcode byte, finds the error and returns
`-ERR_InvalidByteCode`. -/
theorem invalid_bytecode_is_error (H : Host σ) (code : Int → Nat) (env : env_t σ)
    (pc : Int) (fuel : Nat)
    (herr : env.error = 0)
    (hcode : H.ERR_InvalidByteCode ≠ 0)
    (hbyte : H.bcode_of_byte (code pc) = some .BC_TIN ∨ H.bcode_of_byte (code pc) = none) :
    interp_switch H code env (pc + 1) .BC_TIN =
      some ({ env with error := H.ERR_InvalidByteCode }, pc + 1) ∧
    interp_run H code (fuel + 1) env pc =
      interp_run H code fuel { env with error := H.ERR_InvalidByteCode } (pc + 1) ∧
    interp_run H code (fuel + 2) env pc =
      some ({ env with error := H.ERR_InvalidByteCode }, -H.ERR_InvalidByteCode) := by
  have hset : env_set_error env H.ERR_InvalidByteCode =
      { env with error := H.ERR_InvalidByteCode } := by
    simp [env_set_error, herr]
  have hstep : interp_run H code (fuel + 1) env pc =
      interp_run H code fuel { env with error := H.ERR_InvalidByteCode } (pc + 1) := by
    rcases hbyte with hb | hb <;> simp [interp_run, herr, hb, interp_switch, hset]
  have hstep2 : interp_run H code (fuel + 1 + 1) env pc =
      interp_run H code (fuel + 1) { env with error := H.ERR_InvalidByteCode } (pc + 1) := by
    rcases hbyte with hb | hb <;> simp [interp_run, herr, hb, interp_switch, hset]
  refine ⟨by simp [interp_switch, hset], hstep, ?_⟩
  rw [hstep2]
  simp [interp_run, hcode]

/-- C18, concrete instances: the byte `200`, which is no opcode, and the byte
`5`, which is `BC_TIN`, each followed by valid code. -/
theorem invalid_bytecode_is_error_witness :
    interp_run demo_host_alloc demo_code_bad (0 + 2) (demo_env .nan .nan) 0 =
      some ({ demo_env .nan .nan with error := demo_host_alloc.ERR_InvalidByteCode },
        -demo_host_alloc.ERR_InvalidByteCode) ∧
    interp_run demo_host_alloc (fun a => if a = 0 then 5 else 1) (0 + 2)
        (demo_env .nan .nan) 0 =
      some ({ demo_env .nan .nan with error := demo_host_alloc.ERR_InvalidByteCode },
        -demo_host_alloc.ERR_InvalidByteCode) :=
  ⟨(invalid_bytecode_is_error demo_host_alloc demo_code_bad (demo_env .nan .nan) 0 0 rfl
      (by simp [demo_host_alloc, demo_host])
      (Or.inr (by simp [demo_host_alloc, demo_code_bad]))).2.2,
   (invalid_bytecode_is_error demo_host_alloc (fun a => if a = 0 then 5 else 1)
      (demo_env .nan .nan) 0 0 rfl (by simp [demo_host_alloc, demo_host])
      (Or.inl (by simp [demo_host_alloc]))).2.2⟩

/-- C19: if `env.error` is non-zero on entry, `interp_run` fetches nothing and
returns `-env.error` with the environment untouched; if the instruction at
`pc` leaves a non-zero `env.error`, whether one of the switch or a byte that
is no opcode, `interp_run` returns with exactly the environment that
instruction left, whatever bytes follow. -/
theorem error_stops_loop (H : Host σ) (code : Int → Nat) (env : env_t σ) (pc : Int)
    (fuel : Nat) :
    (env.error ≠ 0 → interp_run H code (fuel + 1) env pc = some (env, -env.error)) ∧
    (∀ (op : bcode) (env1 : env_t σ) (pc1 : Int), env.error = 0 →
      H.bcode_of_byte (code pc) = some op →
      interp_switch H code env (pc + 1) op = some (env1, pc1) → env1.error ≠ 0 →
      interp_run H code (fuel + 2) env pc = some (env1, -env1.error)) ∧
    (env.error = 0 → H.bcode_of_byte (code pc) = none → H.ERR_InvalidByteCode ≠ 0 →
      interp_run H code (fuel + 2) env pc =
        some ({ env with error := H.ERR_InvalidByteCode }, -H.ERR_InvalidByteCode)) := by
  refine ⟨?_, ?_, ?_⟩
  · intro he
    simp [interp_run, he]
  · intro op env1 pc1 he hb hs he1
    simp [interp_run, he, hb, hs, he1]
  · intro he hb hcode
    simp [interp_run, he, hb, env_set_error, hcode]

/-- C19, concrete instances: a run entered with error `3` pending; a
`BC_ASSIGN` onto a number cell followed by valid code; a byte that is no
opcode followed by valid code. -/
theorem error_stops_loop_witness :
    interp_run demo_host_alloc demo_code_assign (0 + 1)
        { demo_env (.number 0) (.number 1) with error := 3 } 0 =
      some ({ demo_env (.number 0) (.number 1) with error := 3 },
        -({ demo_env (.number 0) (.number 1) with error := 3 } : env_t Unit).error) ∧
    interp_run demo_host_alloc demo_code_assign (0 + 2) (demo_env (.number 0) (.number 1)) 0 =
      some ({ demo_env (.number 0) (.number 1) with error := 3 },
        -({ demo_env (.number 0) (.number 1) with error := 3 } : env_t Unit).error) ∧
    interp_run demo_host_alloc demo_code_bad (0 + 2) (demo_env .nan .nan) 0 =
      some ({ demo_env .nan .nan with error := demo_host_alloc.ERR_InvalidByteCode },
        -demo_host_alloc.ERR_InvalidByteCode) :=
  ⟨(error_stops_loop demo_host_alloc demo_code_assign
      { demo_env (.number 0) (.number 1) with error := 3 } 0 0).1 (by decide),
   (error_stops_loop demo_host_alloc demo_code_assign (demo_env (.number 0) (.number 1)) 0
      0).2.1 .BC_ASSIGN { demo_env (.number 0) (.number 1) with error := 3 } 1 rfl
      (by simp [demo_host_alloc, demo_code_assign]) rfl (by decide),
   (error_stops_loop demo_host_alloc demo_code_bad (demo_env .nan .nan) 0 0).2.2 rfl
      (by simp [demo_host_alloc, demo_code_bad]) (by simp [demo_host_alloc, demo_host])⟩


/-- The switch leaves the loop (`goto DO_END`) for `BC_STOP` only. -/
theorem interp_switch_eq_none_iff (H : Host σ) (code : Int → Nat) (env : env_t σ) (pc : Int)
    (op : bcode) : interp_switch H code env pc op = none ↔ op = .BC_STOP := by
  cases op <;> simp [interp_switch]

/-- One instruction of `straight_line_ops` moves `sp` by the negated stack
delta and leaves the `pc` behind its one byte, provided the arithmetic
helpers leave `sp` alone. -/
theorem straight_line_step (H : Host σ) (code : Int → Nat)
    (hnum : ∀ (a : arith) (e : env_t σ) (x y z : ptr), (H.number a e x y z).sp = e.sp)
    (hstr : ∀ (e : env_t σ) (x y z : ptr), (H.string_add e x y z).sp = e.sp)
    (env : env_t σ) (pc : Int) (op : bcode) (hop : op ∈ straight_line_ops) :
    ∃ env1 : env_t σ, interp_switch H code env pc op = some (env1, pc) ∧
      env1.sp = env.sp - stack_delta op := by
  simp only [straight_line_ops, List.mem_cons, List.mem_singleton, List.not_mem_nil,
    or_false] at hop
  rcases hop with rfl | rfl | rfl | rfl | rfl | rfl | rfl | rfl | rfl | rfl | rfl | rfl | rfl |
    rfl | rfl | rfl | rfl | rfl | rfl | rfl | rfl | rfl | rfl | rfl | rfl | rfl <;>
  refine ⟨_, rfl, ?_⟩ <;>
  simp only [stack_delta, env_push_undefined, env_push_nan, env_push_boolean, env_push_zero,
    env_stack_push, env_stack_pop, env_stack_peek, val_set_undefined, val_set_nan,
    val_set_boolean, val_set_number, env_t.store, interp_neg, interp_not, interp_logic_not,
    interp_mul, interp_div, interp_mod, interp_add, interp_sub, interp_and, interp_or,
    interp_xor, interp_lshift, interp_rshift, interp_number_op, interp_teq, interp_tne,
    interp_tgt, interp_tge, interp_tlt, interp_tle, ptr.succ] <;>
  (try split_ifs) <;>
  simp only [hnum, hstr, sub_zero, sub_neg_eq_add]

/-- C20: let the code memory hold, from `pc` on, a sequence `ops` of opcodes
of `straight_line_ops` followed by `BC_STOP`, and let the arithmetic helpers
leave `sp` alone.  If `interp_run` executes the sequence without error (it
returns `0`), then, for every position `top` of the high end of the
downward-growing stack, the final depth `top - sp` is the initial depth plus
the sum of the per-opcode deltas of `stack_delta`. -/
theorem straight_line_depth (H : Host σ) (code : Int → Nat)
    (hnum : ∀ (a : arith) (e : env_t σ) (x y z : ptr), (H.number a e x y z).sp = e.sp)
    (hstr : ∀ (e : env_t σ) (x y z : ptr), (H.string_add e x y z).sp = e.sp)
    (ops : List bcode) (hops : ∀ op ∈ ops, op ∈ straight_line_ops)
    (fuel : Nat) (env : env_t σ) (pc : Int) (env1 : env_t σ)
    (hcode : code_holds H code pc (ops ++ [.BC_STOP]))
    (hrun : interp_run H code fuel env pc = some (env1, 0)) (top : Int) :
    top - env1.sp = (top - env.sp) + (ops.map stack_delta).sum := by
  induction ops generalizing fuel env pc with
  | nil =>
    cases fuel with
    | zero => simp [interp_run] at hrun
    | succ n =>
      have hb : H.bcode_of_byte (code pc) = some .BC_STOP := hcode.1
      unfold interp_run at hrun
      by_cases he : env.error ≠ 0
      · rw [if_pos he] at hrun
        simp only [Option.some.injEq, Prod.mk.injEq] at hrun
        exact absurd (by omega) he
      · rw [if_neg he, hb] at hrun
        simp only [interp_switch, Option.some.injEq, Prod.mk.injEq] at hrun
        rw [← hrun.1]
        simp
  | cons op rest ih =>
    cases fuel with
    | zero => simp [interp_run] at hrun
    | succ n =>
      have hb : H.bcode_of_byte (code pc) = some op := hcode.1
      have hrest : code_holds H code (pc + 1) (rest ++ [.BC_STOP]) := hcode.2
      obtain ⟨e2, hs, hsp⟩ := straight_line_step H code hnum hstr env (pc + 1) op
        (hops op (List.mem_cons_self _ _))
      unfold interp_run at hrun
      by_cases he : env.error ≠ 0
      · rw [if_pos he] at hrun
        simp only [Option.some.injEq, Prod.mk.injEq] at hrun
        exact absurd (by omega) he
      · rw [if_neg he, hb] at hrun
        simp only [hs] at hrun
        have h := ih (fun o ho => hops o (List.mem_cons_of_mem _ ho)) n e2 (pc + 1) hrest hrun
        rw [h, hsp, List.map_cons, List.sum_cons]
        ring

/-- C20, concrete instance: `BC_PUSH_TRUE; BC_ADD; BC_NEG; BC_STOP` run from
`sp = 10` on a stack whose top cell is a number ends with `sp = 10`: the
deltas `+1`, `-1`, `0` sum to `0`. -/
theorem straight_line_depth_witness :
    (16 : Int) - ({ demo_env (.number 0) (.boolean true) with
        sb := Function.update (Function.update (demo_env (.number 0) (.boolean true)).sb 9
          (.boolean true)) 10 (.number (double_neg 0)) } : env_t Unit).sp =
      (16 - (demo_env (.number 0) (.boolean true)).sp) +
        ([bcode.BC_PUSH_TRUE, .BC_ADD, .BC_NEG].map stack_delta).sum :=
  straight_line_depth demo_host_alloc demo_code_line (fun _ _ _ _ _ => rfl)
    (fun _ _ _ _ => rfl) [.BC_PUSH_TRUE, .BC_ADD, .BC_NEG]
    (by simp [straight_line_ops]) 4 (demo_env (.number 0) (.boolean true)) 0
    { demo_env (.number 0) (.boolean true) with
      sb := Function.update (Function.update (demo_env (.number 0) (.boolean true)).sb 9
        (.boolean true)) 10 (.number (double_neg 0)) }
    (by simp [code_holds, demo_host_alloc, demo_code_line])
    (by
      simp [interp_run, interp_switch, demo_host_alloc, demo_host, demo_code_line, demo_env,
        env_push_boolean, env_stack_push, val_set_boolean, env_t.store, interp_add,
        env_stack_peek, env_stack_pop, ptr.succ, env_t.load, val_is_number, val_is_string,
        val_set_nan, val_set_number, val_2_double, interp_neg])
    16


/-! ## Return, closures and literals -/

/-- C21: `BC_RET` takes the address of the top-of-stack cell, lets
`env_frame_restore` restore the frame, pushes one cell and copies into it the
cell at the address taken; `BC_RET0` restores the frame and pushes
`undefined`.  In both cases `sp` ends one cell above the restored `sp`.  When
`env_frame_restore` leaves the callee's top cell as it was, the cell pushed by
`BC_RET` holds exactly the value `r` that was on top of the callee's stack. -/
theorem ret_pushes_callee_top (H : Host σ) (code : Int → Nat) (env : env_t σ) (pc : Int) :
    interp_switch H code env pc .BC_RET =
      some ({ (H.env_frame_restore env pc).1 with
                sp := (H.env_frame_restore env pc).1.sp - 1,
                sb := Function.update (H.env_frame_restore env pc).1.sb
                  ((H.env_frame_restore env pc).1.sp - 1)
                  ((H.env_frame_restore env pc).1.sb env.sp) },
        (H.env_frame_restore env pc).2) ∧
    interp_switch H code env pc .BC_RET0 =
      some ({ (H.env_frame_restore env pc).1 with
                sp := (H.env_frame_restore env pc).1.sp - 1,
                sb := Function.update (H.env_frame_restore env pc).1.sb
                  ((H.env_frame_restore env pc).1.sp - 1) .undefined },
        (H.env_frame_restore env pc).2) ∧
    ((H.env_frame_restore env pc).1.sb env.sp = env.sb env.sp →
      ∃ e : env_t σ, interp_switch H code env pc .BC_RET =
          some (e, (H.env_frame_restore env pc).2) ∧
        e.sp = (H.env_frame_restore env pc).1.sp - 1 ∧
        e.sb e.sp = env.sb env.sp ∧
        ∀ i : Int, i ≠ e.sp → e.sb i = (H.env_frame_restore env pc).1.sb i) := by
  have hret : interp_switch H code env pc .BC_RET =
      some ({ (H.env_frame_restore env pc).1 with
                sp := (H.env_frame_restore env pc).1.sp - 1,
                sb := Function.update (H.env_frame_restore env pc).1.sb
                  ((H.env_frame_restore env pc).1.sp - 1)
                  ((H.env_frame_restore env pc).1.sb env.sp) },
        (H.env_frame_restore env pc).2) := by
    simp only [interp_switch, env_stack_peek, env_stack_push, env_t.store, env_t.load]
  refine ⟨hret, ?_, ?_⟩
  · simp only [interp_switch, env_push_undefined, env_stack_push, val_set_undefined,
      env_t.store]
  · intro hkeep
    refine ⟨_, hret, rfl, ?_, ?_⟩
    · show Function.update _ _ _ _ = _
      rw [Function.update_same, hkeep]
    · intro i hi
      exact Function.update_noteq hi _ _

/-- C21, concrete instance: `BC_RET` with a frame restore that leaves the
environment alone and the number `7` on top of the callee's stack. -/
theorem ret_pushes_callee_top_witness :
    ∃ e : env_t Unit,
      interp_switch demo_host demo_code (demo_env (.number 7) .undefined) 1 .BC_RET =
        some (e, (demo_host.env_frame_restore (demo_env (.number 7) .undefined) 1).2) ∧
      e.sp = (demo_host.env_frame_restore (demo_env (.number 7) .undefined) 1).1.sp - 1 ∧
      e.sb e.sp = (demo_env (.number 7) .undefined).sb (demo_env (.number 7) .undefined).sp ∧
      ∀ i : Int, i ≠ e.sp →
        e.sb i = (demo_host.env_frame_restore (demo_env (.number 7) .undefined) 1).1.sb i :=
  (ret_pushes_callee_top demo_host demo_code (demo_env (.number 7) .undefined) 1).2.2 rfl


/-- C27: `BC_PUSH_SCRIPT idx` reads `idx` from the two operand bytes and calls
`interp_push_function`.  Executed with no error pending: for
`idx >= exe.func_num` it sets `ERR_SysError` and changes nothing else, without
calling `function_create`; for `idx < exe.func_num` it calls
`function_create` with `func_map[idx]`, and on a non-zero result pushes one
script cell holding it, on a zero result calls `env_set_error` with
`ERR_SysError` and pushes nothing (`ERR_SysError` is the error afterwards when
`function_create` left none). -/
theorem push_script_effect (H : Host σ) (code : Int → Nat) (env : env_t σ) (pc : Int)
    (idx : Nat) (herr : env.error = 0) :
    interp_switch H code env pc .BC_PUSH_SCRIPT =
      some (interp_push_function H env (u16_index_or (code pc) (code (pc + 1))), pc + 2) ∧
    (idx ≥ env.exe.func_num →
      interp_push_function H env idx = { env with error := H.ERR_SysError }) ∧
    (idx < env.exe.func_num → (H.function_create env (env.exe.func_map idx)).2 ≠ 0 →
      interp_push_function H env idx =
        { (H.function_create env (env.exe.func_map idx)).1 with
          sp := (H.function_create env (env.exe.func_map idx)).1.sp - 1,
          sb := Function.update (H.function_create env (env.exe.func_map idx)).1.sb
            ((H.function_create env (env.exe.func_map idx)).1.sp - 1)
            (.script (H.function_create env (env.exe.func_map idx)).2) }) ∧
    (idx < env.exe.func_num → (H.function_create env (env.exe.func_map idx)).2 = 0 →
      interp_push_function H env idx =
        env_set_error (H.function_create env (env.exe.func_map idx)).1 H.ERR_SysError ∧
      (interp_push_function H env idx).sp =
        (H.function_create env (env.exe.func_map idx)).1.sp ∧
      (interp_push_function H env idx).sb =
        (H.function_create env (env.exe.func_map idx)).1.sb ∧
      ((H.function_create env (env.exe.func_map idx)).1.error = 0 →
        (interp_push_function H env idx).error = H.ERR_SysError)) := by
  refine ⟨rfl, ?_, ?_, ?_⟩
  · intro hge
    simp [interp_push_function, hge, env_set_error, herr]
  · intro hlt hok
    have hnge : ¬ idx ≥ env.exe.func_num := by omega
    simp only [interp_push_function, hnge, if_false, hok, env_push_script, env_stack_push,
      env_t.store]
  · intro hlt hfail
    have hnge : ¬ idx ≥ env.exe.func_num := by omega
    have hbody : interp_push_function H env idx =
        env_set_error (H.function_create env (env.exe.func_map idx)).1 H.ERR_SysError := by
      simp only [interp_push_function, hnge, if_false, hfail, if_true]
    rw [hbody]
    refine ⟨rfl, ?_, ?_, ?_⟩
    · unfold env_set_error; split_ifs <;> rfl
    · unfold env_set_error; split_ifs <;> rfl
    · intro h0
      simp [env_set_error, h0]

/-- C27, concrete instances: `idx = 3` with an empty function table; and, with
one function in the table, `idx = 0` for a `function_create` that fails and for
one that succeeds with handle `9`. -/
theorem push_script_effect_witness :
    interp_push_function demo_host (demo_env .nan .nan) 3 =
      { demo_env .nan .nan with error := demo_host.ERR_SysError } ∧
    (interp_push_function demo_host
        { demo_env .nan .nan with exe := { (demo_env .nan .nan).exe with func_num := 1 } }
        0).error = demo_host.ERR_SysError ∧
    (interp_push_function { demo_host with function_create := fun e _ => (e, 9) }
        { demo_env .nan .nan with exe := { (demo_env .nan .nan).exe with func_num := 1 } }
        0).sb 9 = .script 9 :=
  ⟨(push_script_effect demo_host demo_code (demo_env .nan .nan) 0 3 rfl).2.1 (by decide),
   ((push_script_effect demo_host demo_code
      { demo_env .nan .nan with exe := { (demo_env .nan .nan).exe with func_num := 1 } }
      0 0 rfl).2.2.2 (by decide) rfl).2.2.2 rfl,
   by
    rw [(push_script_effect { demo_host with function_create := fun e _ => (e, 9) } demo_code
      { demo_env .nan .nan with exe := { (demo_env .nan .nan).exe with func_num := 1 } }
      0 0 rfl).2.2.1 (by decide) (by decide)]
    simp [demo_env]⟩

/-- C30: when `array_create` (for `BC_ARRAY n`) or `object_create` (for
`BC_DICT n`) returns `0`, the handler still releases `n - 1` cells and stores
`undefined` in the cell that becomes the top; it leaves `env.error` as the
helper left it; and the `sp` after the instruction is the helper's `sp` plus
`n - 1` whether the helper failed or succeeded. -/
theorem failed_literal_effect (H : Host σ) (env : env_t σ) (n : Nat) :
    ((H.array_create env n (.stk env.sp)).2 = 0 →
      interp_array H env n =
        { (H.array_create env n (.stk env.sp)).1 with
          sp := (H.array_create env n (.stk env.sp)).1.sp + ((n : Int) - 1),
          sb := Function.update (H.array_create env n (.stk env.sp)).1.sb
            ((H.array_create env n (.stk env.sp)).1.sp + ((n : Int) - 1)) .undefined }) ∧
    ((H.object_create env n (.stk env.sp)).2 = 0 →
      interp_dict H env n =
        { (H.object_create env n (.stk env.sp)).1 with
          sp := (H.object_create env n (.stk env.sp)).1.sp + ((n : Int) - 1),
          sb := Function.update (H.object_create env n (.stk env.sp)).1.sb
            ((H.object_create env n (.stk env.sp)).1.sp + ((n : Int) - 1)) .undefined }) ∧
    (interp_array H env n).error = (H.array_create env n (.stk env.sp)).1.error ∧
    (interp_dict H env n).error = (H.object_create env n (.stk env.sp)).1.error ∧
    (interp_array H env n).sp = (H.array_create env n (.stk env.sp)).1.sp + ((n : Int) - 1) ∧
    (interp_dict H env n).sp = (H.object_create env n (.stk env.sp)).1.sp + ((n : Int) - 1) := by
  refine ⟨?_, ?_, ?_, ?_, ?_, ?_⟩
  · intro h0
    simp [interp_array, env_stack_peek, env_stack_release, val_set_undefined, env_t.store, h0]
  · intro h0
    simp [interp_dict, env_stack_peek, env_stack_release, val_set_undefined, env_t.store, h0]
  all_goals
    simp only [interp_array, interp_dict, env_stack_peek, env_stack_release, val_set_array,
      val_set_dictionary, val_set_undefined, env_t.store]
    split_ifs <;> rfl

/-- C30, concrete instance: `BC_ARRAY 2` and `BC_DICT 2` with helpers that
fail. -/
theorem failed_literal_effect_witness :
    interp_array demo_host (demo_env (.number 1) (.number 2)) 2 =
      { (demo_host.array_create (demo_env (.number 1) (.number 2)) 2
          (.stk (demo_env (.number 1) (.number 2)).sp)).1 with
        sp := (demo_host.array_create (demo_env (.number 1) (.number 2)) 2
          (.stk (demo_env (.number 1) (.number 2)).sp)).1.sp + ((2 : Nat) - 1 : Int),
        sb := Function.update (demo_host.array_create (demo_env (.number 1) (.number 2)) 2
            (.stk (demo_env (.number 1) (.number 2)).sp)).1.sb
          ((demo_host.array_create (demo_env (.number 1) (.number 2)) 2
            (.stk (demo_env (.number 1) (.number 2)).sp)).1.sp + ((2 : Nat) - 1 : Int))
          .undefined } ∧
    interp_dict demo_host (demo_env (.number 1) (.number 2)) 2 =
      { (demo_host.object_create (demo_env (.number 1) (.number 2)) 2
          (.stk (demo_env (.number 1) (.number 2)).sp)).1 with
        sp := (demo_host.object_create (demo_env (.number 1) (.number 2)) 2
          (.stk (demo_env (.number 1) (.number 2)).sp)).1.sp + ((2 : Nat) - 1 : Int),
        sb := Function.update (demo_host.object_create (demo_env (.number 1) (.number 2)) 2
            (.stk (demo_env (.number 1) (.number 2)).sp)).1.sb
          ((demo_host.object_create (demo_env (.number 1) (.number 2)) 2
            (.stk (demo_env (.number 1) (.number 2)).sp)).1.sp + ((2 : Nat) - 1 : Int))
          .undefined } :=
  ⟨(failed_literal_effect demo_host (demo_env (.number 1) (.number 2)) 2).1 rfl,
   (failed_literal_effect demo_host (demo_env (.number 1) (.number 2)) 2).2.1 rfl⟩


/-- C29: in every handler that may allocate, the helper that may allocate is
called on the environment as it was at instruction entry, `sp` included, with
operand cells at `sp`, `sp + 1`, `sp + 2`; the pop or release is applied to
what the helper returns.  `BC_ADD` and `BC_ADD_ASSIGN` on a string call
`string_add` this way, the four reads call `object_prop_get` /
`object_elem_get`, the two writes and their twenty compound forms call
`object_*_set`, `BC_ARRAY` and `BC_DICT` call `array_create` /
`object_create`.  (By contrast the number-only binary handlers pop first:
`number_mul` is called on the environment with `sp + 1`.) -/
theorem allocating_helpers_see_entry_sp (H : Host σ) (env : env_t σ) (n : Nat) (a : arith) :
    (val_is_number (env.sb (env.sp + 1)) = false → val_is_string (env.sb (env.sp + 1)) = true →
      interp_add H env =
        (env_stack_pop (H.string_add env (.stk (env.sp + 1)) (.stk env.sp)
          (.stk (env.sp + 1)))).1) ∧
    (∀ (id generation : Nat) (p : ptr), env.sb (env.sp + 1) = .reference id generation →
      H.env_get_var env id generation = some p →
      val_is_number (env.load p) = false → val_is_string (env.load p) = true →
      interp_add_assign H env =
        (env_stack_pop ((H.string_add env p (.stk env.sp) p).store (.stk (env.sp + 1))
          ((H.string_add env p (.stk env.sp) p).load p))).1) ∧
    interp_prop_get H env =
      (env_stack_pop (H.object_prop_get env (.stk (env.sp + 1)) (.stk env.sp)
        (.stk (env.sp + 1)))).1 ∧
    interp_elem_get H env =
      (env_stack_pop (H.object_elem_get env (.stk (env.sp + 1)) (.stk env.sp)
        (.stk (env.sp + 1)))).1 ∧
    interp_prop_self H env =
      H.object_prop_get env (.stk (env.sp + 1)) (.stk env.sp) (.stk env.sp) ∧
    interp_elem_self H env =
      H.object_elem_get env (.stk (env.sp + 1)) (.stk env.sp) (.stk env.sp) ∧
    interp_prop_set H env =
      (env_stack_release (H.object_prop_set env (.stk (env.sp + 1 + 1)) (.stk (env.sp + 1))
        (.stk env.sp)) 2).1.store (.stk (env.sp + 1 + 1))
        ((H.object_prop_set env (.stk (env.sp + 1 + 1)) (.stk (env.sp + 1))
          (.stk env.sp)).sb env.sp) ∧
    interp_elem_set H env =
      (env_stack_release (H.object_elem_set env (.stk (env.sp + 1 + 1)) (.stk (env.sp + 1))
        (.stk env.sp)) 2).1.store (.stk (env.sp + 1 + 1))
        ((H.object_elem_set env (.stk (env.sp + 1 + 1)) (.stk (env.sp + 1))
          (.stk env.sp)).sb env.sp) ∧
    interp_prop_op_set H a env =
      (env_stack_release (H.object_prop_op_set a env (.stk (env.sp + 1 + 1))
        (.stk (env.sp + 1)) (.stk env.sp) (.stk (env.sp + 1 + 1))) 2).1 ∧
    interp_elem_op_set H a env =
      (env_stack_release (H.object_elem_op_set a env (.stk (env.sp + 1 + 1))
        (.stk (env.sp + 1)) (.stk env.sp) (.stk (env.sp + 1 + 1))) 2).1 ∧
    interp_array H env n =
      { (H.array_create env n (.stk env.sp)).1 with
        sp := (H.array_create env n (.stk env.sp)).1.sp + ((n : Int) - 1),
        sb := Function.update (H.array_create env n (.stk env.sp)).1.sb
          ((H.array_create env n (.stk env.sp)).1.sp + ((n : Int) - 1))
          (if (H.array_create env n (.stk env.sp)).2 ≠ 0
            then .array (H.array_create env n (.stk env.sp)).2 else .undefined) } ∧
    interp_dict H env n =
      { (H.object_create env n (.stk env.sp)).1 with
        sp := (H.object_create env n (.stk env.sp)).1.sp + ((n : Int) - 1),
        sb := Function.update (H.object_create env n (.stk env.sp)).1.sb
          ((H.object_create env n (.stk env.sp)).1.sp + ((n : Int) - 1))
          (if (H.object_create env n (.stk env.sp)).2 ≠ 0
            then .dictionary (H.object_create env n (.stk env.sp)).2 else .undefined) } ∧
    (val_is_number (env.sb (env.sp + 1)) = true →
      interp_mul H env =
        H.number .mul { env with sp := env.sp + 1 } (.stk (env.sp + 1)) (.stk env.sp)
          (.stk (env.sp + 1))) := by
  refine ⟨?_, ?_, rfl, rfl, rfl, rfl, rfl, rfl, rfl, rfl, ?_, ?_, ?_⟩
  · intro hn hs
    simp [interp_add, env_stack_peek, ptr.succ, env_t.load, hn, hs]
  · intro id generation p href hvar hn hs
    simp only [interp_add_assign, env_stack_peek, ptr.succ, env_t.load_stk, href,
      val_is_reference, val_2_reference, hvar, hn, hs, if_true]
    simp
  · simp only [interp_array, env_stack_peek, env_stack_release, val_set_array,
      val_set_undefined, env_t.store]
    split_ifs <;> rfl
  · simp only [interp_dict, env_stack_peek, env_stack_release, val_set_dictionary,
      val_set_undefined, env_t.store]
    split_ifs <;> rfl
  · intro hn
    simp [interp_mul, interp_number_op, env_stack_pop, ptr.succ, env_t.load, hn]

/-- C29, concrete instances: `BC_ADD` with a string left operand,
`BC_ADD_ASSIGN` onto slot `2`, which holds a string, and `BC_MUL` on a number
left operand. -/
theorem allocating_helpers_see_entry_sp_witness :
    interp_add demo_host (demo_env (.number 0) (.string 1)) =
      (env_stack_pop (demo_host.string_add (demo_env (.number 0) (.string 1))
        (.stk ((demo_env (.number 0) (.string 1)).sp + 1))
        (.stk (demo_env (.number 0) (.string 1)).sp)
        (.stk ((demo_env (.number 0) (.string 1)).sp + 1)))).1 ∧
    interp_add_assign demo_host (demo_env (.number 0) (.reference 2 0)) =
      (env_stack_pop ((demo_host.string_add (demo_env (.number 0) (.reference 2 0)) (.var 2)
          (.stk (demo_env (.number 0) (.reference 2 0)).sp) (.var 2)).store
        (.stk ((demo_env (.number 0) (.reference 2 0)).sp + 1))
        ((demo_host.string_add (demo_env (.number 0) (.reference 2 0)) (.var 2)
          (.stk (demo_env (.number 0) (.reference 2 0)).sp) (.var 2)).load (.var 2)))).1 ∧
    interp_mul demo_host (demo_env (.number 0) (.number 1)) =
      demo_host.number .mul
        { demo_env (.number 0) (.number 1) with sp := (demo_env (.number 0) (.number 1)).sp + 1 }
        (.stk ((demo_env (.number 0) (.number 1)).sp + 1))
        (.stk (demo_env (.number 0) (.number 1)).sp)
        (.stk ((demo_env (.number 0) (.number 1)).sp + 1)) :=
  ⟨(allocating_helpers_see_entry_sp demo_host (demo_env (.number 0) (.string 1)) 0 .add).1
      (by simp [demo_env, val_is_number]) (by simp [demo_env, val_is_string]),
   (allocating_helpers_see_entry_sp demo_host (demo_env (.number 0) (.reference 2 0)) 0
      .add).2.1 2 0 (.var 2) (by simp [demo_env]) (by simp [demo_host])
      (by simp [demo_env, env_t.load, val_is_number])
      (by simp [demo_env, env_t.load, val_is_string]),
   (allocating_helpers_see_entry_sp demo_host (demo_env (.number 0) (.number 1)) 0
      .add).2.2.2.2.2.2.2.2.2.2.2.2 (by simp [demo_env, val_is_number])⟩


/-! ## Numeric comparison -/

/-- Every comparison of a NaN with zero is false. -/
theorem double_cmp0_of_nan (d : Nat) (h : double_is_nan d = true) :
    double_gt0 d = false ∧ double_ge0 d = false ∧ double_lt0 d = false ∧
      double_le0 d = false := by
  simp [double_gt0, double_ge0, double_lt0, double_le0, h]

/-- For a double that is not NaN, `d >= 0` is the negation of `d < 0` and
`d <= 0` the negation of `d > 0`. -/
theorem double_cmp0_of_not_nan (d : Nat) (h : double_is_nan d = false) :
    double_ge0 d = !double_lt0 d ∧ double_le0 d = !double_gt0 d := by
  have hs : double_sign d = 0 ∨ double_sign d = 1 := by
    unfold double_sign; omega
  rcases hs with hs | hs <;>
    cases hz : double_is_zero d <;>
    simp [double_gt0, double_ge0, double_lt0, double_le0, h, hs, hz]

/-- C26, as amended: on number operands `a` (left) and `b` (right) the four
opcodes write the comparison with zero of the difference `a - b`, pop one cell
and set no error.  With `a - b` as IEEE-754 defines it, this is the IEEE-754
ordered comparison of `a` and `b` unless both are infinities of the same sign,
and then all four results are false; so every comparison with a NaN operand is
false, and `a >= a` and `a <= a` are true for every finite `a`. -/
theorem number_compare_is_difference_sign (H : Host σ) (code : Int → Nat) (env : env_t σ)
    (pc : Int) (a b : Nat)
    (ha : env.sb (env.sp + 1) = .number a) (hb : env.sb env.sp = .number b)
    (hsub : ieee_sub_sign a b (H.double_sub a b)) :
    interp_switch H code env pc .BC_TGT =
      some ({ env with
          sp := env.sp + 1,
          sb := Function.update env.sb (env.sp + 1)
            (.boolean (double_gt0 (H.double_sub a b))) }, pc) ∧
    interp_switch H code env pc .BC_TGE =
      some ({ env with
          sp := env.sp + 1,
          sb := Function.update env.sb (env.sp + 1)
            (.boolean (double_ge0 (H.double_sub a b))) }, pc) ∧
    interp_switch H code env pc .BC_TLT =
      some ({ env with
          sp := env.sp + 1,
          sb := Function.update env.sb (env.sp + 1)
            (.boolean (double_lt0 (H.double_sub a b))) }, pc) ∧
    interp_switch H code env pc .BC_TLE =
      some ({ env with
          sp := env.sp + 1,
          sb := Function.update env.sb (env.sp + 1)
            (.boolean (double_le0 (H.double_sub a b))) }, pc) ∧
    (same_infinities a b = false →
      double_gt0 (H.double_sub a b) = ieee_gt a b ∧
      double_ge0 (H.double_sub a b) = ieee_ge a b ∧
      double_lt0 (H.double_sub a b) = ieee_lt a b ∧
      double_le0 (H.double_sub a b) = ieee_le a b) ∧
    (same_infinities a b = true →
      double_gt0 (H.double_sub a b) = false ∧ double_ge0 (H.double_sub a b) = false ∧
      double_lt0 (H.double_sub a b) = false ∧ double_le0 (H.double_sub a b) = false) ∧
    (double_is_nan a = true ∨ double_is_nan b = true →
      double_gt0 (H.double_sub a b) = false ∧ double_ge0 (H.double_sub a b) = false ∧
      double_lt0 (H.double_sub a b) = false ∧ double_le0 (H.double_sub a b) = false) ∧
    (a = b → double_is_nan a = false → double_is_inf a = false →
      double_ge0 (H.double_sub a b) = true ∧ double_le0 (H.double_sub a b) = true) := by
  refine ⟨?_, ?_, ?_, ?_, ?_, ?_, ?_, ?_⟩
  · simp [interp_switch, interp_tgt, env_stack_pop, ptr.succ, env_t.load, ha, hb,
      val_is_number, val_2_double, val_set_boolean, env_t.store]
  · simp [interp_switch, interp_tge, env_stack_pop, ptr.succ, env_t.load, ha, hb,
      val_is_number, val_2_double, val_set_boolean, env_t.store]
  · simp [interp_switch, interp_tlt, env_stack_pop, ptr.succ, env_t.load, ha, hb,
      val_is_number, val_2_double, val_set_boolean, env_t.store]
  · simp [interp_switch, interp_tle, env_stack_pop, ptr.succ, env_t.load, ha, hb,
      val_is_number, val_2_double, val_set_boolean, env_t.store]
  · intro hsi
    unfold ieee_sub_sign at hsub
    by_cases hn : double_is_nan a = true ∨ double_is_nan b = true
    · rw [if_pos (by tauto)] at hsub
      obtain ⟨h1, h2, h3, h4⟩ := double_cmp0_of_nan _ hsub
      rw [h1, h2, h3, h4]
      rcases hn with hn | hn <;> simp [ieee_gt, ieee_ge, ieee_lt, ieee_le, hn]
    · have hna : double_is_nan a = false := by
        cases h : double_is_nan a <;> simp_all
      have hnb : double_is_nan b = false := by
        cases h : double_is_nan b <;> simp_all
      rw [if_neg (by simp [hna, hnb, hsi])] at hsub
      obtain ⟨hd, hgt, hlt⟩ := hsub
      obtain ⟨hge, hle⟩ := double_cmp0_of_not_nan _ hd
      rw [hge, hle, hgt, hlt]
      simp only [ieee_gt, ieee_ge, ieee_lt, ieee_le, hna, hnb, Bool.not_false, Bool.true_and,
        true_and, and_true]
      constructor <;> rw [Bool.eq_iff_iff] <;> simp
  · intro hsi
    unfold ieee_sub_sign at hsub
    rw [if_pos (by tauto)] at hsub
    exact double_cmp0_of_nan _ hsub
  · intro hn
    unfold ieee_sub_sign at hsub
    rw [if_pos (by tauto)] at hsub
    exact double_cmp0_of_nan _ hsub
  · intro hab hna hni
    subst hab
    unfold ieee_sub_sign at hsub
    have hsi : same_infinities a a = false := by simp [same_infinities, hni]
    rw [if_neg (by simp [hna, hsi])] at hsub
    obtain ⟨hd, hgt, hlt⟩ := hsub
    obtain ⟨hge, hle⟩ := double_cmp0_of_not_nan _ hd
    rw [hge, hle, hgt, hlt]
    simp

/-- C26, concrete instance of the amended statement: `1.0 > +0`, with the
difference `1.0 - 0 = 1.0`. -/
theorem number_compare_is_difference_sign_witness :
    interp_switch demo_host demo_code
        (demo_env (.number 0) (.number 0x3FF0000000000000)) 1 .BC_TGT =
      some ({ demo_env (.number 0) (.number 0x3FF0000000000000) with
          sp := (demo_env (.number 0) (.number 0x3FF0000000000000)).sp + 1,
          sb := Function.update (demo_env (.number 0) (.number 0x3FF0000000000000)).sb
            ((demo_env (.number 0) (.number 0x3FF0000000000000)).sp + 1)
            (.boolean (double_gt0 (demo_host.double_sub 0x3FF0000000000000 0))) }, 1) ∧
    double_gt0 (demo_host.double_sub 0x3FF0000000000000 0) = ieee_gt 0x3FF0000000000000 0 ∧
    ieee_gt 0x3FF0000000000000 0 = true :=
  ⟨(number_compare_is_difference_sign demo_host demo_code
      (demo_env (.number 0) (.number 0x3FF0000000000000)) 1 0x3FF0000000000000 0 rfl rfl
      (by unfold ieee_sub_sign; decide)).1,
   ((number_compare_is_difference_sign demo_host demo_code
      (demo_env (.number 0) (.number 0x3FF0000000000000)) 1 0x3FF0000000000000 0 rfl rfl
      (by unfold ieee_sub_sign; decide)).2.2.2.2.1 (by decide)).1,
   by decide⟩

/-- C26, counterexample to the claim as stated: for `a = b = +infinity` the
IEEE-754 ordered comparisons `a >= b` and `a <= b` are true, while the
difference `a - b` is NaN and `BC_TGE` and `BC_TLE` write `false`. -/
theorem number_compare_infinity_counterexample :
    ieee_ge 0x7FF0000000000000 0x7FF0000000000000 = true ∧
    ieee_le 0x7FF0000000000000 0x7FF0000000000000 = true ∧
    ieee_sub_sign 0x7FF0000000000000 0x7FF0000000000000
      (demo_host_ieee.double_sub 0x7FF0000000000000 0x7FF0000000000000) ∧
    interp_switch demo_host_ieee demo_code
        (demo_env (.number 0x7FF0000000000000) (.number 0x7FF0000000000000)) 1 .BC_TGE =
      some ({ demo_env (.number 0x7FF0000000000000) (.number 0x7FF0000000000000) with
          sp := 11,
          sb := Function.update
            (demo_env (.number 0x7FF0000000000000) (.number 0x7FF0000000000000)).sb 11
            (.boolean false) }, 1) ∧
    interp_switch demo_host_ieee demo_code
        (demo_env (.number 0x7FF0000000000000) (.number 0x7FF0000000000000)) 1 .BC_TLE =
      some ({ demo_env (.number 0x7FF0000000000000) (.number 0x7FF0000000000000) with
          sp := 11,
          sb := Function.update
            (demo_env (.number 0x7FF0000000000000) (.number 0x7FF0000000000000)).sb 11
            (.boolean false) }, 1) := by
  have hd : demo_host_ieee.double_sub 0x7FF0000000000000 0x7FF0000000000000 =
      0x7FF8000000000000 := by decide
  refine ⟨by decide, by decide, by rw [hd]; unfold ieee_sub_sign; decide, ?_, ?_⟩
  · have h0 : double_ge0 0x7FF8000000000000 = false := by decide
    simp [interp_switch, interp_tge, env_stack_pop, ptr.succ, env_t.load, demo_env,
      val_is_number, val_2_double, val_set_boolean, env_t.store, hd, h0]
  · have h0 : double_le0 0x7FF8000000000000 = false := by decide
    simp [interp_switch, interp_tle, env_stack_pop, ptr.succ, env_t.load, demo_env,
      val_is_number, val_2_double, val_set_boolean, env_t.store, hd, h0]


/-! ## Host API -/

/-- C23: what the code does where the claim fails.  The image program
`BC_PUSH_TRUE; BC_ADD; BC_NEG; BC_STOP` runs to `BC_STOP` without error and
leaves a value in the frame (`fp = 16 > sp = 10`); `interp_execute_image` sets
the out-parameter to the popped cell and returns status `0`, while
`interp_execute_string`, after the same run and the same write of the
out-parameter, returns status `1`. -/
theorem execute_image_status_zero :
    interp_execute_image demo_host_alloc demo_driver demo_code_line 4
        (some (demo_env (.number 0) (.boolean true))) true =
      .ret 0 (some (.cell (.stk 10)))
        (some { demo_env (.number 0) (.boolean true) with
          sp := 11,
          sb := Function.update (Function.update (demo_env (.number 0) (.boolean true)).sb 9
            (.boolean true)) 10 (.number (double_neg 0)) }) ∧
    interp_execute_string demo_host_alloc demo_driver demo_code_line 4
        (some (demo_env (.number 0) (.boolean true))) (some [49]) true =
      .ret 1 (some (.cell (.stk 10)))
        (some { demo_env (.number 0) (.boolean true) with
          sp := 11,
          sb := Function.update (Function.update (demo_env (.number 0) (.boolean true)).sb 9
            (.boolean true)) 10 (.number (double_neg 0)) }) := by
  have hrun : interp_run demo_host_alloc demo_code_line 4 (demo_env (.number 0) (.boolean true))
      0 = some ({ demo_env (.number 0) (.boolean true) with
          sb := Function.update (Function.update (demo_env (.number 0) (.boolean true)).sb 9
            (.boolean true)) 10 (.number (double_neg 0)) }, 0) := by
    simp [interp_run, interp_switch, demo_host_alloc, demo_host, demo_code_line, demo_env,
      env_push_boolean, env_stack_push, val_set_boolean, env_t.store, interp_add,
      env_stack_peek, env_stack_pop, ptr.succ, env_t.load, val_is_number, val_is_string,
      val_set_nan, val_set_number, val_2_double, interp_neg]
  constructor
  · unfold interp_execute_image
    simp only [demo_driver, Bool.not_true, Bool.false_eq_true, if_false]
    rw [hrun]
    simp [interp_result_cell, env_stack_pop, demo_env]
  · unfold interp_execute_string
    simp only [demo_driver, Bool.not_true, Bool.false_eq_true, if_false]
    simp only [List.cons_ne_nil, if_false, if_true]
    rw [hrun]
    simp [interp_result_cell, env_stack_pop, demo_env]

/-- C24: what the code does on null arguments.  `interp_execute_image`
returns `-ERR_InvalidInput` for a null `env` or a null out-parameter, before
anything else.  `interp_execute_string` and `interp_execute_interactive` call
`env_heap_get_free(env)` before their null test, so a null `env` is read
before it is tested; for a null input or a null out-parameter they return the
literal `-1` (which is `-ERR_InvalidInput` only if that code is `1`), with the
environment unchanged and nothing parsed or run. -/
theorem execute_null_arguments (H : Host σ) (D : Driver σ) (code : Int → Nat) (fuel : Nat)
    (env : env_t σ) (input : Option (List Nat)) (input_more : Option Nat) (v : Bool) :
    interp_execute_image H D code fuel none v = .ret (-H.ERR_InvalidInput) none none ∧
    interp_execute_image H D code fuel (some env) false =
      .ret (-H.ERR_InvalidInput) none (some env) ∧
    interp_execute_string H D code fuel none input v = .fault ∧
    interp_execute_interactive H D code fuel none input input_more v = .fault ∧
    interp_execute_string H D code fuel (some env) none v = .ret (-1) none (some env) ∧
    interp_execute_interactive H D code fuel (some env) none input_more v =
      .ret (-1) none (some env) ∧
    (∀ bytes : List Nat,
      interp_execute_string H D code fuel (some env) (some bytes) false =
        .ret (-1) none (some env) ∧
      interp_execute_interactive H D code fuel (some env) (some bytes) input_more false =
        .ret (-1) none (some env)) := by
  refine ⟨rfl, rfl, rfl, rfl, rfl, rfl, fun bytes => ⟨rfl, rfl⟩⟩

/-- C25: what the code does where the claim fails.  With `mem_size = 1000`,
`heap_size = 100`, `stack_size = 10` and null `heap_ptr` and `stack_ptr`,
`interp_env_init_interactive` computes the budget
`1000 - 100 - 10 * sizeof(val_t) = 820` and `interp_env_init_interpreter` the
budget `1000 - 100 - 10 = 890`; with an `env_exe_memery_calc` that rejects
budgets below `850` the first returns `-ERR_NotEnoughMemory` and the second
goes on to `env_init`. -/
theorem init_interpreter_budget_differs :
    interactive_exe_mem_size 1000 none 100 none 10 = 820 ∧
    interpreter_exe_mem_size 1000 none 100 none 10 = 890 ∧
    (interp_env_init_interactive demo_host demo_driver (demo_env .nan .nan) none 1000 none 100
      none 10).1 = -demo_host.ERR_NotEnoughMemory ∧
    (interp_env_init_interpreter demo_host demo_driver (demo_env .nan .nan) none 1000 none 100
      none 10).1 = 0 := by
  refine ⟨by decide, by decide, ?_, ?_⟩
  · have h : interactive_exe_mem_size 1000 none 100 none 10 = 820 := by decide
    simp [interp_env_init_interactive, h, demo_driver]
  · have h : interpreter_exe_mem_size 1000 none 100 none 10 = 890 := by decide
    simp [interp_env_init_interpreter, h, demo_driver]


/-- The value `interp_run` returns is `-env->error` of the environment it
leaves. -/
theorem interp_run_status (H : Host σ) (code : Int → Nat) (fuel : Nat) (env : env_t σ)
    (pc : Int) (e : env_t σ) (r : Int) (h : interp_run H code fuel env pc = some (e, r)) :
    r = -e.error := by
  have heq := interp_run_exit_eq H code fuel env pc
  rw [h] at heq
  cases hx : interp_run_exit H code fuel env pc with
  | none => rw [hx] at heq; simp at heq
  | some t =>
    obtain ⟨k, e0, v⟩ := t
    rw [hx] at heq
    simp only [Option.map_some', Option.some.injEq, Prod.mk.injEq] at heq
    obtain ⟨rfl, rfl⟩ := heq
    exact (interp_run_exit_spec H code fuel env pc k e0 v hx).1

/-- The out-parameter lines: with a value in the frame (`fp > sp`) the top
cell is popped and its address delivered, otherwise the address of the static
`undefined`. -/
theorem interp_result_cell_eq (e : env_t σ) :
    interp_result_cell e =
      (if e.fp > e.sp then { e with sp := e.sp + 1 } else e,
       if e.fp > e.sp then .cell (.stk e.sp) else .static_undefined) := by
  unfold interp_result_cell
  split_ifs <;> rfl

/-- C22: for `interp_execute_string` (with `parse_stmt_multi` and
`compile_multi_stmt`) and `interp_execute_interactive` (with `parse_stmt` and
`compile_one_stmt`), called with non-null arguments.  If the parser produced
no statement the status is `-psr.error`, or `0` when no error was reported;
the out-parameter is not written and nothing is compiled or run.  If parsing
and compiling succeed and `interp_run` returns `0`, the status is `1` and the
out-parameter is the popped top-of-stack cell when `fp > sp`, the static
`undefined` cell otherwise; if `interp_run` returns non-zero the status is
`-env.error`.  Provided a failing compile step reports a non-zero
`cpl.error`, status `0` is returned only when the parser produced no statement
and reported no error. -/
theorem execute_source_status (H : Host σ) (D : Driver σ) (code : Int → Nat) (fuel : Nat)
    (env : env_t σ) (input : List Nat) (input_more : Option Nat)
    (run_entry : Option (env_t σ) → Option (List Nat) → Bool → exec_outcome σ)
    (parse : env_t σ → List Nat → Int × Int → env_t σ × parser_t × Option Nat)
    (compile_stmt : compile_t σ → Nat → compile_t σ × Int)
    (hsel : (run_entry, parse, compile_stmt) =
        (interp_execute_string H D code fuel, D.parse_stmt_multi, D.compile_multi_stmt) ∨
      (run_entry, parse, compile_stmt) =
        (fun e i v => interp_execute_interactive H D code fuel e i input_more v,
         fun e i h => D.parse_stmt e i input_more h, D.compile_one_stmt))
    (e1 : env_t σ) (psr : parser_t) (stmt : Option Nat)
    (hparse : parse env input (D.env_heap_get_free env) = (e1, psr, stmt)) :
    (stmt = none →
      run_entry (some env) (some input) true =
        .ret (if psr.error ≠ 0 then -psr.error else 0) none (some e1)) ∧
    (stmt = none → psr.error = 0 →
      run_entry (some env) (some input) true = .ret 0 none (some e1)) ∧
    (∀ (st : Nat) (cpl1 cpl2 : compile_t σ) (e2 : env_t σ) (pc : Int) (e3 : env_t σ) (r : Int),
      stmt = some st →
      compile_stmt (D.compile_init e1 code psr.heap_free_addr psr.heap_free_size) st =
        (cpl1, 0) →
      D.compile_update cpl1 = (cpl2, 0) →
      D.env_main_entry_setup cpl2.env 0 = (e2, pc) →
      interp_run H cpl2.code fuel e2 pc = some (e3, r) →
      (r = 0 →
        run_entry (some env) (some input) true =
          .ret 1 (some (if e3.fp > e3.sp then .cell (.stk e3.sp) else .static_undefined))
            (some (if e3.fp > e3.sp then { e3 with sp := e3.sp + 1 } else e3))) ∧
      (r ≠ 0 →
        run_entry (some env) (some input) true = .ret (-e3.error) none (some e3) ∧
        -e3.error = r)) ∧
    ((∀ (c : compile_t σ) (st : Nat), (compile_stmt c st).2 ≠ 0 →
        (compile_stmt c st).1.error ≠ 0) →
      (∀ c : compile_t σ, (D.compile_update c).2 ≠ 0 → (D.compile_update c).1.error ≠ 0) →
      ∀ (v1 : Option out_cell) (env1 : Option (env_t σ)),
        run_entry (some env) (some input) true = .ret 0 v1 env1 →
        stmt = none ∧ psr.error = 0 ∧ v1 = none) := by
  rcases hsel with h | h <;>
  ( simp only [Prod.mk.injEq] at h
    obtain ⟨rfl, rfl, rfl⟩ := h
    refine ⟨?_, ?_, ?_, ?_⟩
    · intro hs
      subst hs
      simp [interp_execute_string, interp_execute_interactive, hparse]
    · intro hs h0
      subst hs
      simp [interp_execute_string, interp_execute_interactive, hparse, h0]
    · intro st cpl1 cpl2 e2 pc e3 r hs hc1 hc2 hentry hrun
      subst hs
      have hr := interp_run_status H _ _ _ _ _ _ hrun
      refine ⟨fun h0 => ?_, fun hne => ?_⟩
      · subst h0
        simp [interp_execute_string, interp_execute_interactive, hparse, hc1, hc2, hentry,
          hrun, interp_result_cell_eq]
      · have he : e3.error ≠ 0 := by omega
        simp [interp_execute_string, interp_execute_interactive, hparse, hc1, hc2, hentry,
          hrun, hne, hr, he]
    · intro hcs hcu v1 env1 hret
      cases stmt with
      | none =>
        simp only [interp_execute_string, interp_execute_interactive, hparse, Bool.not_true,
          Bool.false_eq_true, if_false, exec_outcome.ret.injEq] at hret
        obtain ⟨hst, hv, _⟩ := hret
        refine ⟨rfl, ?_, hv.symm⟩
        by_contra hne
        rw [if_pos hne] at hst
        omega
      | some st =>
        exfalso
        simp only [interp_execute_string, interp_execute_interactive, hparse, Bool.not_true,
          Bool.false_eq_true, if_false] at hret
        split_ifs at hret with h1 h2
        · split at hret
          · cases hret
          · rename_i e3 r hrun
            have hr := interp_run_status H _ _ _ _ _ _ hrun
            split_ifs at hret with h3
            · simp only [exec_outcome.ret.injEq] at hret
              omega
            · simp only [exec_outcome.ret.injEq] at hret
              omega
        · simp only [exec_outcome.ret.injEq] at hret
          exact hcu _ h2 (neg_eq_zero.mp hret.1)
        · simp only [exec_outcome.ret.injEq] at hret
          exact hcs _ _ h1 (neg_eq_zero.mp hret.1) )

/-- C22, concrete instances: `interp_execute_string` on an input with a
statement, compiled to `BC_PUSH_TRUE; BC_ADD; BC_NEG; BC_STOP` and run from
`sp = 10`, `fp = 16`, returns `1` with the popped cell; on an empty input it
returns `0` with the out-parameter not written. -/
theorem execute_source_status_witness :
    interp_execute_string demo_host_alloc demo_driver demo_code_line 4
        (some (demo_env (.number 0) (.boolean true))) (some [49]) true =
      .ret 1
        (some (if ({ demo_env (.number 0) (.boolean true) with
            sb := Function.update (Function.update (demo_env (.number 0) (.boolean true)).sb 9
              (.boolean true)) 10 (.number (double_neg 0)) } : env_t Unit).fp >
            ({ demo_env (.number 0) (.boolean true) with
            sb := Function.update (Function.update (demo_env (.number 0) (.boolean true)).sb 9
              (.boolean true)) 10 (.number (double_neg 0)) } : env_t Unit).sp
          then .cell (.stk ({ demo_env (.number 0) (.boolean true) with
            sb := Function.update (Function.update (demo_env (.number 0) (.boolean true)).sb 9
              (.boolean true)) 10 (.number (double_neg 0)) } : env_t Unit).sp)
          else .static_undefined))
        (some (if ({ demo_env (.number 0) (.boolean true) with
            sb := Function.update (Function.update (demo_env (.number 0) (.boolean true)).sb 9
              (.boolean true)) 10 (.number (double_neg 0)) } : env_t Unit).fp >
            ({ demo_env (.number 0) (.boolean true) with
            sb := Function.update (Function.update (demo_env (.number 0) (.boolean true)).sb 9
              (.boolean true)) 10 (.number (double_neg 0)) } : env_t Unit).sp
          then { ({ demo_env (.number 0) (.boolean true) with
            sb := Function.update (Function.update (demo_env (.number 0) (.boolean true)).sb 9
              (.boolean true)) 10 (.number (double_neg 0)) } : env_t Unit) with
            sp := ({ demo_env (.number 0) (.boolean true) with
            sb := Function.update (Function.update (demo_env (.number 0) (.boolean true)).sb 9
              (.boolean true)) 10 (.number (double_neg 0)) } : env_t Unit).sp + 1 }
          else { demo_env (.number 0) (.boolean true) with
            sb := Function.update (Function.update (demo_env (.number 0) (.boolean true)).sb 9
              (.boolean true)) 10 (.number (double_neg 0)) })) ∧
    interp_execute_string demo_host_alloc demo_driver demo_code_line 4
        (some (demo_env (.number 0) (.boolean true))) (some []) true =
      .ret 0 none (some (demo_env (.number 0) (.boolean true))) ∧
    ((none : Option Nat) = none ∧
      ({ error := 0, heap_free_addr := 0, heap_free_size := 0 } : parser_t).error = 0 ∧
      (none : Option out_cell) = none) :=
  ⟨((execute_source_status demo_host_alloc demo_driver demo_code_line 4
      (demo_env (.number 0) (.boolean true)) [49] none
      (interp_execute_string demo_host_alloc demo_driver demo_code_line 4)
      demo_driver.parse_stmt_multi demo_driver.compile_multi_stmt (Or.inl rfl)
      (demo_env (.number 0) (.boolean true))
      { error := 0, heap_free_addr := 0, heap_free_size := 0 } (some 1) rfl).2.2.1
      1 { env := demo_env (.number 0) (.boolean true), code := demo_code_line, error := 0 }
      { env := demo_env (.number 0) (.boolean true), code := demo_code_line, error := 0 }
      (demo_env (.number 0) (.boolean true)) 0
      { demo_env (.number 0) (.boolean true) with
        sb := Function.update (Function.update (demo_env (.number 0) (.boolean true)).sb 9
          (.boolean true)) 10 (.number (double_neg 0)) } 0 rfl rfl rfl rfl
      (by
        simp [interp_run, interp_switch, demo_host_alloc, demo_host, demo_code_line, demo_env,
          env_push_boolean, env_stack_push, val_set_boolean, env_t.store, interp_add,
          env_stack_peek, env_stack_pop, ptr.succ, env_t.load, val_is_number, val_is_string,
          val_set_nan, val_set_number, val_2_double, interp_neg])).1 rfl,
   (execute_source_status demo_host_alloc demo_driver demo_code_line 4
      (demo_env (.number 0) (.boolean true)) [] none
      (interp_execute_string demo_host_alloc demo_driver demo_code_line 4)
      demo_driver.parse_stmt_multi demo_driver.compile_multi_stmt (Or.inl rfl)
      (demo_env (.number 0) (.boolean true))
      { error := 0, heap_free_addr := 0, heap_free_size := 0 } none rfl).2.1 rfl rfl,
   (execute_source_status demo_host_alloc demo_driver demo_code_line 4
      (demo_env (.number 0) (.boolean true)) [] none
      (interp_execute_string demo_host_alloc demo_driver demo_code_line 4)
      demo_driver.parse_stmt_multi demo_driver.compile_multi_stmt (Or.inl rfl)
      (demo_env (.number 0) (.boolean true))
      { error := 0, heap_free_addr := 0, heap_free_size := 0 } none rfl).2.2.2
      (fun _ _ h => absurd rfl h) (fun _ h => absurd rfl h) none
      (some (demo_env (.number 0) (.boolean true))) rfl⟩


/-- The capacity `image_table_max max cnt`, read as `unsigned`, is at least
`cnt`. -/
theorem image_table_max_unsigned (max : Int) (cnt : Nat) (hcnt : cnt < 2 ^ 32) :
    cnt ≤ to_unsigned (image_table_max max cnt) := by
  unfold image_table_max
  split_ifs with h
  · unfold to_unsigned to_int
    have h32 : (2 : Int) ^ 32 = 4294967296 := by norm_num
    have h31 : (2 : Int) ^ 31 = 2147483648 := by norm_num
    have hc : (cnt : Int) < 4294967296 := by exact_mod_cast hcnt
    rw [h32, h31]
    omega
  · omega

/-- The capacity `image_table_max max cnt` is, as an `int`, at least `cnt`
when the maximum is not negative and the count fits an `int`. -/
theorem image_table_max_signed (max : Int) (cnt : Nat) (hmax : 0 ≤ max)
    (hmax2 : max < 2 ^ 31) (hcnt : cnt < 2 ^ 31) :
    (cnt : Int) ≤ image_table_max max cnt := by
  have h32 : (2 : Int) ^ 32 = 4294967296 := by norm_num
  have h31 : (2 : Int) ^ 31 = 2147483648 := by norm_num
  have hc : (cnt : Int) < 2147483648 := by exact_mod_cast hcnt
  rw [h31] at hmax2
  unfold image_table_max
  split_ifs with h
  · unfold to_int
    rw [h32, h31]
    omega
  · unfold to_unsigned at h
    rw [h32] at h
    omega

/-- C28: `interp_env_init_image` returns `-1` with the environment untouched
and `env_init` not called when the image is null or its byte order is not the
host's.  When it returns `0`, `env_exe_memery_calc` accepted the budget,
`env_init` returned `0` on table capacities that are at least the image's
string and function counts, the three counts of `exe` are the image's,
`number_map` is the image's number table, and `string_map[i]` / `func_map[i]`
hold the image's `i`-th string / function for every `i` below the count.
(`ERR_NotEnoughMemory` is taken to be non-zero, the counts to be `unsigned`
values.) -/
theorem init_image_effect (H : Host σ) (D : Driver σ) (env : env_t σ)
    (mem_ptr : Option Nat) (mem_size : Int) (heap_ptr : Option Nat) (heap_size : Int)
    (stack_ptr : Option Nat) (stack_size : Int) (hcode : H.ERR_NotEnoughMemory ≠ 0) :
    interp_env_init_image H D env mem_ptr mem_size heap_ptr heap_size stack_ptr stack_size
      none = (-1, env) ∧
    (∀ image : image_info_t, image.byte_order ≠ D.SYS_BYTE_ORDER →
      interp_env_init_image H D env mem_ptr mem_size heap_ptr heap_size stack_ptr stack_size
        (some image) = (-1, env)) ∧
    (∀ (image : image_info_t) (env1 : env_t σ),
      image.str_cnt < 2 ^ 32 → image.fn_cnt < 2 ^ 32 →
      interp_env_init_image H D env mem_ptr mem_size heap_ptr heap_size stack_ptr stack_size
        (some image) = (0, env1) →
      env1.exe.number_num = image.num_cnt ∧
      env1.exe.string_num = image.str_cnt ∧
      env1.exe.func_num = image.fn_cnt ∧
      env1.exe.number_map = image.numbers ∧
      (∀ i : Nat, i < image.str_cnt → env1.exe.string_map i = image.strings i) ∧
      (∀ i : Nat, i < image.fn_cnt → env1.exe.func_map i = image.functions i) ∧
      ∃ n s f c : Int,
        D.env_exe_memery_calc (to_int (mem_size - heap_size - stack_size * sizeof_val_t)) =
          some (n, s, f, c) ∧
        (D.env_init env
          { mem_ptr := mem_ptr, mem_size := mem_size, heap_ptr := heap_ptr,
            heap_size := heap_size, stack_ptr := stack_ptr, stack_size := stack_size,
            number_max := 0, string_max := image_table_max s image.str_cnt,
            func_max := image_table_max f image.fn_cnt,
            main_code_max := 0, func_code_max := 0, interactive := 0 }).1 = 0 ∧
        image.str_cnt ≤ to_unsigned (image_table_max s image.str_cnt) ∧
        image.fn_cnt ≤ to_unsigned (image_table_max f image.fn_cnt) ∧
        (0 ≤ s → s < 2 ^ 31 → image.str_cnt < 2 ^ 31 →
          (image.str_cnt : Int) ≤ image_table_max s image.str_cnt) ∧
        (0 ≤ f → f < 2 ^ 31 → image.fn_cnt < 2 ^ 31 →
          (image.fn_cnt : Int) ≤ image_table_max f image.fn_cnt)) := by
  refine ⟨rfl, ?_, ?_⟩
  · intro image hbo
    simp [interp_env_init_image, hbo]
  · intro image env1 hs hf hret
    unfold interp_env_init_image at hret
    simp only at hret
    split_ifs at hret with hbo
    · simp at hret
    · cases hcalc : D.env_exe_memery_calc
          (to_int (mem_size - heap_size - stack_size * sizeof_val_t)) with
      | none =>
        rw [hcalc] at hret
        simp only [Prod.mk.injEq] at hret
        exact absurd (neg_eq_zero.mp hret.1) hcode
      | some q =>
        obtain ⟨n, s, f, c⟩ := q
        rw [hcalc] at hret
        simp only at hret
        split_ifs at hret with hr
        · simp at hret
        · simp only [Prod.mk.injEq, true_and] at hret
          subst hret
          refine ⟨rfl, rfl, rfl, rfl, ?_, ?_, n, s, f, c, rfl, ?_,
            image_table_max_unsigned s _ hs, image_table_max_unsigned f _ hf,
            fun h1 h2 h3 => image_table_max_signed s _ h1 h2 h3,
            fun h1 h2 h3 => image_table_max_signed f _ h1 h2 h3⟩
          · intro i hi
            simp [hi]
          · intro i hi
            simp [hi]
          · simpa using hr

/-- C28, concrete instance: an image with one number, two strings and one
function, loaded with a budget of `1000 - 100 - 5 * 8 = 860` bytes. -/
theorem init_image_effect_witness :
    ∃ env1 : env_t Unit,
      interp_env_init_image demo_host demo_driver (demo_env .nan .nan) none 1000 none 100 none
        5 (some demo_image) = (0, env1) ∧
      env1.exe.number_num = demo_image.num_cnt ∧
      env1.exe.string_num = demo_image.str_cnt ∧
      env1.exe.func_num = demo_image.fn_cnt ∧
      env1.exe.number_map = demo_image.numbers ∧
      (∀ i : Nat, i < demo_image.str_cnt → env1.exe.string_map i = demo_image.strings i) ∧
      (∀ i : Nat, i < demo_image.fn_cnt → env1.exe.func_map i = demo_image.functions i) ∧
      ∃ n s f c : Int,
        demo_driver.env_exe_memery_calc (to_int (1000 - 100 - 5 * sizeof_val_t)) =
          some (n, s, f, c) ∧
        (demo_driver.env_init (demo_env .nan .nan)
          { mem_ptr := none, mem_size := 1000, heap_ptr := none,
            heap_size := 100, stack_ptr := none, stack_size := 5,
            number_max := 0, string_max := image_table_max s demo_image.str_cnt,
            func_max := image_table_max f demo_image.fn_cnt,
            main_code_max := 0, func_code_max := 0, interactive := 0 }).1 = 0 ∧
        demo_image.str_cnt ≤ to_unsigned (image_table_max s demo_image.str_cnt) ∧
        demo_image.fn_cnt ≤ to_unsigned (image_table_max f demo_image.fn_cnt) ∧
        (0 ≤ s → s < 2 ^ 31 → demo_image.str_cnt < 2 ^ 31 →
          (demo_image.str_cnt : Int) ≤ image_table_max s demo_image.str_cnt) ∧
        (0 ≤ f → f < 2 ^ 31 → demo_image.fn_cnt < 2 ^ 31 →
          (demo_image.fn_cnt : Int) ≤ image_table_max f demo_image.fn_cnt) :=
  ⟨_, rfl, (init_image_effect demo_host demo_driver (demo_env .nan .nan) none 1000 none 100
    none 5 (by decide)).2.2 demo_image _ (by decide) (by decide) rfl⟩

end Panda
